import Mathlib

/-!
# Verification of the pbrt-v4 shape geometry core (`src/pbrt/shapes.h`)

This file gives a shallow embedding, over the real numbers, of the shape
geometry code in `src/pbrt/shapes.h` (sphere, disk, cylinder, triangle,
bilinear patch, curve), and settles a list of claims about it.

Modelling conventions, used throughout:

* `Float` is modelled by `ℝ` (exact real arithmetic; no rounding).  In this
  idealisation the machine epsilon is `0`, so pbrt's `gamma(n) = n·ε/(1-n·ε)`
  error bound is `0`, and `NextFloatUp`/`NextFloatDown` are the identity.
* `FloatInterval` is modelled by a pair of reals `⟨lo, hi⟩`, with the interval
  operations of pbrt's `Interval` class evaluated exactly at the endpoints
  (no outward rounding).
* The render-from-object / object-from-render transforms are external
  collaborators (`util/transform.h` is not among the sources); every shape is
  modelled in object space, i.e. with the identity transform, so `Point3fi(o)`
  produces degenerate (width-zero) intervals.
* Division of an interval by an interval that straddles `0` yields pbrt's
  whole-line interval `[-∞, ∞]`, which has no representation over `ℝ`; the
  model returns the junk value `⟨0, 0⟩` in that case.  No claim below
  exercises that case with a meaningful result.
* `std::isinf` applied to a quotient `num/den` of finite values is modelled by
  the flag `den = 0 ∧ num ≠ 0` (in exact arithmetic the quotient is `±∞`
  exactly when the divisor is zero and the dividend is not; `0/0` is a NaN,
  for which `std::isinf` is `false`).
* Functions of this repository that are declared but whose bodies live in
  files not among the sources (`shapes.cpp`, `util/sampling.h`,
  `util/vecmath.h`, `interaction.h`) are modelled from the spec; each such
  definition carries a doc comment starting with `Modelled from the spec:`.
-/

noncomputable section

set_option linter.unusedVariables false

open Real

open scoped Classical

/-! ## Vectors and points -/

/-- A 3-vector (also used for points and normals) of `Float`s, `Float = ℝ`. -/
structure V3 where
  x : ℝ
  y : ℝ
  z : ℝ

/-- A 2-vector / 2D point of `Float`s (pbrt `Point2f` / `Vector2f`). -/
structure Pt2 where
  x : ℝ
  y : ℝ

instance : Add V3 := ⟨fun a b => ⟨a.x + b.x, a.y + b.y, a.z + b.z⟩⟩

instance : Sub V3 := ⟨fun a b => ⟨a.x - b.x, a.y - b.y, a.z - b.z⟩⟩

instance : Neg V3 := ⟨fun a => ⟨-a.x, -a.y, -a.z⟩⟩

instance : SMul ℝ V3 := ⟨fun c a => ⟨c * a.x, c * a.y, c * a.z⟩⟩

instance : Zero V3 := ⟨⟨0, 0, 0⟩⟩

/-- pbrt `Dot`. -/
def Dot (a b : V3) : ℝ := a.x * b.x + a.y * b.y + a.z * b.z

/-- pbrt `AbsDot`. -/
def AbsDot (a b : V3) : ℝ := |Dot a b|

/-- pbrt `Cross`. -/
def Cross (a b : V3) : V3 :=
  ⟨a.y * b.z - a.z * b.y, a.z * b.x - a.x * b.z, a.x * b.y - a.y * b.x⟩

/-- pbrt `LengthSquared`. -/
def LengthSquared (a : V3) : ℝ := a.x ^ 2 + a.y ^ 2 + a.z ^ 2

/-- pbrt `Length`. -/
def Length (a : V3) : ℝ := Real.sqrt (LengthSquared a)

/-- pbrt `Normalize` (`v / Length(v)`; the zero vector maps to zero in the
real model, where division by zero yields zero). -/
def Normalize (a : V3) : V3 := (1 / Length a) • a

/-- pbrt `Distance` between two points. -/
def Distance (a b : V3) : ℝ := Length (a - b)

/-- pbrt `DistanceSquared`. -/
def DistanceSquared (a b : V3) : ℝ := LengthSquared (a - b)

/-- pbrt `Lerp` on scalars: `(1 - t) * a + t * b`. -/
def LerpF (t a b : ℝ) : ℝ := (1 - t) * a + t * b

/-- pbrt `Lerp` on 3-vectors, componentwise. -/
def LerpV (t : ℝ) (a b : V3) : V3 := ⟨LerpF t a.x b.x, LerpF t a.y b.y, LerpF t a.z b.z⟩

/-- pbrt `Clamp`. -/
def Clamp (v lo hi : ℝ) : ℝ := if v < lo then lo else if v > hi then hi else v

/-- pbrt `Radians`: degrees to radians. -/
def Radians (deg : ℝ) : ℝ := (Real.pi / 180) * deg

/-- pbrt `SafeSqrt` (`sqrt(max(0, x))`); `Real.sqrt` already sends negative
arguments to `0`. -/
def SafeSqrt (x : ℝ) : ℝ := Real.sqrt x

/-- pbrt `SafeACos` (`acos(Clamp(x, -1, 1))`); `Real.arccos` already clamps
its argument to `[-1, 1]`. -/
def SafeACos (x : ℝ) : ℝ := Real.arccos x

/-- C `atan2(y, x)` in exact real arithmetic. -/
def atan2 (y x : ℝ) : ℝ :=
  if 0 < x then Real.arctan (y / x)
  else if x < 0 then
    (if 0 ≤ y then Real.arctan (y / x) + Real.pi else Real.arctan (y / x) - Real.pi)
  else
    (if 0 < y then Real.pi / 2 else if y < 0 then -(Real.pi / 2) else 0)

/-- pbrt `FaceForward`: flip `n` so that it lies in the hemisphere of `v`. -/
def FaceForward (n v : V3) : V3 := if Dot n v < 0 then -n else n

/-- pbrt `gamma(n) = n·ε/(1-n·ε)`; the machine epsilon of the exact real
model is `0`, so the bound is `0`. -/
def gammaF (_n : ℕ) : ℝ := 0

/-! ## Interval arithmetic (`FloatInterval`)

pbrt's `Interval` carries a lower and an upper bound and rounds outward; the
model computes the same endpoint formulas exactly. -/

/-- pbrt `FloatInterval`: a pair of bounds. -/
structure FloatInterval where
  lo : ℝ
  hi : ℝ

namespace FloatInterval

/-- An exact (width-zero) interval, as produced by converting a `Float`. -/
def exact (x : ℝ) : FloatInterval := ⟨x, x⟩

/-- pbrt `Interval::Midpoint`, used by the `(Float)` cast. -/
def mid (i : FloatInterval) : ℝ := (i.lo + i.hi) / 2

/-- Interval addition. -/
def add (a b : FloatInterval) : FloatInterval := ⟨a.lo + b.lo, a.hi + b.hi⟩

/-- Interval subtraction. -/
def sub (a b : FloatInterval) : FloatInterval := ⟨a.lo - b.hi, a.hi - b.lo⟩

/-- Interval negation. -/
def neg (a : FloatInterval) : FloatInterval := ⟨-a.hi, -a.lo⟩

/-- Interval multiplication: min/max over the four endpoint products. -/
def mul (a b : FloatInterval) : FloatInterval :=
  ⟨min (min (a.lo * b.lo) (a.lo * b.hi)) (min (a.hi * b.lo) (a.hi * b.hi)),
   max (max (a.lo * b.lo) (a.lo * b.hi)) (max (a.hi * b.lo) (a.hi * b.hi))⟩

/-- Interval division.  When the divisor straddles `0`, pbrt returns the
whole line `[-∞, ∞]`, which is not representable over `ℝ`; the model returns
the junk value `⟨0, 0⟩` in that case (no claim exercises it). -/
def div (a b : FloatInterval) : FloatInterval :=
  if b.lo ≤ 0 ∧ 0 ≤ b.hi then ⟨0, 0⟩
  else
    ⟨min (min (a.lo / b.lo) (a.lo / b.hi)) (min (a.hi / b.lo) (a.hi / b.hi)),
     max (max (a.lo / b.lo) (a.lo / b.hi)) (max (a.hi / b.lo) (a.hi / b.hi))⟩

/-- pbrt `Sqr(Interval)`: based on the absolute values of the bounds; an
interval containing `0` squares to `[0, max²]`. -/
def sqr (a : FloatInterval) : FloatInterval :=
  if a.lo ≤ 0 ∧ 0 ≤ a.hi then ⟨0, max (|a.lo|) (|a.hi|) ^ 2⟩
  else ⟨min (|a.lo|) (|a.hi|) ^ 2, max (|a.lo|) (|a.hi|) ^ 2⟩

/-- pbrt `Sqrt(Interval)`. -/
def sqrtI (a : FloatInterval) : FloatInterval := ⟨Real.sqrt a.lo, Real.sqrt a.hi⟩

instance : Add FloatInterval := ⟨add⟩

instance : Sub FloatInterval := ⟨sub⟩

instance : Neg FloatInterval := ⟨neg⟩

instance : Mul FloatInterval := ⟨mul⟩

end FloatInterval

/-- pbrt `Point3fi` / `Vector3fi`: a 3-vector of intervals. -/
structure P3I where
  x : FloatInterval
  y : FloatInterval
  z : FloatInterval

namespace P3I

/-- Conversion of an exact point/vector, as in `Point3fi(r.o)`. -/
def exact (v : V3) : P3I := ⟨.exact v.x, .exact v.y, .exact v.z⟩

/-- `Vector3f` / `Point3f` cast: midpoints. -/
def mid (p : P3I) : V3 := ⟨p.x.mid, p.y.mid, p.z.mid⟩

end P3I

/-- pbrt `SumSquares` over three intervals: `Sqr x + Sqr y + Sqr z`. -/
def SumSquares3 (x y z : FloatInterval) : FloatInterval := x.sqr + y.sqr + z.sqr

/-- pbrt `SumSquares` over two intervals. -/
def SumSquares2 (x y : FloatInterval) : FloatInterval := x.sqr + y.sqr

/-! ## Rays, interactions, samples -/

/-- pbrt `Ray` (the participating-medium reference is irrelevant to the
geometric claims and omitted). -/
structure Ray where
  o : V3
  d : V3
  time : ℝ := 0

/-- `ray(t) = o + t*d`. -/
def Ray.at (r : Ray) (t : ℝ) : V3 := r.o + t • r.d

/-- The interaction stored in a `ShapeSample` (point, normal, time; the error
bound of the exact model is zero and not carried). -/
structure InteractionLite where
  p : V3
  n : V3
  time : ℝ := 0

/-- pbrt `ShapeSample`. -/
structure ShapeSampleT where
  intr : InteractionLite
  pdf : ℝ

/-- pbrt `QuadricIntersection`. -/
structure QuadricIntersection where
  tHit : ℝ
  pObj : V3
  phi : ℝ

/-- The shading frame stored in a `SurfaceInteraction`. -/
structure ShadingGeom where
  n : V3
  dpdu : V3
  dpdv : V3
  dndu : V3
  dndv : V3

/-- pbrt `SurfaceInteraction` (the fields the claims observe). -/
structure SurfaceInteraction where
  p : V3
  pError : V3
  uv : Pt2
  wo : V3
  dpdu : V3
  dpdv : V3
  dndu : V3
  dndv : V3
  n : V3
  time : ℝ
  shading : ShadingGeom
  faceIndex : ℕ := 0

/-- Modelled from the spec: the `SurfaceInteraction` constructor lives in
`interaction.h`, which is not among the sources.  Per the spec's data model,
`n = normalize(∂p/∂u × ∂p/∂v)`, flipped when
`reverseOrientation XOR transformSwapsHandedness` holds, and the shading
frame is initialised from the geometric one. -/
def mkSurfaceInteraction (p pError : V3) (uv : Pt2) (wo dpdu dpdv dndu dndv : V3)
    (time : ℝ) (flip : Bool) (faceIndex : ℕ := 0) : SurfaceInteraction :=
  let n0 := Normalize (Cross dpdu dpdv)
  let n := if flip then -n0 else n0
  { p := p, pError := pError, uv := uv, wo := wo, dpdu := dpdu, dpdv := dpdv,
    dndu := dndu, dndv := dndv, n := n, time := time,
    shading := ⟨n, dpdu, dpdv, dndu, dndv⟩, faceIndex := faceIndex }

/-- Modelled from the spec: `SurfaceInteraction::SetShadingGeometry` lives in
`interaction.h`, which is not among the sources.  It installs the shading
frame and aligns the geometric normal with the shading normal
(`FaceForward`) when the shading normal is authoritative, and conversely
otherwise. -/
def SurfaceInteraction.setShadingGeometry (si : SurfaceInteraction)
    (ns ss ts dndu dndv : V3) (shadingOrientationIsAuthoritative : Bool) :
    SurfaceInteraction :=
  if shadingOrientationIsAuthoritative then
    { si with n := FaceForward si.n ns,
              shading := ⟨ns, ss, ts, dndu, dndv⟩ }
  else
    { si with shading := ⟨FaceForward ns si.n, ss, ts, dndu, dndv⟩ }

/-- pbrt `ShapeIntersection`. -/
structure ShapeIntersectionT where
  intr : SurfaceInteraction
  tHit : ℝ

/-- pbrt `TriangleIntersection`. -/
structure TriangleIntersection where
  b0 : ℝ
  b1 : ℝ
  b2 : ℝ
  t : ℝ

/-- pbrt `BilinearIntersection`. -/
structure BilinearIntersection where
  uv : Pt2
  t : ℝ

/-! ## ShapeSampleContext -/

/-- pbrt `ShapeSampleContext`: reference point with error bound, geometric
and shading normals, time. -/
structure ShapeSampleContext where
  p : V3
  err : V3
  n : V3
  ns : V3
  time : ℝ

namespace ShapeSampleContext

/-- `ShapeSampleContext::OffsetRayOrigin(w)`, per the source; the final
`NextFloatUp`/`NextFloatDown` rounding is the identity in exact arithmetic. -/
def offsetRayOrigin (ctx : ShapeSampleContext) (w : V3) : V3 :=
  let d := Dot ⟨|ctx.n.x|, |ctx.n.y|, |ctx.n.z|⟩ ctx.err
  let offset := d • ctx.n
  let offset := if Dot w ctx.n < 0 then -offset else offset
  ctx.p + offset

/-- `ShapeSampleContext::OffsetRayOrigin(pt)` = `OffsetRayOrigin(pt - p())`. -/
def offsetRayOriginP (ctx : ShapeSampleContext) (pt : V3) : V3 :=
  ctx.offsetRayOrigin (pt - ctx.p)

/-- `ShapeSampleContext::SpawnRay`. -/
def spawnRay (ctx : ShapeSampleContext) (w : V3) : Ray :=
  ⟨ctx.offsetRayOrigin w, w, ctx.time⟩

end ShapeSampleContext

/-! ## DirectionCone -/

/-- pbrt `DirectionCone`: a cone of directions `(axis, cos θ)`. -/
structure DirectionCone where
  w : V3
  cosTheta : ℝ

/-- `DirectionCone::EntireSphere()`: axis `(0,0,1)`, `cos θ = -1`. -/
def DirectionCone.entireSphere : DirectionCone := ⟨⟨0, 0, 1⟩, -1⟩

/-- pbrt `Inside(DirectionCone, w)`: `Dot(d.w, Normalize(w)) ≥ d.cosTheta`
(the empty-cone sentinel `cosTheta = ∞` is never produced by the embedded
functions and is not modelled). -/
def DirectionCone.inside (d : DirectionCone) (w : V3) : Prop :=
  Dot d.w (Normalize w) ≥ d.cosTheta

/-! ## Sphere -/

/-- pbrt `Sphere` (object-space model; the two transform pointers are the
identity, and `transformSwapsHandedness` is carried as a field). -/
structure Sphere where
  radius : ℝ
  zMin : ℝ
  zMax : ℝ
  thetaZMin : ℝ
  thetaZMax : ℝ
  phiMax : ℝ
  reverseOrientation : Bool
  transformSwapsHandedness : Bool

/-- The `Sphere` constructor: clamps `zMin ≤ zMax` into `[-r, r]`, derives
`thetaZMin/Max`, converts `phiMax` from degrees clamped to `[0, 360]`. -/
def mkSphere (reverseOrientation swaps : Bool) (radius zMin zMax phiMax : ℝ) : Sphere :=
  { radius := radius
    zMin := Clamp (min zMin zMax) (-radius) radius
    zMax := Clamp (max zMin zMax) (-radius) radius
    thetaZMin := Real.arccos (Clamp (min zMin zMax / radius) (-1) 1)
    thetaZMax := Real.arccos (Clamp (max zMin zMax / radius) (-1) 1)
    phiMax := Radians (Clamp phiMax 0 360)
    reverseOrientation := reverseOrientation
    transformSwapsHandedness := swaps }

namespace Sphere

/-- `Sphere::NormalBounds()`. -/
def NormalBounds (_s : Sphere) : DirectionCone := .entireSphere

/-- `Sphere::Area()`. -/
def Area (s : Sphere) : ℝ := s.phiMax * s.radius * (s.zMax - s.zMin)

/-- The quadratic coefficient `a = SumSquares(d.x, d.y, d.z)` of
`Sphere::SphereQuadratic`. -/
def quadA (d : P3I) : FloatInterval := SumSquares3 d.x d.y d.z

/-- The coefficient `b = 2 (d.x o.x + d.y o.y + d.z o.z)`. -/
def quadB (o d : P3I) : FloatInterval :=
  FloatInterval.exact 2 * (d.x * o.x + d.y * o.y + d.z * o.z)

/-- The coefficient `c = SumSquares(o) - Sqr(radius)`. -/
def quadC (radius : ℝ) (o : P3I) : FloatInterval :=
  SumSquares3 o.x o.y o.z - (FloatInterval.exact radius).sqr

/-- The RT-Gems discriminant interval
`4 a (radius - sqrtf) (radius + sqrtf)` with
`sqrtf = Sqrt(SumSquares(o - (b/2a) d))`, exactly as computed inside
`Sphere::SphereQuadratic`. -/
def sphereDiscrim (radius : ℝ) (o d : P3I) : FloatInterval :=
  let a := quadA d
  let b := quadB o d
  let f := b.div (FloatInterval.exact 2 * a)
  let fpx := o.x - f * d.x
  let fpy := o.y - f * d.y
  let fpz := o.z - f * d.z
  let sqrtf := (SumSquares3 fpx fpy fpz).sqrtI
  FloatInterval.exact 4 * a * (FloatInterval.exact radius - sqrtf) *
    (FloatInterval.exact radius + sqrtf)

/-- `Sphere::SphereQuadratic`: returns the ordered root intervals
`(t0, t1)`, or `none` when the discriminant interval's lower bound is
negative. -/
def SphereQuadratic (radius : ℝ) (o d : P3I) :
    Option (FloatInterval × FloatInterval) :=
  let a := quadA d
  let b := quadB o d
  let c := quadC radius o
  let discrim := sphereDiscrim radius o d
  if discrim.lo < 0 then none
  else
    let rootDiscrim := discrim.sqrtI
    let q : FloatInterval :=
      if b.mid < 0 then FloatInterval.exact (-(1/2)) * (b - rootDiscrim)
      else FloatInterval.exact (-(1/2)) * (b + rootDiscrim)
    let t0 := q.div a
    let t1 := c.div q
    if t0.lo > t1.lo then some (t1, t0) else some (t0, t1)

/-- The hit-position/φ block of `Sphere::BasicIntersect` (duplicated twice in
the source): reproject onto the sphere, perturb `x` when `x = y = 0`, compute
`φ = atan2(y, x)` shifted into `[0, 2π)`. -/
def hitPosPhi (s : Sphere) (ray : Ray) (t : ℝ) : V3 × ℝ :=
  let pHit := ray.at t
  let pHit := (s.radius / Distance pHit 0) • pHit
  let pHit := if pHit.x = 0 ∧ pHit.y = 0 then { pHit with x := 1e-5 * s.radius } else pHit
  let phi := atan2 pHit.y pHit.x
  let phi := if phi < 0 then phi + 2 * Real.pi else phi
  (pHit, phi)

/-- The clip test of `Sphere::BasicIntersect`: z-band and `φmax`. -/
def clipRejects (s : Sphere) (pHit : V3) (phi : ℝ) : Prop :=
  (s.zMin > -s.radius ∧ pHit.z < s.zMin) ∨ (s.zMax < s.radius ∧ pHit.z > s.zMax) ∨
    phi > s.phiMax

/-- `Sphere::BasicIntersect` (object space = render space; identity
transforms). -/
def BasicIntersect (s : Sphere) (r : Ray) (tMax : WithTop ℝ) :
    Option QuadricIntersection :=
  let oi := P3I.exact r.o
  let di := P3I.exact r.d
  let ray : Ray := ⟨oi.mid, di.mid, r.time⟩
  match SphereQuadratic s.radius oi di with
  | none => none
  | some (t0, t1) =>
    if (t0.hi : WithTop ℝ) > tMax ∨ t1.lo ≤ 0 then none
    else
      let tShapeHit := if t0.lo ≤ 0 then t1 else t0
      if t0.lo ≤ 0 ∧ (t1.hi : WithTop ℝ) > tMax then none
      else
        let pp := hitPosPhi s ray tShapeHit.mid
        if clipRejects s pp.1 pp.2 then
          if tShapeHit = t1 then none
          else if (t1.hi : WithTop ℝ) > tMax then none
          else
            let tShapeHit := t1
            let pp := hitPosPhi s ray tShapeHit.mid
            if clipRejects s pp.1 pp.2 then none
            else some ⟨tShapeHit.mid, pp.1, pp.2⟩
        else some ⟨tShapeHit.mid, pp.1, pp.2⟩

/-- `Sphere::InteractionFromIntersection`. -/
def InteractionFromIntersection (s : Sphere) (isect : QuadricIntersection)
    (wo : V3) (time : ℝ) : SurfaceInteraction :=
  let pHit := isect.pObj
  let phi := isect.phi
  let u := phi / s.phiMax
  let cosTheta := pHit.z / s.radius
  let theta := SafeACos cosTheta
  let v := (theta - s.thetaZMin) / (s.thetaZMax - s.thetaZMin)
  let zRadius := Real.sqrt (pHit.x * pHit.x + pHit.y * pHit.y)
  let invZRadius := 1 / zRadius
  let cosPhi := pHit.x * invZRadius
  let sinPhi := pHit.y * invZRadius
  let dpdu : V3 := ⟨-s.phiMax * pHit.y, s.phiMax * pHit.x, 0⟩
  let sinTheta := SafeSqrt (1 - cosTheta * cosTheta)
  let dpdv : V3 := (s.thetaZMax - s.thetaZMin) •
    (⟨pHit.z * cosPhi, pHit.z * sinPhi, -s.radius * sinTheta⟩ : V3)
  let d2Pduu : V3 := (-s.phiMax * s.phiMax) • (⟨pHit.x, pHit.y, 0⟩ : V3)
  let d2Pduv : V3 := ((s.thetaZMax - s.thetaZMin) * pHit.z * s.phiMax) •
    (⟨-sinPhi, cosPhi, 0⟩ : V3)
  let d2Pdvv : V3 := (-(s.thetaZMax - s.thetaZMin) * (s.thetaZMax - s.thetaZMin)) •
    (⟨pHit.x, pHit.y, pHit.z⟩ : V3)
  let E := Dot dpdu dpdu
  let F := Dot dpdu dpdv
  let G := Dot dpdv dpdv
  let N := Normalize (Cross dpdu dpdv)
  let e := Dot N d2Pduu
  let f := Dot N d2Pduv
  let g := Dot N d2Pdvv
  let invEGF2 := 1 / (E * G - F * F)
  let dndu := ((f * F - e * G) * invEGF2) • dpdu + ((e * F - f * E) * invEGF2) • dpdv
  let dndv := ((g * F - f * G) * invEGF2) • dpdu + ((f * F - g * E) * invEGF2) • dpdv
  let pError := gammaF 5 • (⟨|pHit.x|, |pHit.y|, |pHit.z|⟩ : V3)
  mkSurfaceInteraction pHit pError ⟨u, v⟩ wo dpdu dpdv dndu dndv time
    (s.reverseOrientation ^^ s.transformSwapsHandedness)

/-- `Sphere::Intersect`. -/
def Intersect (s : Sphere) (r : Ray) (tMax : WithTop ℝ) :
    Option ShapeIntersectionT :=
  match s.BasicIntersect r tMax with
  | none => none
  | some isect =>
    some ⟨s.InteractionFromIntersection isect (-r.d) r.time, isect.tHit⟩

/-- `Sphere::IntersectP`. -/
def IntersectP (s : Sphere) (r : Ray) (tMax : WithTop ℝ) : Bool :=
  (s.BasicIntersect r tMax).isSome

/-- `Sphere::PDF(Interaction)`. -/
def PDFArea (s : Sphere) : ℝ := 1 / s.Area

end Sphere

/-! ## Disk -/

/-- pbrt `Disk` (object-space model). -/
structure Disk where
  height : ℝ
  radius : ℝ
  innerRadius : ℝ
  phiMax : ℝ
  reverseOrientation : Bool
  transformSwapsHandedness : Bool

/-- The `Disk` constructor: `phiMax` in degrees clamped to `[0, 360]`. -/
def mkDisk (reverseOrientation swaps : Bool) (height radius innerRadius phiMax : ℝ) :
    Disk :=
  { height := height, radius := radius, innerRadius := innerRadius,
    phiMax := Radians (Clamp phiMax 0 360),
    reverseOrientation := reverseOrientation, transformSwapsHandedness := swaps }

namespace Disk

/-- `Disk::Area()`. -/
def Area (dk : Disk) : ℝ :=
  dk.phiMax * (1/2) * (dk.radius * dk.radius - dk.innerRadius * dk.innerRadius)

/-- `Disk::BasicIntersect`. -/
def BasicIntersect (dk : Disk) (r : Ray) (tMax : WithTop ℝ) :
    Option QuadricIntersection :=
  let ray : Ray := ⟨(P3I.exact r.o).mid, (P3I.exact r.d).mid, r.time⟩
  if ray.d.z = 0 then none
  else
    let tShapeHit := (dk.height - ray.o.z) / ray.d.z
    if tShapeHit ≤ 0 ∨ (tShapeHit : WithTop ℝ) ≥ tMax then none
    else
      let pHit := ray.at tShapeHit
      let dist2 := pHit.x * pHit.x + pHit.y * pHit.y
      if dist2 > dk.radius * dk.radius ∨ dist2 < dk.innerRadius * dk.innerRadius then
        none
      else
        let phi := atan2 pHit.y pHit.x
        let phi := if phi < 0 then phi + 2 * Real.pi else phi
        if phi > dk.phiMax then none
        else some ⟨tShapeHit, pHit, phi⟩

/-- `Disk::InteractionFromIntersection`. -/
def InteractionFromIntersection (dk : Disk) (isect : QuadricIntersection)
    (wo : V3) (time : ℝ) : SurfaceInteraction :=
  let pHit := isect.pObj
  let phi := isect.phi
  let dist2 := pHit.x * pHit.x + pHit.y * pHit.y
  let u := phi / dk.phiMax
  let rHit := Real.sqrt dist2
  let v := (dk.radius - rHit) / (dk.radius - dk.innerRadius)
  let dpdu : V3 := ⟨-dk.phiMax * pHit.y, dk.phiMax * pHit.x, 0⟩
  let dpdv : V3 := ((dk.innerRadius - dk.radius) / rHit) • (⟨pHit.x, pHit.y, 0⟩ : V3)
  let dndu : V3 := 0
  let dndv : V3 := 0
  let pHit := { pHit with z := dk.height }
  let pError : V3 := 0
  mkSurfaceInteraction pHit pError ⟨u, v⟩ wo dpdu dpdv dndu dndv time
    (dk.reverseOrientation ^^ dk.transformSwapsHandedness)

/-- `Disk::Intersect`. -/
def Intersect (dk : Disk) (r : Ray) (tMax : WithTop ℝ) : Option ShapeIntersectionT :=
  match dk.BasicIntersect r tMax with
  | none => none
  | some isect =>
    some ⟨dk.InteractionFromIntersection isect (-r.d) r.time, isect.tHit⟩

/-- `Disk::IntersectP`. -/
def IntersectP (dk : Disk) (r : Ray) (tMax : WithTop ℝ) : Bool :=
  (dk.BasicIntersect r tMax).isSome

/-- `Disk::PDF(Interaction)`. -/
def PDFArea (dk : Disk) : ℝ := 1 / dk.Area

end Disk

/-! ## Cylinder -/

/-- pbrt `Cylinder` (object-space model). -/
structure Cylinder where
  radius : ℝ
  zMin : ℝ
  zMax : ℝ
  phiMax : ℝ
  reverseOrientation : Bool
  transformSwapsHandedness : Bool

/-- The `Cylinder` constructor. -/
def mkCylinder (reverseOrientation swaps : Bool) (radius zMin zMax phiMax : ℝ) :
    Cylinder :=
  { radius := radius, zMin := min zMin zMax, zMax := max zMin zMax,
    phiMax := Radians (Clamp phiMax 0 360),
    reverseOrientation := reverseOrientation, transformSwapsHandedness := swaps }

namespace Cylinder

/-- `Cylinder::Area()`. -/
def Area (cy : Cylinder) : ℝ := (cy.zMax - cy.zMin) * cy.radius * cy.phiMax

/-- `Cylinder::NormalBounds()`. -/
def NormalBounds (_cy : Cylinder) : DirectionCone := .entireSphere

/-- The xy-plane discriminant interval of `Cylinder::CylinderQuadratic`. -/
def cylDiscrim (radius : ℝ) (oi di : P3I) : FloatInterval :=
  let a := SumSquares2 di.x di.y
  let b := FloatInterval.exact 2 * (di.x * oi.x + di.y * oi.y)
  let f := b.div (FloatInterval.exact 2 * a)
  let fx := oi.x - f * di.x
  let fy := oi.y - f * di.y
  let sqrtf := (SumSquares2 fx fy).sqrtI
  FloatInterval.exact 4 * a * (FloatInterval.exact radius + sqrtf) *
    (FloatInterval.exact radius - sqrtf)

/-- `Cylinder::CylinderQuadratic`. -/
def CylinderQuadratic (radius : ℝ) (oi di : P3I) :
    Option (FloatInterval × FloatInterval) :=
  let a := SumSquares2 di.x di.y
  let b := FloatInterval.exact 2 * (di.x * oi.x + di.y * oi.y)
  let c := SumSquares2 oi.x oi.y - (FloatInterval.exact radius).sqr
  let discrim := cylDiscrim radius oi di
  if discrim.lo < 0 then none
  else
    let rootDiscrim := discrim.sqrtI
    let q : FloatInterval :=
      if b.mid < 0 then FloatInterval.exact (-(1/2)) * (b - rootDiscrim)
      else FloatInterval.exact (-(1/2)) * (b + rootDiscrim)
    let t0 := q.div a
    let t1 := c.div q
    if t0.lo > t1.lo then some (t1, t0) else some (t0, t1)

/-- The hit-position/φ block of `Cylinder::BasicIntersect`: reproject onto
the cylinder in xy, compute `φ` in `[0, 2π)`. -/
def hitPosPhi (cy : Cylinder) (ray : Ray) (t : ℝ) : V3 × ℝ :=
  let pHit := ray.at t
  let hitRad := Real.sqrt (pHit.x * pHit.x + pHit.y * pHit.y)
  let pHit : V3 := ⟨pHit.x * (cy.radius / hitRad), pHit.y * (cy.radius / hitRad), pHit.z⟩
  let phi := atan2 pHit.y pHit.x
  let phi := if phi < 0 then phi + 2 * Real.pi else phi
  (pHit, phi)

/-- The clip test of `Cylinder::BasicIntersect`. -/
def clipRejects (cy : Cylinder) (pHit : V3) (phi : ℝ) : Prop :=
  pHit.z < cy.zMin ∨ pHit.z > cy.zMax ∨ phi > cy.phiMax

/-- `Cylinder::BasicIntersect`. -/
def BasicIntersect (cy : Cylinder) (r : Ray) (tMax : WithTop ℝ) :
    Option QuadricIntersection :=
  let oi := P3I.exact r.o
  let di := P3I.exact r.d
  let ray : Ray := ⟨oi.mid, di.mid, r.time⟩
  match CylinderQuadratic cy.radius oi di with
  | none => none
  | some (t0, t1) =>
    if (t0.hi : WithTop ℝ) > tMax ∨ t1.lo ≤ 0 then none
    else
      let tShapeHit := if t0.lo ≤ 0 then t1 else t0
      if t0.lo ≤ 0 ∧ (t1.hi : WithTop ℝ) > tMax then none
      else
        let pp := hitPosPhi cy ray tShapeHit.mid
        if clipRejects cy pp.1 pp.2 then
          if tShapeHit = t1 then none
          else if (t1.hi : WithTop ℝ) > tMax then none
          else
            let tShapeHit := t1
            let pp := hitPosPhi cy ray tShapeHit.mid
            if clipRejects cy pp.1 pp.2 then none
            else some ⟨tShapeHit.mid, pp.1, pp.2⟩
        else some ⟨tShapeHit.mid, pp.1, pp.2⟩

/-- `Cylinder::InteractionFromIntersection`. -/
def InteractionFromIntersection (cy : Cylinder) (isect : QuadricIntersection)
    (wo : V3) (time : ℝ) : SurfaceInteraction :=
  let pHit := isect.pObj
  let phi := isect.phi
  let u := phi / cy.phiMax
  let v := (pHit.z - cy.zMin) / (cy.zMax - cy.zMin)
  let dpdu : V3 := ⟨-cy.phiMax * pHit.y, cy.phiMax * pHit.x, 0⟩
  let dpdv : V3 := ⟨0, 0, cy.zMax - cy.zMin⟩
  let d2Pduu : V3 := (-cy.phiMax * cy.phiMax) • (⟨pHit.x, pHit.y, 0⟩ : V3)
  let d2Pduv : V3 := 0
  let d2Pdvv : V3 := 0
  let E := Dot dpdu dpdu
  let F := Dot dpdu dpdv
  let G := Dot dpdv dpdv
  let N := Normalize (Cross dpdu dpdv)
  let e := Dot N d2Pduu
  let f := Dot N d2Pduv
  let g := Dot N d2Pdvv
  let invEGF2 := 1 / (E * G - F * F)
  let dndu := ((f * F - e * G) * invEGF2) • dpdu + ((e * F - f * E) * invEGF2) • dpdv
  let dndv := ((g * F - f * G) * invEGF2) • dpdu + ((f * F - g * E) * invEGF2) • dpdv
  let pError := gammaF 3 • (⟨|pHit.x|, |pHit.y|, 0⟩ : V3)
  mkSurfaceInteraction pHit pError ⟨u, v⟩ wo dpdu dpdv dndu dndv time
    (cy.reverseOrientation ^^ cy.transformSwapsHandedness)

/-- `Cylinder::Intersect`. -/
def Intersect (cy : Cylinder) (r : Ray) (tMax : WithTop ℝ) :
    Option ShapeIntersectionT :=
  match cy.BasicIntersect r tMax with
  | none => none
  | some isect =>
    some ⟨cy.InteractionFromIntersection isect (-r.d) r.time, isect.tHit⟩

/-- `Cylinder::IntersectP`. -/
def IntersectP (cy : Cylinder) (r : Ray) (tMax : WithTop ℝ) : Bool :=
  (cy.BasicIntersect r tMax).isSome

/-- `Cylinder::PDF(Interaction)`. -/
def PDFArea (cy : Cylinder) : ℝ := 1 / cy.Area

end Cylinder

/-! ## Sampling helpers (external collaborators of `shapes.h`) -/

/-- Modelled from the spec: `CoordinateSystem` (in `util/vecmath.h`, not
among the sources) synthesizes an orthonormal basis `(v2, v3)` perpendicular
to a unit vector `v1`, via the branchless Duff et al. construction used by
pbrt. -/
def CoordinateSystem (v1 : V3) : V3 × V3 :=
  let sign : ℝ := if v1.z ≥ 0 then 1 else -1
  let a := -1 / (sign + v1.z)
  let b := v1.x * v1.y * a
  (⟨1 + sign * v1.x * v1.x * a, sign * b, -sign * v1.x⟩,
   ⟨b, sign + v1.y * v1.y * a, -v1.y⟩)

/-- Modelled from the spec: `SphericalDirection(sinθ, cosθ, φ)` (in
`util/vecmath.h`): the unit vector `(sinθ cosφ, sinθ sinφ, cosθ)`. -/
def SphericalDirection (sinTheta cosTheta phi : ℝ) : V3 :=
  ⟨sinTheta * Real.cos phi, sinTheta * Real.sin phi, cosTheta⟩

/-- A coordinate frame: orthonormal basis vectors. -/
structure Frame where
  fx : V3
  fy : V3
  fz : V3

/-- Modelled from the spec: `Frame::FromZ` (in `util/vecmath.h`) builds an
orthonormal frame with the given unit z-axis, completing it via
`CoordinateSystem`. -/
def Frame.fromZ (z : V3) : Frame :=
  let c := CoordinateSystem z
  ⟨c.1, c.2, z⟩

/-- `Frame::FromLocal`: `v.x * x + v.y * y + v.z * z`. -/
def Frame.fromLocal (f : Frame) (v : V3) : V3 := v.x • f.fx + v.y • f.fy + v.z • f.fz

/-- The model of `std::isinf(num/den)` for finite `num`, `den` (exact
arithmetic): the quotient is infinite exactly when `den = 0` and `num ≠ 0`
(`0/0` is NaN, for which `isinf` is false). -/
def isInfDiv (num den : ℝ) : Prop := den = 0 ∧ num ≠ 0

/-- Modelled from the spec: `SampleUniformSphere` (in `util/sampling.h`) maps
`[0,1)²` to the unit sphere: `z = 1 - 2u₀`, `r = √(1-z²)`, `φ = 2π u₁`. -/
def SampleUniformSphere (u : Pt2) : V3 :=
  let z := 1 - 2 * u.x
  let r := SafeSqrt (1 - z * z)
  let phi := 2 * Real.pi * u.y
  ⟨r * Real.cos phi, r * Real.sin phi, z⟩

/-- Modelled from the spec: `SampleUniformDiskConcentric` (in
`util/sampling.h`): Shirley's concentric map of `[0,1)²` to the unit disk. -/
def SampleUniformDiskConcentric (u : Pt2) : Pt2 :=
  let uOffset : Pt2 := ⟨2 * u.x - 1, 2 * u.y - 1⟩
  if uOffset.x = 0 ∧ uOffset.y = 0 then ⟨0, 0⟩
  else
    let (r, theta) :=
      if |uOffset.x| > |uOffset.y| then
        (uOffset.x, (Real.pi / 4) * (uOffset.y / uOffset.x))
      else
        (uOffset.y, Real.pi / 2 - (Real.pi / 4) * (uOffset.x / uOffset.y))
    ⟨r * Real.cos theta, r * Real.sin theta⟩

/-! ## Sphere sampling -/

namespace Sphere

/-- Modelled from the spec: `Sphere::Sample(u)` is declared in `shapes.h` but
its body lives in `shapes.cpp`, which is not among the sources.  Per the
spec, it samples a uniform point on the full sphere via
`SampleUniformSphere(u)` with pdf `1/Area()`, the normal being the radial
direction (flipped under `reverseOrientation`). -/
def SampleArea (s : Sphere) (u : Pt2) : Option ShapeSampleT :=
  let dir := SampleUniformSphere u
  let pObj := s.radius • dir
  let n := if s.reverseOrientation then -(Normalize pObj) else Normalize pObj
  some ⟨⟨pObj, n, 0⟩, 1 / s.Area⟩

/-- The `sinThetaMax²` of the cone-sampling branch of `Sphere::Sample(ctx,u)`
(`shapes.h` lines 296-299, with `pCenter = 0`):
`(radius * (1/dc)) * (radius * (1/dc))`, `dc` the distance to the center. -/
def coneSinThetaMax2 (s : Sphere) (ctx : ShapeSampleContext) : ℝ :=
  s.radius * (1 / Distance ctx.p 0) * (s.radius * (1 / Distance ctx.p 0))

/-- The `sinTheta2` of the cone-sampling branch (`shapes.h` lines 305-311):
`1 - cosTheta²` in the stable regime, replaced by `sinThetaMax² * u[0]`
when `sinThetaMax² < 0.00068523` (Taylor branch). -/
def coneSinTheta2 (s : Sphere) (ctx : ShapeSampleContext) (u : Pt2) : ℝ :=
  let sinThetaMax2 := coneSinThetaMax2 s ctx
  let cosThetaMax := SafeSqrt (1 - sinThetaMax2)
  let cosTheta := (cosThetaMax - 1) * u.x + 1
  if sinThetaMax2 < 0.00068523 then sinThetaMax2 * u.x else 1 - cosTheta * cosTheta

/-- The `cosTheta` of the cone-sampling branch (`shapes.h` lines 304-310):
`(cosThetaMax - 1) * u[0] + 1`, recomputed as `√(1 - sinTheta2)` in the
Taylor branch. -/
def coneCosTheta (s : Sphere) (ctx : ShapeSampleContext) (u : Pt2) : ℝ :=
  let sinThetaMax2 := coneSinThetaMax2 s ctx
  let cosThetaMax := SafeSqrt (1 - sinThetaMax2)
  if sinThetaMax2 < 0.00068523 then Real.sqrt (1 - coneSinTheta2 s ctx u)
  else (cosThetaMax - 1) * u.x + 1

/-- The `cosAlpha` of the cone-sampling branch (`shapes.h` lines 316-318):
`sinTheta2 * invSinThetaMax + cosTheta * √(1 - sinTheta2 * invSinThetaMax²)`. -/
def coneCosAlpha (s : Sphere) (ctx : ShapeSampleContext) (u : Pt2) : ℝ :=
  let invSinThetaMax := 1 / (s.radius * (1 / Distance ctx.p 0))
  coneSinTheta2 s ctx u * invSinThetaMax +
    coneCosTheta s ctx u *
      SafeSqrt (1 - coneSinTheta2 s ctx u * invSinThetaMax * invSinThetaMax)

/-- The `oneMinusCosThetaMax` used for the cone pdf (`shapes.h` lines
302, 313-314): `1 - cosThetaMax`, replaced by `sinThetaMax²/2` in the
Taylor branch. -/
def coneOneMinusCosThetaMax (s : Sphere) (ctx : ShapeSampleContext) : ℝ :=
  let sinThetaMax2 := coneSinThetaMax2 s ctx
  if sinThetaMax2 < 0.00068523 then sinThetaMax2 / 2
  else 1 - SafeSqrt (1 - sinThetaMax2)

/-- `Sphere::Sample(ctx, u)`, parameterised by the area sampler it calls
(the body of `Sphere::Sample(u)` being external, see `Sphere.SampleArea`).
Everything else follows `shapes.h` lines 266-337, with the identity
transform (`pCenter = 0`); the cone quantities are the named `cone*`
definitions above. -/
def SampleCtxGen (s : Sphere) (areaSample : Pt2 → Option ShapeSampleT)
    (ctx : ShapeSampleContext) (u : Pt2) : Option ShapeSampleT :=
  let pCenter : V3 := 0
  let pOrigin := ctx.offsetRayOriginP pCenter
  if DistanceSquared pOrigin pCenter ≤ s.radius * s.radius then
    match areaSample u with
    | none => none
    | some ss =>
      let wi := ss.intr.p - ctx.p
      if LengthSquared wi = 0 then none
      else
        let wi := Normalize wi
        let num := ss.pdf * DistanceSquared ctx.p ss.intr.p
        let den := AbsDot ss.intr.n (-wi)
        if isInfDiv num den then none
        else some ⟨ss.intr, num / den⟩
  else
    let samplingFrame := Frame.fromZ (Normalize (ctx.p - pCenter))
    let cosAlpha := coneCosAlpha s ctx u
    let sinAlpha := SafeSqrt (1 - cosAlpha * cosAlpha)
    let phi := u.y * 2 * Real.pi
    let nRender := samplingFrame.fromLocal (SphericalDirection sinAlpha cosAlpha phi)
    let pRender := pCenter + s.radius • nRender
    let n := if s.reverseOrientation then -nRender else nRender
    some ⟨⟨pRender, n, ctx.time⟩, 1 / (2 * Real.pi * coneOneMinusCosThetaMax s ctx)⟩

/-- `Sphere::Sample(ctx, u)` with the spec-modelled area sampler plugged in. -/
def SampleCtx (s : Sphere) (ctx : ShapeSampleContext) (u : Pt2) :
    Option ShapeSampleT :=
  s.SampleCtxGen (s.SampleArea) ctx u

/-- `Sphere::PDF(ctx, wi)` (`shapes.h` lines 339-365). -/
def PDFCtx (s : Sphere) (ctx : ShapeSampleContext) (wi : V3) : ℝ :=
  let pCenter : V3 := 0
  let pOrigin := ctx.offsetRayOriginP pCenter
  if DistanceSquared pOrigin pCenter ≤ s.radius * s.radius then
    match s.Intersect ⟨pOrigin, wi, ctx.time⟩ ⊤ with
    | none => 0
    | some isect =>
      let num := DistanceSquared pOrigin isect.intr.p
      let den := AbsDot isect.intr.n (-wi) * s.Area
      let pdf := num / den
      if isInfDiv num den then 0 else pdf
  else
    let sinThetaMax2 := s.radius * s.radius / DistanceSquared ctx.p pCenter
    let cosThetaMax := SafeSqrt (1 - sinThetaMax2)
    let oneMinusCosThetaMax := 1 - cosThetaMax
    let oneMinusCosThetaMax :=
      if sinThetaMax2 < 0.00068523 then sinThetaMax2 / 2 else oneMinusCosThetaMax
    1 / (2 * Real.pi * oneMinusCosThetaMax)

end Sphere

/-! ## Disk and cylinder sampling -/

namespace Disk

/-- `Disk::Sample(u)` (`shapes.h` lines 555-563; the concentric disk map is
the spec-modelled external `SampleUniformDiskConcentric`). -/
def SampleU (dk : Disk) (u : Pt2) : Option ShapeSampleT :=
  let pd := SampleUniformDiskConcentric u
  let pObj : V3 := ⟨pd.x * dk.radius, pd.y * dk.radius, dk.height⟩
  let n := Normalize (⟨0, 0, 1⟩ : V3)
  let n := if dk.reverseOrientation then -n else n
  some ⟨⟨pObj, n, 0⟩, 1 / dk.Area⟩

/-- `Disk::Sample(ctx, u)` (`shapes.h` lines 568-588). -/
def SampleCtx (dk : Disk) (ctx : ShapeSampleContext) (u : Pt2) :
    Option ShapeSampleT :=
  match dk.SampleU u with
  | none => none
  | some ss =>
    let ss := { ss with intr := { ss.intr with time := ctx.time } }
    let wi := ss.intr.p - ctx.p
    if LengthSquared wi = 0 then none
    else
      let wi := Normalize wi
      let num := ss.pdf * DistanceSquared ctx.p ss.intr.p
      let den := AbsDot ss.intr.n (-wi)
      if isInfDiv num den then none
      else some ⟨ss.intr, num / den⟩

/-- `Disk::PDF(ctx, wi)` (`shapes.h` lines 590-604). -/
def PDFCtx (dk : Disk) (ctx : ShapeSampleContext) (wi : V3) : ℝ :=
  let ray := ctx.spawnRay wi
  match dk.Intersect ray ⊤ with
  | none => 0
  | some si =>
    let num := DistanceSquared ctx.p si.intr.p
    let den := AbsDot si.intr.n (-wi) * dk.Area
    let pdf := num / den
    if isInfDiv num den then 0 else pdf

end Disk

namespace Cylinder

/-- `Cylinder::Sample(u)` (`shapes.h` lines 762-778). -/
def SampleU (cy : Cylinder) (u : Pt2) : Option ShapeSampleT :=
  let z := LerpF u.x cy.zMin cy.zMax
  let phi := u.y * cy.phiMax
  let pObj : V3 := ⟨cy.radius * Real.cos phi, cy.radius * Real.sin phi, z⟩
  let hitRad := Real.sqrt (pObj.x * pObj.x + pObj.y * pObj.y)
  let pObj : V3 := ⟨pObj.x * (cy.radius / hitRad), pObj.y * (cy.radius / hitRad), pObj.z⟩
  let n := Normalize (⟨pObj.x, pObj.y, 0⟩ : V3)
  let n := if cy.reverseOrientation then -n else n
  some ⟨⟨pObj, n, 0⟩, 1 / cy.Area⟩

/-- `Cylinder::Sample(ctx, u)` (`shapes.h` lines 783-803). -/
def SampleCtx (cy : Cylinder) (ctx : ShapeSampleContext) (u : Pt2) :
    Option ShapeSampleT :=
  match cy.SampleU u with
  | none => none
  | some ss =>
    let ss := { ss with intr := { ss.intr with time := ctx.time } }
    let wi := ss.intr.p - ctx.p
    if LengthSquared wi = 0 then none
    else
      let wi := Normalize wi
      let num := ss.pdf * DistanceSquared ctx.p ss.intr.p
      let den := AbsDot ss.intr.n (-wi)
      if isInfDiv num den then none
      else some ⟨ss.intr, num / den⟩

/-- `Cylinder::PDF(ctx, wi)` (`shapes.h` lines 805-819). -/
def PDFCtx (cy : Cylinder) (ctx : ShapeSampleContext) (wi : V3) : ℝ :=
  let ray := ctx.spawnRay wi
  match cy.Intersect ray ⊤ with
  | none => 0
  | some si =>
    let num := DistanceSquared ctx.p si.intr.p
    let den := AbsDot si.intr.n (-wi) * cy.Area
    let pdf := num / den
    if isInfDiv num den then 0 else pdf

end Cylinder

/-! ## Triangle -/

/-- pbrt `DifferenceOfProducts(a, b, c, d) = a*b - c*d` (the FMA-based
compensation is a rounding refinement; exact arithmetic needs none). -/
def DOP (a b c d : ℝ) : ℝ := a * b - c * d

/-- `DifferenceOfProducts` with vector second/fourth arguments. -/
def DOPV (a : ℝ) (b : V3) (c : ℝ) (d : V3) : V3 := a • b - c • d

instance : Sub Pt2 := ⟨fun a b => ⟨a.x - b.x, a.y - b.y⟩⟩

instance : Add Pt2 := ⟨fun a b => ⟨a.x + b.x, a.y + b.y⟩⟩

instance : SMul ℝ Pt2 := ⟨fun c a => ⟨c * a.x, c * a.y⟩⟩

/-- The data of one triangle of a `TriangleMesh`: its three positions, the
optional per-vertex normals / tangents / uvs drawn from the mesh arrays via
`vertexIndices`, its face index, and the mesh flags.  (The process-wide mesh
registry indirection of the source is flattened into this record.) -/
structure TriangleData where
  p0 : V3
  p1 : V3
  p2 : V3
  nv : Option (V3 × V3 × V3) := none
  sv : Option (V3 × V3 × V3) := none
  uvv : Option (Pt2 × Pt2 × Pt2) := none
  faceIndex : ℕ := 0
  reverseOrientation : Bool := false
  transformSwapsHandedness : Bool := false

/-- The external routines of `util/sampling.h` (and the triangle's own
`Intersect`, whose body lives in `shapes.cpp`) that the triangle sampling
code calls; none of these files are among the sources, so they are kept as
parameters, constrained in the theorems by the contracts the spec states for
them. -/
structure TriEnv where
  sampleUniformTriangle : Pt2 → ℝ × ℝ × ℝ
  sphericalTriangleArea : V3 → V3 → V3 → ℝ
  sampleBilinear : Pt2 → ℝ × ℝ × ℝ × ℝ → Pt2
  bilinearPDF : Pt2 → ℝ × ℝ × ℝ × ℝ → ℝ
  sampleSphericalTriangle : V3 → V3 → V3 → V3 → Pt2 → (ℝ × ℝ × ℝ) × ℝ
  intersect : Ray → WithTop ℝ → Option ShapeIntersectionT
  invertSphericalTriangleSample : V3 → V3 → V3 → V3 → V3 → Pt2

namespace Triangle

/-- `Triangle::MinSphericalSampleArea`. -/
def MinSphericalSampleArea : ℝ := 1e-4

/-- `Triangle::MaxSphericalSampleArea`. -/
def MaxSphericalSampleArea : ℝ := 6.28

/-- `Triangle::Area()`. -/
def Area (tri : TriangleData) : ℝ :=
  (1/2) * Length (Cross (tri.p1 - tri.p0) (tri.p2 - tri.p0))

/-- `Triangle::SolidAngle(p)`: the spherical area of the projected vertices
(`SphericalTriangleArea` is external, supplied by the environment). -/
def SolidAngle (env : TriEnv) (tri : TriangleData) (p : V3) : ℝ :=
  env.sphericalTriangleArea (Normalize (tri.p0 - p)) (Normalize (tri.p1 - p))
    (Normalize (tri.p2 - p))

/-- The default UVs `(0,0), (1,0), (1,1)` when the mesh has none. -/
def triuv (tri : TriangleData) : Pt2 × Pt2 × Pt2 :=
  tri.uvv.getD (⟨0, 0⟩, ⟨1, 0⟩, ⟨1, 1⟩)

/-- The UV-space determinant computed by `InteractionFromIntersection`
(`shapes.h` line 937): `duv02[0]*duv12[1] - duv02[1]*duv12[0]`. -/
def rawDeterminant (tri : TriangleData) : ℝ :=
  DOP ((triuv tri).1 - (triuv tri).2.2).x ((triuv tri).2.1 - (triuv tri).2.2).y
    ((triuv tri).1 - (triuv tri).2.2).y ((triuv tri).2.1 - (triuv tri).2.2).x

/-- The `dpdu` computed from the UV parameterization before degeneracy
recovery (`shapes.h` lines 939-943). -/
def rawDpdu (tri : TriangleData) : V3 :=
  if |rawDeterminant tri| < 1e-12 then 0
  else (1 / rawDeterminant tri) •
    DOPV ((triuv tri).2.1 - (triuv tri).2.2).y (tri.p0 - tri.p2)
      ((triuv tri).1 - (triuv tri).2.2).y (tri.p1 - tri.p2)

/-- The `dpdv` computed from the UV parameterization before degeneracy
recovery (`shapes.h` lines 939-943). -/
def rawDpdv (tri : TriangleData) : V3 :=
  if |rawDeterminant tri| < 1e-12 then 0
  else (1 / rawDeterminant tri) •
    DOPV ((triuv tri).1 - (triuv tri).2.2).x (tri.p1 - tri.p2)
      ((triuv tri).2.1 - (triuv tri).2.2).x (tri.p0 - tri.p2)

/-- The recovery condition of `InteractionFromIntersection` (`shapes.h`
line 946): degenerate UVs, or a zero-length `dpdu × dpdv`. -/
def needsRecovery (tri : TriangleData) : Prop :=
  |rawDeterminant tri| < 1e-12 ∨ LengthSquared (Cross (rawDpdu tri) (rawDpdv tri)) = 0

/-- The geometric normal `ng = (p2 - p0) × (p1 - p0)` the recovery path
synthesizes its frame from (`shapes.h` line 950). -/
def ngeom (tri : TriangleData) : V3 := Cross (tri.p2 - tri.p0) (tri.p1 - tri.p0)

/-- `Triangle::InteractionFromIntersection` (`shapes.h` lines 927-1071), for
barycentrics `b`; the render-from-instance transform is absent (identity
model). -/
def InteractionFromIntersection (tri : TriangleData) (b : ℝ × ℝ × ℝ)
    (time : ℝ) (wo : V3) : Option SurfaceInteraction :=
  let p0 := tri.p0
  let p1 := tri.p1
  let p2 := tri.p2
  let uv := triuv tri
  let duv02 := uv.1 - uv.2.2
  let duv12 := uv.2.1 - uv.2.2
  let dp02 := p0 - p2
  let dp12 := p1 - p2
  let dpdu : V3 := rawDpdu tri
  let dpdv : V3 := rawDpdv tri
  let ng := ngeom tri
  if needsRecovery tri ∧ LengthSquared ng = 0 then none
  else
    let dpdu := if needsRecovery tri then (CoordinateSystem (Normalize ng)).1 else dpdu
    let dpdv := if needsRecovery tri then (CoordinateSystem (Normalize ng)).2 else dpdv
    let pHit := b.1 • p0 + b.2.1 • p1 + b.2.2 • p2
    let uvHit := b.1 • uv.1 + b.2.1 • uv.2.1 + b.2.2 • uv.2.2
    let pError : V3 := gammaF 7 •
      (⟨|b.1 * p0.x| + |b.2.1 * p1.x| + |b.2.2 * p2.x|,
        |b.1 * p0.y| + |b.2.1 * p1.y| + |b.2.2 * p2.y|,
        |b.1 * p0.z| + |b.2.1 * p1.z| + |b.2.2 * p2.z|⟩ : V3)
    let flip := tri.reverseOrientation ^^ tri.transformSwapsHandedness
    let isect := mkSurfaceInteraction pHit pError uvHit wo dpdu dpdv 0 0 time flip
      tri.faceIndex
    let nOver := Normalize (Cross dp02 dp12)
    let nOver := if flip then -nOver else nOver
    let isect := { isect with n := nOver, shading := { isect.shading with n := nOver } }
    if tri.nv.isNone ∧ tri.sv.isNone then some isect
    else
      let ns :=
        match tri.nv with
        | some (n0, n1, n2) =>
          let ns := b.1 • n0 + b.2.1 • n1 + b.2.2 • n2
          if LengthSquared ns > 0 then Normalize ns else isect.n
        | none => isect.n
      let ss :=
        match tri.sv with
        | some (s0, s1, s2) =>
          let ss := b.1 • s0 + b.2.1 • s1 + b.2.2 • s2
          if LengthSquared ss = 0 then isect.dpdu else ss
        | none => isect.dpdu
      let ts := Cross ns ss
      let st : V3 × V3 :=
        if LengthSquared ts > 0 then (Cross ts ns, ts) else CoordinateSystem ns
      let ss := st.1
      let ts := st.2
      let dn : V3 × V3 :=
        match tri.nv with
        | some (n0, n1, n2) =>
          let dn1 := n0 - n2
          let dn2 := n1 - n2
          let determinant := DOP duv02.x duv12.y duv02.y duv12.x
          let degenerateUV := |determinant| < 1e-32
          if degenerateUV then
            let dnv := Cross (n2 - n0) (n1 - n0)
            if LengthSquared dnv = 0 then (0, 0)
            else CoordinateSystem dnv
          else
            let invDet := 1 / determinant
            (invDet • DOPV duv12.y dn1 duv02.y dn2,
             invDet • DOPV duv02.x dn2 duv12.x dn1)
        | none => (0, 0)
      some (isect.setShadingGeometry ns ss ts dn.1 dn.2 true)

/-- `Triangle::Sample(u)` (`shapes.h` lines 1073-1102); the uniform
barycentric map is the external `SampleUniformTriangle`. -/
def SampleU (env : TriEnv) (tri : TriangleData) (u : Pt2) : Option ShapeSampleT :=
  let b := env.sampleUniformTriangle u
  let p := b.1 • tri.p0 + b.2.1 • tri.p1 + b.2.2 • tri.p2
  let n := Normalize (Cross (tri.p1 - tri.p0) (tri.p2 - tri.p0))
  let n :=
    match tri.nv with
    | some (n0, n1, n2) =>
      FaceForward n (b.1 • n0 + b.2.1 • n1 + (1 - b.1 - b.2.1) • n2)
    | none =>
      if tri.reverseOrientation ^^ tri.transformSwapsHandedness then -n else n
  some ⟨⟨p, n, 0⟩, 1 / Area tri⟩

/-- The bilinear warp weights built by `Triangle::Sample(ctx, uo)`
(`shapes.h` lines 1152-1160). -/
def sampleWeights (tri : TriangleData) (ctx : ShapeSampleContext) : ℝ × ℝ × ℝ × ℝ :=
  let rp := ctx.p
  let wi0 := Normalize (tri.p0 - rp)
  let wi1 := Normalize (tri.p1 - rp)
  let wi2 := Normalize (tri.p2 - rp)
  (max 0.01 (AbsDot ctx.ns wi1), max 0.01 (AbsDot ctx.ns wi1),
   max 0.01 (AbsDot ctx.ns wi0), max 0.01 (AbsDot ctx.ns wi2))

/-- The bilinear warp weights built by `Triangle::PDF(ctx, wi)`
(`shapes.h` lines 1222-1229). -/
def pdfWeights (tri : TriangleData) (ctx : ShapeSampleContext) : ℝ × ℝ × ℝ × ℝ :=
  let rp := ctx.p
  let wit0 := Normalize (tri.p0 - rp)
  let wit1 := Normalize (tri.p1 - rp)
  let wit2 := Normalize (tri.p2 - rp)
  (max 0.01 (AbsDot ctx.ns wit1), max 0.01 (AbsDot ctx.ns wit1),
   max 0.01 (AbsDot ctx.ns wit0), max 0.01 (AbsDot ctx.ns wit2))

/-- `Triangle::Sample(ctx, uo)` (`shapes.h` lines 1119-1190). -/
def SampleCtx (env : TriEnv) (tri : TriangleData) (ctx : ShapeSampleContext)
    (uo : Pt2) : Option ShapeSampleT :=
  let sa := SolidAngle env tri ctx.p
  if sa < MinSphericalSampleArea ∨ sa > MaxSphericalSampleArea then
    match SampleU env tri uo with
    | none => none
    | some ss =>
      let ss := { ss with intr := { ss.intr with time := ctx.time } }
      let wi := ss.intr.p - ctx.p
      if LengthSquared wi = 0 then none
      else
        let wi := Normalize wi
        let num := ss.pdf * DistanceSquared ctx.p ss.intr.p
        let den := AbsDot ss.intr.n (-wi)
        if isInfDiv num den then none
        else some ⟨ss.intr, num / den⟩
  else
    let pdf0 : ℝ := 1
    let wu : Pt2 × ℝ :=
      if ctx.ns ≠ (0 : V3) then
        let w := sampleWeights tri ctx
        let u := env.sampleBilinear uo w
        (u, pdf0 * env.bilinearPDF u w)
      else (uo, pdf0)
    let u := wu.1
    let pdf1 := wu.2
    let bt := env.sampleSphericalTriangle tri.p0 tri.p1 tri.p2 ctx.p u
    let b := bt.1
    let triPDF := bt.2
    if triPDF = 0 then none
    else
      let pdf := pdf1 * triPDF
      let n := Normalize (Cross (tri.p1 - tri.p0) (tri.p2 - tri.p0))
      let n :=
        match tri.nv with
        | some (n0, n1, n2) => FaceForward n (b.1 • n0 + b.2.1 • n1 + b.2.2 • n2)
        | none =>
          if tri.reverseOrientation ^^ tri.transformSwapsHandedness then -n else n
      let ps := b.1 • tri.p0 + b.2.1 • tri.p1 + b.2.2 • tri.p2
      some ⟨⟨ps, n, ctx.time⟩, pdf⟩

/-- `Triangle::PDF(ctx, wi)` (`shapes.h` lines 1192-1236).  The triangle's
`Intersect`/`IntersectP` bodies live in `shapes.cpp`; per the spec's
consistency property, `IntersectP` is modelled as `Intersect(...).is_some()`
over the environment's intersect function. -/
def PDFCtx (env : TriEnv) (tri : TriangleData) (ctx : ShapeSampleContext)
    (wi : V3) : ℝ :=
  let sa := SolidAngle env tri ctx.p
  if sa < MinSphericalSampleArea ∨ sa > MaxSphericalSampleArea then
    let ray := ctx.spawnRay wi
    match env.intersect ray ⊤ with
    | none => 0
    | some si =>
      let num := DistanceSquared ctx.p si.intr.p
      let den := AbsDot si.intr.n (-wi) * Area tri
      if isInfDiv num den then 0 else num / den
  else
    if ¬(env.intersect (ctx.spawnRay wi) ⊤).isSome then 0
    else
      let pdf := 1 / sa
      if ctx.ns ≠ (0 : V3) then
        let w := pdfWeights tri ctx
        let u := env.invertSphericalTriangleSample tri.p0 tri.p1 tri.p2 ctx.p wi
        pdf * env.bilinearPDF u w
      else pdf

end Triangle

/-! ## Bilinear patch -/

namespace BilinearPatch

/-- One root's acceptance test and `t`/`v` values inside
`BilinearPatch::Intersect`: for a parameter `u ∈ [0,1]`, project the ray on
the ruling at `u`; accept when `t > 0` and `0 ≤ v ≤ 1`, producing
`(t, v)`. -/
def rootCandidate (ray : Ray) (p00 p10 p01 p11 : V3) (u : ℝ) : Option (ℝ × ℝ) :=
  if 0 ≤ u ∧ u ≤ 1 then
    let e10 := p10 - p00
    let e11 := p11 - p10
    let e00 := p01 - p00
    let q00 := p00 - ray.o
    let q10 := p10 - ray.o
    let pa := LerpV u q00 q10
    let pb := LerpV u e00 e11
    let n := Cross ray.d pb
    let det := Dot n n
    let n := Cross n pa
    let tv := Dot n pb
    let vv := Dot n ray.d
    if tv > 0 ∧ 0 ≤ vv ∧ vv ≤ det then some (tv / det, vv / det) else none
  else none

/-- The two `u` roots of the scalar quadratic `a + b u + c u² = 0` computed
by `BilinearPatch::Intersect` (`u2 = -1` marks the missing second root of
the trapezoid case). -/
def quadRoots (a b c sdet : ℝ) : ℝ × ℝ :=
  if c = 0 then (-a / b, -1)
  else
    let u1p := (-b - (if b < 0 then -sdet else sdet)) / 2
    (u1p / c, a / u1p)

/-- The coefficients `(a, b, c)` of the scalar quadratic `a + b u + c u²`
formed at the top of `BilinearPatch::Intersect`. -/
def quadCoeffs (ray : Ray) (p00 p10 p01 p11 : V3) : ℝ × ℝ × ℝ :=
  let qn := Cross (p10 - p00) (p01 - p11)
  let e10 := p10 - p00
  let e11 := p11 - p10
  let e00 := p01 - p00
  let q00 := p00 - ray.o
  let q10 := p10 - ray.o
  let a := Dot (Cross q00 ray.d) e00
  let c := Dot qn ray.d
  let b := Dot (Cross q10 ray.d) e11 - (a + c)
  (a, b, c)

/-- The static `BilinearPatch::Intersect(ray, tMax, p00, p10, p01, p11)`
(`shapes.h` lines 1420-1487). -/
def Intersect (ray : Ray) (tMax : ℝ) (p00 p10 p01 p11 : V3) :
    Option BilinearIntersection :=
  let abc := quadCoeffs ray p00 p10 p01 p11
  let a := abc.1
  let b := abc.2.1
  let c := abc.2.2
  let e11 := p11 - p10
  let e00 := p01 - p00
  let q00 := p00 - ray.o
  let q10 := p10 - ray.o
  let det := b * b - 4 * a * c
  if det < 0 then none
  else
    let sdet := Real.sqrt det
    let roots := quadRoots a b c sdet
    let u1 := roots.1
    let u2 := roots.2
    let st0 : ℝ × ℝ × ℝ := (tMax, 0, 0)
    let st1 : ℝ × ℝ × ℝ :=
      if 0 ≤ u1 ∧ u1 ≤ 1 then
        let pa := LerpV u1 q00 q10
        let pb := LerpV u1 e00 e11
        let n := Cross ray.d pb
        let det1 := Dot n n
        let n := Cross n pa
        let t1 := Dot n pb
        let v1 := Dot n ray.d
        if t1 > 0 ∧ 0 ≤ v1 ∧ v1 ≤ det1 then (t1 / det1, u1, v1 / det1) else st0
      else st0
    let st2 : ℝ × ℝ × ℝ :=
      if 0 ≤ u2 ∧ u2 ≤ 1 then
        let pa := LerpV u2 q00 q10
        let pb := LerpV u2 e00 e11
        let n := Cross ray.d pb
        let det2 := Dot n n
        let n := Cross n pa
        let t2 := Dot n pb / det2
        let v2 := Dot n ray.d
        if 0 ≤ v2 ∧ v2 ≤ det2 ∧ st1.1 > t2 ∧ t2 > 0 then (t2, u2, v2 / det2) else st1
      else st1
    if st2.1 ≥ tMax then none else some ⟨⟨st2.2.1, st2.2.2⟩, st2.1⟩

end BilinearPatch

/-! ## Curve and the shape handle -/

/-- pbrt `CurveType`. -/
inductive CurveType where
  | flat
  | cylinder
  | ribbon

/-- pbrt `Curve`: the `CurveCommon` data relevant to the embedded operations
plus the `[uMin, uMax]` span.  The intersection and sampling bodies live in
`shapes.cpp` and are not among the sources. -/
structure CurveT where
  cpObj : V3 × V3 × V3 × V3
  width0 : ℝ
  width1 : ℝ
  type : CurveType
  uMin : ℝ
  uMax : ℝ
  reverseOrientation : Bool := false
  transformSwapsHandedness : Bool := false

/-- `Curve::NormalBounds()` (`shapes.h` line 1341). -/
def CurveT.NormalBounds (_c : CurveT) : DirectionCone := .entireSphere

/-- The tagged-variant `ShapeHandle`.  The triangle, bilinear-patch and
curve `Intersect(ray, tMax)` bodies live in `shapes.cpp` and are carried as
the variant's payload function. -/
inductive ShapeHandle where
  | sphere (s : Sphere)
  | disk (dk : Disk)
  | cylinder (cy : Cylinder)
  | triangle (intersectFn : Ray → WithTop ℝ → Option ShapeIntersectionT)
  | bilinearPatch (intersectFn : Ray → WithTop ℝ → Option ShapeIntersectionT)
  | curve (intersectFn : Ray → WithTop ℝ → Option ShapeIntersectionT)

namespace ShapeHandle

/-- `ShapeHandle::Intersect`: one-line dispatch. -/
def Intersect (h : ShapeHandle) (r : Ray) (tMax : WithTop ℝ) :
    Option ShapeIntersectionT :=
  match h with
  | sphere s => s.Intersect r tMax
  | disk dk => dk.Intersect r tMax
  | cylinder cy => cy.Intersect r tMax
  | triangle f => f r tMax
  | bilinearPatch f => f r tMax
  | curve f => f r tMax

/-- `ShapeHandle::IntersectP`: one-line dispatch.  For the quadrics this is
the source's `BasicIntersect(...).has_value()`; for the triangle, bilinear
patch and curve the bodies live in `shapes.cpp` — modelled from the spec:
`IntersectP(R, tMax) ⇔ Intersect(R, tMax).is_some()` is the spec's stated
contract for the predicate form. -/
def IntersectP (h : ShapeHandle) (r : Ray) (tMax : WithTop ℝ) : Bool :=
  match h with
  | sphere s => s.IntersectP r tMax
  | disk dk => dk.IntersectP r tMax
  | cylinder cy => cy.IntersectP r tMax
  | triangle f => (f r tMax).isSome
  | bilinearPatch f => (f r tMax).isSome
  | curve f => (f r tMax).isSome

end ShapeHandle

/-! ## Component lemmas for the vector operations -/

@[simp] theorem V3.add_x (a b : V3) : (a + b).x = a.x + b.x := rfl

@[simp] theorem V3.add_y (a b : V3) : (a + b).y = a.y + b.y := rfl

@[simp] theorem V3.add_z (a b : V3) : (a + b).z = a.z + b.z := rfl

@[simp] theorem V3.sub_x (a b : V3) : (a - b).x = a.x - b.x := rfl

@[simp] theorem V3.sub_y (a b : V3) : (a - b).y = a.y - b.y := rfl

@[simp] theorem V3.sub_z (a b : V3) : (a - b).z = a.z - b.z := rfl

@[simp] theorem V3.neg_x (a : V3) : (-a).x = -a.x := rfl

@[simp] theorem V3.neg_y (a : V3) : (-a).y = -a.y := rfl

@[simp] theorem V3.neg_z (a : V3) : (-a).z = -a.z := rfl

@[simp] theorem V3.smul_x (c : ℝ) (a : V3) : (c • a).x = c * a.x := rfl

@[simp] theorem V3.smul_y (c : ℝ) (a : V3) : (c • a).y = c * a.y := rfl

@[simp] theorem V3.smul_z (c : ℝ) (a : V3) : (c • a).z = c * a.z := rfl

@[simp] theorem V3.zero_x : (0 : V3).x = 0 := rfl

@[simp] theorem V3.zero_y : (0 : V3).y = 0 := rfl

@[simp] theorem V3.zero_z : (0 : V3).z = 0 := rfl

@[simp] theorem Pt2.sub_fst (a b : Pt2) : (a - b).x = a.x - b.x := rfl

@[simp] theorem Pt2.sub_snd (a b : Pt2) : (a - b).y = a.y - b.y := rfl

@[simp] theorem Pt2.add_fst (a b : Pt2) : (a + b).x = a.x + b.x := rfl

@[simp] theorem Pt2.add_snd (a b : Pt2) : (a + b).y = a.y + b.y := rfl

@[simp] theorem Pt2.smul_fst (c : ℝ) (a : Pt2) : (c • a).x = c * a.x := rfl

@[simp] theorem Pt2.smul_snd (c : ℝ) (a : Pt2) : (c • a).y = c * a.y := rfl

theorem V3.ext_iff' (a b : V3) : a = b ↔ a.x = b.x ∧ a.y = b.y ∧ a.z = b.z := by
  constructor
  · rintro rfl; exact ⟨rfl, rfl, rfl⟩
  · rintro ⟨hx, hy, hz⟩; cases a; cases b; simp_all

/-! ## Claim C10: NormalBounds of sphere, cylinder and curve -/

/-- Claim C10: `Sphere::NormalBounds`, `Cylinder::NormalBounds` and
`Curve::NormalBounds` all return the entire sphere of directions, whatever
the shape's parameters; and the entire-sphere cone contains every direction,
so the normal-bounds validity invariant is trivial for these shapes. -/
theorem claim_C10 :
    (∀ s : Sphere, s.NormalBounds = DirectionCone.entireSphere) ∧
    (∀ cy : Cylinder, cy.NormalBounds = DirectionCone.entireSphere) ∧
    (∀ c : CurveT, c.NormalBounds = DirectionCone.entireSphere) ∧
    ∀ n : V3, DirectionCone.entireSphere.inside n := by
  refine ⟨fun _ => rfl, fun _ => rfl, fun _ => rfl, fun n => ?_⟩
  show Dot ⟨0, 0, 1⟩ (Normalize n) ≥ -1
  have hLS : 0 ≤ LengthSquared n := by unfold LengthSquared; positivity
  have hL : 0 ≤ Length n := Real.sqrt_nonneg _
  have habs : |n.z| ≤ Length n := by
    unfold Length
    rw [show |n.z| = Real.sqrt (n.z ^ 2) by rw [Real.sqrt_sq_eq_abs]]
    apply Real.sqrt_le_sqrt
    unfold LengthSquared
    nlinarith [sq_nonneg n.x, sq_nonneg n.y]
  have habs' := abs_le.mp habs
  unfold Dot Normalize
  simp only [V3.smul_x, V3.smul_y, V3.smul_z]
  rcases eq_or_lt_of_le hL with h0 | hpos
  · rw [← h0]
    simp
  · have hinv : 0 < 1 / Length n := by positivity
    have h1 : (1 / Length n) * (-(Length n)) ≤ (1 / Length n) * n.z :=
      mul_le_mul_of_nonneg_left habs'.1 (le_of_lt hinv)
    have h2 : (1 / Length n) * (-(Length n)) = -1 := by
      field_simp
    nlinarith [h1, h2]

/-! ## Claim C1: IntersectP / Intersect consistency -/

/-- Claim C1: for every shape and ray, `IntersectP(R, tMax)` is true exactly
when `Intersect(R, tMax)` returns a non-empty optional; and for `Sphere`,
`Disk` and `Cylinder` — whose `Intersect`/`IntersectP` are both driven by
`BasicIntersect` — the `tHit` reported by `Intersect` is the `tHit` of the
`BasicIntersect` result.  (The triangle / bilinear-patch / curve
`Intersect` bodies live in `shapes.cpp`; their `IntersectP` is modelled from
the spec as `Intersect(...).is_some()`, which the handle dispatch carries.) -/
theorem claim_C1 :
    (∀ (h : ShapeHandle) (r : Ray) (tMax : WithTop ℝ),
        h.IntersectP r tMax = (h.Intersect r tMax).isSome) ∧
    (∀ (s : Sphere) (r : Ray) (tMax : WithTop ℝ),
        (s.Intersect r tMax).map ShapeIntersectionT.tHit
          = (s.BasicIntersect r tMax).map QuadricIntersection.tHit) ∧
    (∀ (dk : Disk) (r : Ray) (tMax : WithTop ℝ),
        (dk.Intersect r tMax).map ShapeIntersectionT.tHit
          = (dk.BasicIntersect r tMax).map QuadricIntersection.tHit) ∧
    (∀ (cy : Cylinder) (r : Ray) (tMax : WithTop ℝ),
        (cy.Intersect r tMax).map ShapeIntersectionT.tHit
          = (cy.BasicIntersect r tMax).map QuadricIntersection.tHit) := by
  refine ⟨fun h r tMax => ?_, fun s r tMax => ?_, fun dk r tMax => ?_,
    fun cy r tMax => ?_⟩
  · cases h with
    | sphere s =>
      show s.IntersectP r tMax = _
      rw [Sphere.IntersectP]
      show _ = (s.Intersect r tMax).isSome
      rw [Sphere.Intersect]
      cases s.BasicIntersect r tMax <;> rfl
    | disk dk =>
      show dk.IntersectP r tMax = _
      rw [Disk.IntersectP]
      show _ = (dk.Intersect r tMax).isSome
      rw [Disk.Intersect]
      cases dk.BasicIntersect r tMax <;> rfl
    | cylinder cy =>
      show cy.IntersectP r tMax = _
      rw [Cylinder.IntersectP]
      show _ = (cy.Intersect r tMax).isSome
      rw [Cylinder.Intersect]
      cases cy.BasicIntersect r tMax <;> rfl
    | triangle f => rfl
    | bilinearPatch f => rfl
    | curve f => rfl
  · rw [Sphere.Intersect]
    cases s.BasicIntersect r tMax <;> rfl
  · rw [Disk.Intersect]
    cases dk.BasicIntersect r tMax <;> rfl
  · rw [Cylinder.Intersect]
    cases cy.BasicIntersect r tMax <;> rfl

/-! ## Interval computation lemmas -/

theorem FI_add_def (a b : FloatInterval) :
    a + b = ⟨a.lo + b.lo, a.hi + b.hi⟩ := rfl

theorem FI_sub_def (a b : FloatInterval) :
    a - b = ⟨a.lo - b.hi, a.hi - b.lo⟩ := rfl

theorem FI_mul_def (a b : FloatInterval) :
    a * b = ⟨min (min (a.lo * b.lo) (a.lo * b.hi)) (min (a.hi * b.lo) (a.hi * b.hi)),
      max (max (a.lo * b.lo) (a.lo * b.hi)) (max (a.hi * b.lo) (a.hi * b.hi))⟩ := rfl

/-- Square root of an exactly known square. -/
theorem sqrt_eval {a b : ℝ} (hb : 0 ≤ b) (h : b ^ 2 = a) : Real.sqrt a = b := by
  rw [← h, Real.sqrt_sq hb]

/-- Degeneracy (zero width) is preserved by interval addition. -/
theorem deg_add {a b : FloatInterval} (ha : a.lo = a.hi) (hb : b.lo = b.hi) :
    (a + b).lo = (a + b).hi := by
  show a.lo + b.lo = a.hi + b.hi
  rw [ha, hb]

/-- Degeneracy is preserved by interval subtraction. -/
theorem deg_sub {a b : FloatInterval} (ha : a.lo = a.hi) (hb : b.lo = b.hi) :
    (a - b).lo = (a - b).hi := by
  show a.lo - b.hi = a.hi - b.lo
  rw [ha, hb]

/-- Degeneracy is preserved by interval multiplication. -/
theorem deg_mul {a b : FloatInterval} (ha : a.lo = a.hi) (hb : b.lo = b.hi) :
    (a * b).lo = (a * b).hi := by
  show min (min (a.lo * b.lo) (a.lo * b.hi)) (min (a.hi * b.lo) (a.hi * b.hi))
      = max (max (a.lo * b.lo) (a.lo * b.hi)) (max (a.hi * b.lo) (a.hi * b.hi))
  rw [ha, hb]
  simp

/-- Degeneracy is preserved by interval division. -/
theorem deg_div {a b : FloatInterval} (ha : a.lo = a.hi) (hb : b.lo = b.hi) :
    (a.div b).lo = (a.div b).hi := by
  unfold FloatInterval.div
  split
  · rfl
  · simp only
    rw [ha, hb]
    simp

/-- Degeneracy is preserved by pbrt's interval `Sqr`. -/
theorem deg_sqr {a : FloatInterval} (ha : a.lo = a.hi) :
    a.sqr.lo = a.sqr.hi := by
  unfold FloatInterval.sqr
  split
  · rename_i h
    have h0 : a.lo = 0 := le_antisymm h.1 (ha ▸ h.2)
    have h1 : a.hi = 0 := by rw [← ha]; exact h0
    simp only [h0, h1]
    norm_num
  · simp only
    rw [ha]
    simp

/-- Degeneracy is preserved by interval square root. -/
theorem deg_sqrtI {a : FloatInterval} (ha : a.lo = a.hi) :
    a.sqrtI.lo = a.sqrtI.hi := by
  show Real.sqrt a.lo = Real.sqrt a.hi
  rw [ha]

/-- An exact interval is degenerate. -/
theorem deg_exact (x : ℝ) : (FloatInterval.exact x).lo = (FloatInterval.exact x).hi := rfl

/-- `SumSquares` of degenerate intervals is degenerate. -/
theorem deg_sumSquares3 {x y z : FloatInterval} (hx : x.lo = x.hi)
    (hy : y.lo = y.hi) (hz : z.lo = z.hi) :
    (SumSquares3 x y z).lo = (SumSquares3 x y z).hi :=
  deg_add (deg_add (deg_sqr hx) (deg_sqr hy)) (deg_sqr hz)

/-- On degenerate (exact) inputs, both root intervals returned by
`Sphere::SphereQuadratic` are degenerate. -/
theorem sphereQuadratic_deg {radius : ℝ} {o d : P3I}
    (ho : o.x.lo = o.x.hi ∧ o.y.lo = o.y.hi ∧ o.z.lo = o.z.hi)
    (hd : d.x.lo = d.x.hi ∧ d.y.lo = d.y.hi ∧ d.z.lo = d.z.hi)
    {t0 t1 : FloatInterval}
    (h : Sphere.SphereQuadratic radius o d = some (t0, t1)) :
    (t0.lo = t0.hi) ∧ (t1.lo = t1.hi) := by
  have ha : (Sphere.quadA d).lo = (Sphere.quadA d).hi :=
    deg_sumSquares3 hd.1 hd.2.1 hd.2.2
  have hb : (Sphere.quadB o d).lo = (Sphere.quadB o d).hi := by
    unfold Sphere.quadB
    exact deg_mul (deg_exact 2)
      (deg_add (deg_add (deg_mul hd.1 ho.1) (deg_mul hd.2.1 ho.2.1))
        (deg_mul hd.2.2 ho.2.2))
  have hc : (Sphere.quadC radius o).lo = (Sphere.quadC radius o).hi := by
    unfold Sphere.quadC
    exact deg_sub (deg_sumSquares3 ho.1 ho.2.1 ho.2.2) (deg_sqr (deg_exact radius))
  have hdisc : (Sphere.sphereDiscrim radius o d).lo
      = (Sphere.sphereDiscrim radius o d).hi := by
    unfold Sphere.sphereDiscrim
    simp only
    have hf := deg_div hb (deg_mul (deg_exact 2) ha)
    exact deg_mul (deg_mul (deg_mul (deg_exact 4) ha)
        (deg_sub (deg_exact radius)
          (deg_sqrtI (deg_sumSquares3 (deg_sub ho.1 (deg_mul hf hd.1))
            (deg_sub ho.2.1 (deg_mul hf hd.2.1))
            (deg_sub ho.2.2 (deg_mul hf hd.2.2))))))
      (deg_add (deg_exact radius)
        (deg_sqrtI (deg_sumSquares3 (deg_sub ho.1 (deg_mul hf hd.1))
          (deg_sub ho.2.1 (deg_mul hf hd.2.1))
          (deg_sub ho.2.2 (deg_mul hf hd.2.2)))))
  have hroot : (Sphere.sphereDiscrim radius o d).sqrtI.lo
      = (Sphere.sphereDiscrim radius o d).sqrtI.hi := deg_sqrtI hdisc
  unfold Sphere.SphereQuadratic at h
  simp only at h
  by_cases hneg : (Sphere.sphereDiscrim radius o d).lo < 0
  · rw [if_pos hneg] at h
    exact absurd h (by simp)
  · rw [if_neg hneg] at h
    set q : FloatInterval :=
      (if (Sphere.quadB o d).mid < 0 then
        FloatInterval.exact (-(1/2)) * (Sphere.quadB o d - (Sphere.sphereDiscrim radius o d).sqrtI)
      else
        FloatInterval.exact (-(1/2)) * (Sphere.quadB o d + (Sphere.sphereDiscrim radius o d).sqrtI))
      with hqdef
    have hq : q.lo = q.hi := by
      rw [hqdef]
      split
      · exact deg_mul (deg_exact _) (deg_sub hb hroot)
      · exact deg_mul (deg_exact _) (deg_add hb hroot)
    have ht0 : ((q.div (Sphere.quadA d)).lo = (q.div (Sphere.quadA d)).hi) :=
      deg_div hq ha
    have ht1 : (((Sphere.quadC radius o).div q).lo
        = ((Sphere.quadC radius o).div q).hi) := deg_div hc hq
    split at h
    · rw [Option.some_inj, Prod.ext_iff] at h
      obtain ⟨h1, h2⟩ := h
      simp only at h1 h2
      rw [← h1, ← h2]
      exact ⟨ht1, ht0⟩
    · rw [Option.some_inj, Prod.ext_iff] at h
      obtain ⟨h1, h2⟩ := h
      simp only at h1 h2
      rw [← h1, ← h2]
      exact ⟨ht0, ht1⟩

/-! ## Claim C4: the sphere quadratic solver -/

/-- Claim C4, counterexample: the solver rejects on a *negative lower
bound* of the discriminant interval, not a negative upper bound as the claim
states.  With `radius = 1`, `o = ([3,3], [0.9,1.1], [0,0])` and
`d = ([1,1], [0,0], [0,0])` the discriminant interval is `[-21/25, 21/25]`:
its upper bound is nonnegative, yet `SphereQuadratic` returns nothing
instead of proceeding to the roots. -/
theorem claim_C4_cex :
    (Sphere.sphereDiscrim 1 ⟨⟨3, 3⟩, ⟨9/10, 11/10⟩, ⟨0, 0⟩⟩
        ⟨⟨1, 1⟩, ⟨0, 0⟩, ⟨0, 0⟩⟩).hi ≥ 0 ∧
    (Sphere.sphereDiscrim 1 ⟨⟨3, 3⟩, ⟨9/10, 11/10⟩, ⟨0, 0⟩⟩
        ⟨⟨1, 1⟩, ⟨0, 0⟩, ⟨0, 0⟩⟩).lo < 0 ∧
    Sphere.SphereQuadratic 1 ⟨⟨3, 3⟩, ⟨9/10, 11/10⟩, ⟨0, 0⟩⟩
        ⟨⟨1, 1⟩, ⟨0, 0⟩, ⟨0, 0⟩⟩ = none := by
  have h81 : Real.sqrt ((81:ℝ)/100) = 9/10 := sqrt_eval (by norm_num) (by norm_num)
  have h121 : Real.sqrt ((121:ℝ)/100) = 11/10 := sqrt_eval (by norm_num) (by norm_num)
  have ha : Sphere.quadA ⟨⟨1, 1⟩, ⟨0, 0⟩, ⟨0, 0⟩⟩ = ⟨1, 1⟩ := by
    unfold Sphere.quadA SumSquares3
    simp only [FloatInterval.sqr, FI_add_def]
    norm_num
  have hb : Sphere.quadB ⟨⟨3, 3⟩, ⟨9/10, 11/10⟩, ⟨0, 0⟩⟩ ⟨⟨1, 1⟩, ⟨0, 0⟩, ⟨0, 0⟩⟩
      = ⟨6, 6⟩ := by
    unfold Sphere.quadB
    simp only [FloatInterval.exact, FI_add_def, FI_mul_def]
    norm_num
  have hd : Sphere.sphereDiscrim 1 ⟨⟨3, 3⟩, ⟨9/10, 11/10⟩, ⟨0, 0⟩⟩
      ⟨⟨1, 1⟩, ⟨0, 0⟩, ⟨0, 0⟩⟩ = ⟨-(21/25), 21/25⟩ := by
    unfold Sphere.sphereDiscrim
    simp only
    rw [ha, hb]
    have s1 : FloatInterval.exact 2 * (⟨1, 1⟩ : FloatInterval) = ⟨2, 2⟩ := by
      simp only [FloatInterval.exact, FI_mul_def]; norm_num
    rw [s1]
    have s2 : FloatInterval.div ⟨6, 6⟩ ⟨2, 2⟩ = ⟨3, 3⟩ := by
      unfold FloatInterval.div; norm_num
    rw [s2]
    have s3 : (⟨3, 3⟩ : FloatInterval) * ⟨1, 1⟩ = ⟨3, 3⟩ := by
      simp only [FI_mul_def]; norm_num
    have s4 : (⟨3, 3⟩ : FloatInterval) * ⟨0, 0⟩ = ⟨0, 0⟩ := by
      simp only [FI_mul_def]; norm_num
    rw [s3, s4]
    have s5 : (⟨3, 3⟩ : FloatInterval) - ⟨3, 3⟩ = ⟨0, 0⟩ := by
      simp only [FI_sub_def]; norm_num
    have s6 : (⟨9/10, 11/10⟩ : FloatInterval) - ⟨0, 0⟩ = ⟨9/10, 11/10⟩ := by
      simp only [FI_sub_def]; norm_num
    have s7 : (⟨0, 0⟩ : FloatInterval) - ⟨0, 0⟩ = ⟨0, 0⟩ := by
      simp only [FI_sub_def]; norm_num
    rw [s5, s6, s7]
    have a1 : |(9/10 : ℝ)| = 9/10 := abs_of_nonneg (by norm_num)
    have a2 : |(11/10 : ℝ)| = 11/10 := abs_of_nonneg (by norm_num)
    have s8 : SumSquares3 ⟨0, 0⟩ ⟨9/10, 11/10⟩ ⟨0, 0⟩ = ⟨81/100, 121/100⟩ := by
      unfold SumSquares3
      simp only [FloatInterval.sqr, FI_add_def]
      norm_num [min_def, max_def, a1, a2]
    rw [s8]
    have s9 : FloatInterval.sqrtI ⟨81/100, 121/100⟩ = ⟨9/10, 11/10⟩ := by
      unfold FloatInterval.sqrtI
      rw [h81, h121]
    rw [s9]
    have s10 : FloatInterval.exact 1 - (⟨9/10, 11/10⟩ : FloatInterval)
        = ⟨-(1/10), 1/10⟩ := by
      simp only [FloatInterval.exact, FI_sub_def]; norm_num
    have s11 : FloatInterval.exact 1 + (⟨9/10, 11/10⟩ : FloatInterval)
        = ⟨19/10, 21/10⟩ := by
      simp only [FloatInterval.exact, FI_add_def]; norm_num
    rw [s10, s11]
    have s12 : FloatInterval.exact 4 * (⟨1, 1⟩ : FloatInterval) = ⟨4, 4⟩ := by
      simp only [FloatInterval.exact, FI_mul_def]; norm_num
    rw [s12]
    have s13 : (⟨4, 4⟩ : FloatInterval) * ⟨-(1/10), 1/10⟩ = ⟨-(2/5), 2/5⟩ := by
      simp only [FI_mul_def]; norm_num [min_def, max_def]
    rw [s13]
    simp only [FI_mul_def]
    norm_num [min_def, max_def]
  refine ⟨by rw [hd]; norm_num, by rw [hd]; norm_num, ?_⟩
  unfold Sphere.SphereQuadratic
  simp only
  rw [hd]
  norm_num

/-- Claim C4, amended: the solver returns nothing exactly when the
discriminant interval's *lower* bound is negative; whenever the lower bound
is nonnegative it proceeds to compute `q = -½(b + sign(b)·√disc)` and the
ordered roots `t0 = q/a`, `t1 = c/q`; and `Sphere::BasicIntersect` tests the
roots against `(0, tMax]`: any returned hit has `0 < tHit ≤ tMax`. -/
theorem claim_C4 :
    (∀ (radius : ℝ) (o d : P3I),
      Sphere.SphereQuadratic radius o d = none ↔
        (Sphere.sphereDiscrim radius o d).lo < 0) ∧
    (∀ (radius : ℝ) (o d : P3I), 0 ≤ (Sphere.sphereDiscrim radius o d).lo →
      Sphere.SphereQuadratic radius o d =
        (let a := Sphere.quadA d
         let b := Sphere.quadB o d
         let c := Sphere.quadC radius o
         let q := if b.mid < 0 then
             FloatInterval.exact (-(1/2)) *
               (b - (Sphere.sphereDiscrim radius o d).sqrtI)
           else
             FloatInterval.exact (-(1/2)) *
               (b + (Sphere.sphereDiscrim radius o d).sqrtI)
         let t0 := q.div a
         let t1 := c.div q
         if t0.lo > t1.lo then some (t1, t0) else some (t0, t1))) ∧
    (∀ (s : Sphere) (r : Ray) (tMax : WithTop ℝ) (qi : QuadricIntersection),
      s.BasicIntersect r tMax = some qi →
        0 < qi.tHit ∧ (qi.tHit : WithTop ℝ) ≤ tMax) := by
  refine ⟨fun radius o d => ?_, fun radius o d h => ?_, fun s r tMax qi h => ?_⟩
  · unfold Sphere.SphereQuadratic
    simp only
    by_cases hneg : (Sphere.sphereDiscrim radius o d).lo < 0
    · simp [hneg]
    · rw [if_neg hneg]
      constructor
      · intro hcontra
        split at hcontra <;> split at hcontra <;> simp at hcontra
      · intro hcontra
        exact absurd hcontra hneg
  · unfold Sphere.SphereQuadratic
    rw [if_neg (not_lt.mpr h)]
  · unfold Sphere.BasicIntersect at h
    simp only at h
    rcases hq : Sphere.SphereQuadratic s.radius (P3I.exact r.o) (P3I.exact r.d) with
      _ | ⟨t0, t1⟩
    · rw [hq] at h
      exact absurd h (by simp)
    · obtain ⟨h0, h1⟩ := sphereQuadratic_deg ⟨rfl, rfl, rfl⟩ ⟨rfl, rfl, rfl⟩ hq
      rw [hq] at h
      simp only at h
      have hmid0 : t0.mid = t0.lo := by unfold FloatInterval.mid; rw [← h0]; ring
      have hmid1 : t1.mid = t1.lo := by unfold FloatInterval.mid; rw [← h1]; ring
      have hmidhi0 : t0.mid = t0.hi := by rw [hmid0, h0]
      have hmidhi1 : t1.mid = t1.hi := by rw [hmid1, h1]
      by_cases hC1 : (t0.hi : WithTop ℝ) > tMax ∨ t1.lo ≤ 0
      · rw [if_pos hC1] at h
        exact absurd h (by simp)
      · rw [if_neg hC1] at h
        push_neg at hC1
        obtain ⟨hhi0, hlo1⟩ := hC1
        by_cases hC3 : t0.lo ≤ 0
        · by_cases hC2b : (t1.hi : WithTop ℝ) > tMax
          · rw [if_pos ⟨hC3, hC2b⟩] at h
            exact absurd h (by simp)
          · rw [if_neg (by tauto), if_pos hC3] at h
            by_cases hclip : Sphere.clipRejects s
                (Sphere.hitPosPhi s ⟨(P3I.exact r.o).mid, (P3I.exact r.d).mid, r.time⟩
                  t1.mid).1
                (Sphere.hitPosPhi s ⟨(P3I.exact r.o).mid, (P3I.exact r.d).mid, r.time⟩
                  t1.mid).2
            · rw [if_pos hclip, if_pos rfl] at h
              exact absurd h (by simp)
            · rw [if_neg hclip] at h
              rw [Option.some_inj] at h
              subst h
              refine ⟨by rw [hmid1]; exact hlo1, ?_⟩
              show ((t1.mid : ℝ) : WithTop ℝ) ≤ tMax
              rw [hmidhi1]
              exact not_lt.mp hC2b
        · rw [if_neg (fun hcontra => hC3 hcontra.1), if_neg hC3] at h
          by_cases hclip : Sphere.clipRejects s
              (Sphere.hitPosPhi s ⟨(P3I.exact r.o).mid, (P3I.exact r.d).mid, r.time⟩
                t0.mid).1
              (Sphere.hitPosPhi s ⟨(P3I.exact r.o).mid, (P3I.exact r.d).mid, r.time⟩
                t0.mid).2
          · rw [if_pos hclip] at h
            by_cases heq : t0 = t1
            · rw [if_pos heq] at h
              exact absurd h (by simp)
            · rw [if_neg heq] at h
              by_cases hC2b : (t1.hi : WithTop ℝ) > tMax
              · rw [if_pos hC2b] at h
                exact absurd h (by simp)
              · rw [if_neg hC2b] at h
                by_cases hclip2 : Sphere.clipRejects s
                    (Sphere.hitPosPhi s
                      ⟨(P3I.exact r.o).mid, (P3I.exact r.d).mid, r.time⟩ t1.mid).1
                    (Sphere.hitPosPhi s
                      ⟨(P3I.exact r.o).mid, (P3I.exact r.d).mid, r.time⟩ t1.mid).2
                · rw [if_pos hclip2] at h
                  exact absurd h (by simp)
                · rw [if_neg hclip2] at h
                  rw [Option.some_inj] at h
                  subst h
                  refine ⟨by rw [hmid1]; exact hlo1, ?_⟩
                  show ((t1.mid : ℝ) : WithTop ℝ) ≤ tMax
                  rw [hmidhi1]
                  exact not_lt.mp hC2b
          · rw [if_neg hclip] at h
            rw [Option.some_inj] at h
            subst h
            refine ⟨by rw [hmid0]; exact not_le.mp hC3, ?_⟩
            show ((t0.mid : ℝ) : WithTop ℝ) ≤ tMax
            rw [hmidhi0]
            exact hhi0

/-- Witness for claim C4: the unit sphere (full band, `φmax = 2π`) and the
ray `o = (-5,0,0)`, `d = (1,0,0)`: the discriminant interval is `[4,4]`, the
solver proceeds, and the accepted hit satisfies `0 < tHit ≤ tMax`. -/
theorem claim_C4_witness :
    (0 : ℝ) ≤ (Sphere.sphereDiscrim 1 (P3I.exact ⟨-5, 0, 0⟩)
      (P3I.exact ⟨1, 0, 0⟩)).lo ∧
    (Sphere.SphereQuadratic 1 (P3I.exact ⟨-5, 0, 0⟩)
      (P3I.exact ⟨1, 0, 0⟩)).isSome = true ∧
    ∃ qi : QuadricIntersection,
      (⟨1, -1, 1, Real.pi, 0, 2 * Real.pi, false, false⟩ : Sphere).BasicIntersect
        ⟨⟨-5, 0, 0⟩, ⟨1, 0, 0⟩, 0⟩ ⊤ = some qi ∧
      0 < qi.tHit ∧ (qi.tHit : WithTop ℝ) ≤ (⊤ : WithTop ℝ) := by
  obtain ⟨hiff, hval, hbasic⟩ := claim_C4
  have ha : Sphere.quadA (P3I.exact ⟨1, 0, 0⟩) = ⟨1, 1⟩ := by
    unfold Sphere.quadA SumSquares3 P3I.exact FloatInterval.exact
    simp only [FloatInterval.sqr, FI_add_def]
    norm_num
  have hb : Sphere.quadB (P3I.exact ⟨-5, 0, 0⟩) (P3I.exact ⟨1, 0, 0⟩)
      = ⟨-10, -10⟩ := by
    unfold Sphere.quadB P3I.exact FloatInterval.exact
    simp only [FI_add_def, FI_mul_def]
    norm_num
  have hc : Sphere.quadC 1 (P3I.exact ⟨-5, 0, 0⟩) = ⟨24, 24⟩ := by
    unfold Sphere.quadC SumSquares3 P3I.exact FloatInterval.exact
    simp only [FloatInterval.sqr, FI_add_def, FI_sub_def]
    norm_num [min_def, max_def]
  have hdisc : Sphere.sphereDiscrim 1 (P3I.exact ⟨-5, 0, 0⟩) (P3I.exact ⟨1, 0, 0⟩)
      = ⟨4, 4⟩ := by
    unfold Sphere.sphereDiscrim
    simp only
    rw [ha, hb]
    have s1 : FloatInterval.exact 2 * (⟨1, 1⟩ : FloatInterval) = ⟨2, 2⟩ := by
      simp only [FloatInterval.exact, FI_mul_def]; norm_num
    rw [s1]
    have s2 : FloatInterval.div ⟨-10, -10⟩ ⟨2, 2⟩ = ⟨-5, -5⟩ := by
      unfold FloatInterval.div; norm_num
    rw [s2]
    have s3 : (⟨-5, -5⟩ : FloatInterval) * (P3I.exact ⟨1, 0, 0⟩).x = ⟨-5, -5⟩ := by
      unfold P3I.exact FloatInterval.exact
      simp only [FI_mul_def]; norm_num
    have s4 : (⟨-5, -5⟩ : FloatInterval) * (P3I.exact ⟨1, 0, 0⟩).y = ⟨0, 0⟩ := by
      unfold P3I.exact FloatInterval.exact
      simp only [FI_mul_def]; norm_num
    have s5 : (⟨-5, -5⟩ : FloatInterval) * (P3I.exact ⟨1, 0, 0⟩).z = ⟨0, 0⟩ := by
      unfold P3I.exact FloatInterval.exact
      simp only [FI_mul_def]; norm_num
    rw [s3, s4, s5]
    have s6 : (P3I.exact ⟨-5, 0, 0⟩).x - (⟨-5, -5⟩ : FloatInterval) = ⟨0, 0⟩ := by
      unfold P3I.exact FloatInterval.exact
      simp only [FI_sub_def]; norm_num
    have s7 : (P3I.exact ⟨-5, 0, 0⟩).y - (⟨0, 0⟩ : FloatInterval) = ⟨0, 0⟩ := by
      unfold P3I.exact FloatInterval.exact
      simp only [FI_sub_def]; norm_num
    have s8 : (P3I.exact ⟨-5, 0, 0⟩).z - (⟨0, 0⟩ : FloatInterval) = ⟨0, 0⟩ := by
      unfold P3I.exact FloatInterval.exact
      simp only [FI_sub_def]; norm_num
    rw [s6, s7, s8]
    have s9 : SumSquares3 ⟨0, 0⟩ ⟨0, 0⟩ ⟨0, 0⟩ = ⟨0, 0⟩ := by
      unfold SumSquares3
      simp only [FloatInterval.sqr, FI_add_def]
      norm_num
    rw [s9]
    have s10 : FloatInterval.sqrtI ⟨0, 0⟩ = ⟨0, 0⟩ := by
      unfold FloatInterval.sqrtI
      norm_num
    rw [s10]
    simp only [FloatInterval.exact, FI_add_def, FI_sub_def, FI_mul_def]
    norm_num
  have hlo : (0 : ℝ) ≤ (Sphere.sphereDiscrim 1 (P3I.exact ⟨-5, 0, 0⟩)
      (P3I.exact ⟨1, 0, 0⟩)).lo := by
    rw [hdisc]
    norm_num
  have hq : Sphere.SphereQuadratic 1 (P3I.exact ⟨-5, 0, 0⟩) (P3I.exact ⟨1, 0, 0⟩)
      = some (⟨4, 4⟩, ⟨6, 6⟩) := by
    unfold Sphere.SphereQuadratic
    simp only
    rw [ha, hb, hc, hdisc]
    rw [if_neg (by norm_num)]
    have r4 : FloatInterval.sqrtI ⟨4, 4⟩ = ⟨2, 2⟩ := by
      unfold FloatInterval.sqrtI
      rw [sqrt_eval (by norm_num : (0:ℝ) ≤ 2) (by norm_num)]
    rw [r4]
    have sq : FloatInterval.exact (-(1/2)) * ((⟨-10, -10⟩ : FloatInterval) - ⟨2, 2⟩)
        = ⟨6, 6⟩ := by
      simp only [FloatInterval.exact, FI_sub_def, FI_mul_def]; norm_num
    have st0 : FloatInterval.div ⟨6, 6⟩ ⟨1, 1⟩ = ⟨6, 6⟩ := by
      unfold FloatInterval.div; norm_num
    have st1 : FloatInterval.div ⟨24, 24⟩ ⟨6, 6⟩ = ⟨4, 4⟩ := by
      unfold FloatInterval.div; norm_num
    rw [if_pos (show (⟨-10, -10⟩ : FloatInterval).mid < 0 by
      unfold FloatInterval.mid; norm_num)]
    rw [sq, st0, st1]
    rw [if_pos (show (⟨6, 6⟩ : FloatInterval).lo > (⟨4, 4⟩ : FloatInterval).lo by
      norm_num)]
  refine ⟨hlo, ?_, ?_⟩
  · rw [hval 1 _ _ hlo]
    simp only
    split <;> first | rfl | (split <;> rfl)
  · have hpp : Sphere.hitPosPhi
        (⟨1, -1, 1, Real.pi, 0, 2 * Real.pi, false, false⟩ : Sphere)
        ⟨(P3I.exact ⟨-5, 0, 0⟩).mid, (P3I.exact ⟨1, 0, 0⟩).mid, 0⟩
        ((⟨4, 4⟩ : FloatInterval).mid) = (⟨-1, 0, 0⟩, Real.pi) := by
      unfold Sphere.hitPosPhi
      have hat : Ray.at ⟨(P3I.exact ⟨-5, 0, 0⟩).mid, (P3I.exact ⟨1, 0, 0⟩).mid, 0⟩
          ((⟨4, 4⟩ : FloatInterval).mid) = ⟨-1, 0, 0⟩ := by
        unfold Ray.at P3I.exact P3I.mid FloatInterval.exact FloatInterval.mid
        rw [V3.ext_iff']
        norm_num
      rw [hat]
      simp only
      have hdist : Distance ⟨-1, 0, 0⟩ 0 = 1 := by
        unfold Distance Length LengthSquared
        rw [show ((⟨-1,0,0⟩ : V3) - 0) = ⟨-1, 0, 0⟩ by rw [V3.ext_iff']; norm_num]
        norm_num
      rw [hdist]
      have hscale : ((1 : ℝ) / 1) • (⟨-1, 0, 0⟩ : V3) = ⟨-1, 0, 0⟩ := by
        rw [V3.ext_iff']
        norm_num
      simp only [hscale]
      rw [if_neg (by norm_num)]
      have hphi : atan2 (0 : ℝ) (-1) = Real.pi := by
        unfold atan2
        rw [if_neg (by norm_num), if_pos (by norm_num), if_pos (by norm_num)]
        norm_num
      rw [hphi]
      rw [if_neg (not_lt.mpr Real.pi_nonneg)]
    have hbi : (⟨1, -1, 1, Real.pi, 0, 2 * Real.pi, false, false⟩ : Sphere).BasicIntersect
        ⟨⟨-5, 0, 0⟩, ⟨1, 0, 0⟩, 0⟩ ⊤ = some ⟨(⟨4, 4⟩ : FloatInterval).mid, ⟨-1, 0, 0⟩,
          Real.pi⟩ := by
      unfold Sphere.BasicIntersect
      simp only
      rw [hq]
      simp only
      rw [if_neg (show ¬(((⟨4, 4⟩ : FloatInterval).hi : WithTop ℝ) > ⊤ ∨
        (⟨6, 6⟩ : FloatInterval).lo ≤ 0) from
          not_or.mpr ⟨not_top_lt, by norm_num⟩)]
      rw [if_neg (show ¬((⟨4, 4⟩ : FloatInterval).lo ≤ 0) by norm_num)]
      rw [if_neg (show ¬((⟨4, 4⟩ : FloatInterval).lo ≤ 0 ∧
        ((⟨6, 6⟩ : FloatInterval).hi : WithTop ℝ) > ⊤) from
          fun hc => absurd hc.1 (by norm_num))]
      rw [hpp]
      rw [if_neg ?hclip]
      case hclip =>
        unfold Sphere.clipRejects
        simp only
        rintro (⟨h1, -⟩ | ⟨h1, -⟩ | h1)
        · exact absurd h1 (by norm_num)
        · exact absurd h1 (by norm_num)
        · linarith [Real.pi_pos]
    exact ⟨_, hbi, hbasic _ _ _ _ hbi⟩

/-! ## Claim C8: disk intersection -/

theorem P3I_mid_exact (v : V3) : (P3I.exact v).mid = v := by
  unfold P3I.exact P3I.mid FloatInterval.exact FloatInterval.mid
  rw [V3.ext_iff']
  refine ⟨?_, ?_, ?_⟩ <;> simp only <;> ring

/-- Claim C8: for the unit disk at height 0 (radius 1, inner radius 0,
`φmax = 2π`) and the ray `o = (0.3, 0.4, 1)`, `d = (0, 0, -1)`, `Intersect`
returns `tHit = 1`, object-space hit point `(0.3, 0.4, 0)`,
`u = atan2(0.4, 0.3)/(2π)` and `v = 1/2`; and `BasicIntersect` returns no
intersection for every ray with `d.z = 0`, or with plane-hit parameter
`t ≤ 0` or `t ≥ tMax`, or hitting outside the radial bounds, or outside the
azimuthal bound. -/
theorem claim_C8 :
    (∃ si, (mkDisk false false 0 1 0 360).Intersect
        ⟨⟨3/10, 2/5, 1⟩, ⟨0, 0, -1⟩, 0⟩ ⊤ = some si ∧
      si.tHit = 1 ∧ si.intr.p = ⟨3/10, 2/5, 0⟩ ∧
      si.intr.uv.x = atan2 (2/5) (3/10) / (2 * Real.pi) ∧
      si.intr.uv.y = 1/2) ∧
    (∀ (dk : Disk) (r : Ray) (tMax : WithTop ℝ),
      r.d.z = 0 → dk.BasicIntersect r tMax = none) ∧
    (∀ (dk : Disk) (r : Ray) (tMax : WithTop ℝ),
      r.d.z ≠ 0 →
      ((dk.height - r.o.z) / r.d.z ≤ 0 ∨
        (((dk.height - r.o.z) / r.d.z : ℝ) : WithTop ℝ) ≥ tMax) →
      dk.BasicIntersect r tMax = none) ∧
    (∀ (dk : Disk) (r : Ray) (tMax : WithTop ℝ),
      r.d.z ≠ 0 →
      ¬((dk.height - r.o.z) / r.d.z ≤ 0 ∨
        (((dk.height - r.o.z) / r.d.z : ℝ) : WithTop ℝ) ≥ tMax) →
      ((r.at ((dk.height - r.o.z) / r.d.z)).x * (r.at ((dk.height - r.o.z) / r.d.z)).x
          + (r.at ((dk.height - r.o.z) / r.d.z)).y *
            (r.at ((dk.height - r.o.z) / r.d.z)).y > dk.radius * dk.radius ∨
        (r.at ((dk.height - r.o.z) / r.d.z)).x * (r.at ((dk.height - r.o.z) / r.d.z)).x
          + (r.at ((dk.height - r.o.z) / r.d.z)).y *
            (r.at ((dk.height - r.o.z) / r.d.z)).y
          < dk.innerRadius * dk.innerRadius) →
      dk.BasicIntersect r tMax = none) ∧
    (∀ (dk : Disk) (r : Ray) (tMax : WithTop ℝ),
      r.d.z ≠ 0 →
      ¬((dk.height - r.o.z) / r.d.z ≤ 0 ∨
        (((dk.height - r.o.z) / r.d.z : ℝ) : WithTop ℝ) ≥ tMax) →
      ¬((r.at ((dk.height - r.o.z) / r.d.z)).x * (r.at ((dk.height - r.o.z) / r.d.z)).x
          + (r.at ((dk.height - r.o.z) / r.d.z)).y *
            (r.at ((dk.height - r.o.z) / r.d.z)).y > dk.radius * dk.radius ∨
        (r.at ((dk.height - r.o.z) / r.d.z)).x * (r.at ((dk.height - r.o.z) / r.d.z)).x
          + (r.at ((dk.height - r.o.z) / r.d.z)).y *
            (r.at ((dk.height - r.o.z) / r.d.z)).y
          < dk.innerRadius * dk.innerRadius) →
      (let phi0 := atan2 (r.at ((dk.height - r.o.z) / r.d.z)).y
          (r.at ((dk.height - r.o.z) / r.d.z)).x;
        (if phi0 < 0 then phi0 + 2 * Real.pi else phi0) > dk.phiMax) →
      dk.BasicIntersect r tMax = none) := by
  have hmid : ∀ (r : Ray), (⟨(P3I.exact r.o).mid, (P3I.exact r.d).mid, r.time⟩ : Ray)
      = r := by
    intro r
    rw [P3I_mid_exact, P3I_mid_exact]
  refine ⟨?_, fun dk r tMax h => ?_, fun dk r tMax h ht => ?_,
    fun dk r tMax h ht hrad => ?_, fun dk r tMax h ht hrad hphi => ?_⟩
  · have hh : (mkDisk false false 0 1 0 360).height = 0 := rfl
    have hr : (mkDisk false false 0 1 0 360).radius = 1 := rfl
    have hi : (mkDisk false false 0 1 0 360).innerRadius = 0 := rfl
    have hphimax : (mkDisk false false 0 1 0 360).phiMax = 2 * Real.pi := by
      show Radians (Clamp 360 0 360) = 2 * Real.pi
      unfold Radians Clamp
      rw [if_neg (by norm_num), if_neg (by norm_num)]
      ring
    have hatan : atan2 (2/5 : ℝ) (3/10) = Real.arctan (4/3) := by
      unfold atan2
      rw [if_pos (by norm_num : (0:ℝ) < 3/10)]
      norm_num
    have hat : (⟨⟨3/10, 2/5, 1⟩, ⟨0, 0, -1⟩, 0⟩ : Ray).at (((0:ℝ) - 1) / (-1))
        = ⟨3/10, 2/5, 0⟩ := by
      unfold Ray.at
      rw [V3.ext_iff']
      norm_num
    have hb8 : (mkDisk false false 0 1 0 360).BasicIntersect
        ⟨⟨3/10, 2/5, 1⟩, ⟨0, 0, -1⟩, 0⟩ ⊤
        = some ⟨1, ⟨3/10, 2/5, 0⟩, Real.arctan (4/3)⟩ := by
      unfold Disk.BasicIntersect
      simp only [P3I_mid_exact, hh, hr, hi, hphimax]
      rw [if_neg (show ¬((⟨⟨3/10, 2/5, 1⟩, ⟨0, 0, -1⟩, 0⟩ : Ray).d.z = 0) by
        norm_num)]
      rw [if_neg (not_or.mpr ⟨by norm_num, fun hcontra =>
        WithTop.coe_ne_top (top_le_iff.mp hcontra)⟩)]
      rw [hat]
      rw [if_neg (by norm_num)]
      rw [hatan]
      have hnn : ¬(Real.arctan (4/3) < 0) := not_lt.mpr (by
        rw [show (0:ℝ) = Real.arctan 0 from Real.arctan_zero.symm]
        exact Real.arctan_strictMono.monotone (by norm_num))
      have hphile : ¬(Real.arctan (4/3) > 2 * Real.pi) := not_lt.mpr
        (le_of_lt (lt_trans (Real.arctan_lt_pi_div_two _)
          (by linarith [Real.pi_pos])))
      rw [if_neg hnn]
      rw [if_neg hphile]
      norm_num
    refine ⟨⟨(mkDisk false false 0 1 0 360).InteractionFromIntersection
        ⟨1, ⟨3/10, 2/5, 0⟩, Real.arctan (4/3)⟩ (-(⟨0, 0, -1⟩ : V3)) 0, 1⟩,
      ?_, rfl, ?_, ?_, ?_⟩
    · unfold Disk.Intersect
      rw [hb8]
    · show ((mkDisk false false 0 1 0 360).InteractionFromIntersection
        ⟨1, ⟨3/10, 2/5, 0⟩, Real.arctan (4/3)⟩ (-(⟨0, 0, -1⟩ : V3)) 0).p
          = ⟨3/10, 2/5, 0⟩
      unfold Disk.InteractionFromIntersection mkSurfaceInteraction
      simp only [hh]
    · show ((mkDisk false false 0 1 0 360).InteractionFromIntersection
        ⟨1, ⟨3/10, 2/5, 0⟩, Real.arctan (4/3)⟩ (-(⟨0, 0, -1⟩ : V3)) 0).uv.x
          = atan2 (2/5) (3/10) / (2 * Real.pi)
      unfold Disk.InteractionFromIntersection mkSurfaceInteraction
      simp only [hphimax, hatan]
    · show ((mkDisk false false 0 1 0 360).InteractionFromIntersection
        ⟨1, ⟨3/10, 2/5, 0⟩, Real.arctan (4/3)⟩ (-(⟨0, 0, -1⟩ : V3)) 0).uv.y
          = 1/2
      unfold Disk.InteractionFromIntersection mkSurfaceInteraction
      simp only [hh, hr, hi]
      rw [show ((3:ℝ)/10 * (3/10) + 2/5 * (2/5)) = 1/4 by norm_num]
      rw [sqrt_eval (by norm_num : (0:ℝ) ≤ 1/2) (by norm_num)]
      norm_num
  · unfold Disk.BasicIntersect
    simp only [P3I_mid_exact]
    rw [if_pos h]
  · unfold Disk.BasicIntersect
    simp only [P3I_mid_exact]
    rw [if_neg h, if_pos ht]
  · unfold Disk.BasicIntersect
    simp only [P3I_mid_exact]
    rw [if_neg h, if_neg ht, if_pos hrad]
  · unfold Disk.BasicIntersect
    simp only [P3I_mid_exact]
    rw [if_neg h, if_neg ht, if_neg hrad, if_pos hphi]

/-- Witness for claim C8: concrete rays exercising each rejection path of
`Disk::BasicIntersect` (parallel ray, negative plane parameter, radial miss,
azimuthal miss). -/
theorem claim_C8_witness :
    (mkDisk false false 0 1 0 360).BasicIntersect ⟨⟨0, 0, 0⟩, ⟨1, 0, 0⟩, 0⟩ ⊤
      = none ∧
    (mkDisk false false 0 1 0 360).BasicIntersect ⟨⟨0, 0, -1⟩, ⟨0, 0, -1⟩, 0⟩ ⊤
      = none ∧
    (mkDisk false false 0 1 0 360).BasicIntersect ⟨⟨5, 0, 1⟩, ⟨0, 0, -1⟩, 0⟩ ⊤
      = none ∧
    (mkDisk false false 0 1 0 90).BasicIntersect ⟨⟨-3/10, 2/5, 1⟩, ⟨0, 0, -1⟩, 0⟩ ⊤
      = none := by
  obtain ⟨-, hzero, ht, hrad, hphi⟩ := claim_C8
  refine ⟨hzero _ _ _ rfl, ht _ _ _ (by norm_num) (Or.inl (by norm_num [mkDisk])),
    ?_, ?_⟩
  · refine hrad _ _ _ (by norm_num)
      (not_or.mpr ⟨by norm_num [mkDisk],
        fun hc => WithTop.coe_ne_top (top_le_iff.mp hc)⟩)
      (Or.inl ?_)
    norm_num [mkDisk, Ray.at]
  · have harct := Real.arctan_lt_pi_div_two (4/3 : ℝ)
    have hpt : ((⟨⟨-3/10, 2/5, 1⟩, ⟨0, 0, -1⟩, 0⟩ : Ray).at
        (((mkDisk false false 0 1 0 90).height - (1:ℝ)) / (-1))) = ⟨-3/10, 2/5, 0⟩ := by
      rw [V3.ext_iff']
      norm_num [mkDisk, Ray.at]
    have hatan2 : atan2 (2/5 : ℝ) (-3/10) = Real.pi - Real.arctan (4/3) := by
      unfold atan2
      rw [if_neg (by norm_num), if_pos (by norm_num), if_pos (by norm_num)]
      rw [show ((2:ℝ)/5) / (-3/10) = -(4/3) by norm_num, Real.arctan_neg]
      ring
    have hpm : (mkDisk false false 0 1 0 90).phiMax = Real.pi / 2 := by
      show Radians (Clamp 90 0 360) = _
      unfold Radians Clamp
      rw [if_neg (by norm_num), if_neg (by norm_num)]
      ring
    refine hphi _ _ _ (by norm_num)
      (not_or.mpr ⟨by norm_num [mkDisk],
        fun hc => WithTop.coe_ne_top (top_le_iff.mp hc)⟩)
      (not_or.mpr ⟨by norm_num [mkDisk, Ray.at], by norm_num [mkDisk, Ray.at]⟩) ?_
    show (let phi0 := atan2 _ _; (if phi0 < 0 then phi0 + 2 * Real.pi else phi0))
      > (mkDisk false false 0 1 0 90).phiMax
    simp only [hpt]
    rw [hatan2]
    rw [if_neg (not_lt.mpr (by linarith [harct, Real.pi_pos]))]
    rw [hpm]
    linarith [harct, Real.pi_pos]

/-! ## Claim C7: bilinear patch intersection -/

theorem dot_self_nonneg (v : V3) : 0 ≤ Dot v v := by
  unfold Dot
  nlinarith [sq_nonneg v.x, sq_nonneg v.y, sq_nonneg v.z]

theorem eq_zero_of_dot_self_eq_zero {v : V3} (h : Dot v v = 0) : v = 0 := by
  unfold Dot at h
  rw [V3.ext_iff']
  simp only [V3.zero_x, V3.zero_y, V3.zero_z]
  refine ⟨?_, ?_, ?_⟩ <;>
    nlinarith [sq_nonneg v.x, sq_nonneg v.y, sq_nonneg v.z]

theorem cross_zero_left (b : V3) : Cross 0 b = 0 := by
  unfold Cross
  rw [V3.ext_iff']
  norm_num

theorem dot_zero_left (b : V3) : Dot 0 b = 0 := by
  unfold Dot
  norm_num

/-- If the projected `t`-numerator `Dot (Cross n pa) pb` is positive, the
denominator `Dot n n` is positive. -/
theorem dpos_of_T_pos {n pa pb : V3} (hT : 0 < Dot (Cross n pa) pb) :
    0 < Dot n n := by
  rcases (dot_self_nonneg n).eq_or_lt with h | h
  · exfalso
    have hn : n = 0 := eq_zero_of_dot_self_eq_zero h.symm
    rw [hn, cross_zero_left, dot_zero_left] at hT
    exact lt_irrefl 0 hT
  · exact h

/-- The root-selection logic of `BilinearPatch::Intersect`, abstracted over
the projected values of the two roots: any returned `(u, v, t)` has
`u, v ∈ [0,1]`, `0 < t < tMax`, and `t` is the smallest accepted root's
value. -/
theorem blp_core (tMax u1 u2 T1 D1 V1 T2 D2 V2 : ℝ)
    (hD1 : 0 ≤ D1) (hD2 : 0 ≤ D2)
    (hT1z : D1 = 0 → T1 = 0) (hT2z : D2 = 0 → T2 = 0)
    (bi : BilinearIntersection)
    (h : (let st0 : ℝ × ℝ × ℝ := (tMax, 0, 0)
          let st1 : ℝ × ℝ × ℝ := if 0 ≤ u1 ∧ u1 ≤ 1 then
              (if T1 > 0 ∧ 0 ≤ V1 ∧ V1 ≤ D1 then (T1 / D1, u1, V1 / D1) else st0)
            else st0
          let st2 : ℝ × ℝ × ℝ := if 0 ≤ u2 ∧ u2 ≤ 1 then
              (if 0 ≤ V2 ∧ V2 ≤ D2 ∧ st1.1 > T2 / D2 ∧ T2 / D2 > 0 then
                (T2 / D2, u2, V2 / D2) else st1)
            else st1
          if st2.1 ≥ tMax then none
          else some ⟨⟨st2.2.1, st2.2.2⟩, st2.1⟩ : Option BilinearIntersection)
        = some bi) :
    ((0 ≤ bi.uv.x ∧ bi.uv.x ≤ 1) ∧ (0 ≤ bi.uv.y ∧ bi.uv.y ≤ 1) ∧
      0 < bi.t ∧ bi.t < tMax) ∧
    (∀ tc : ℝ,
      ((((0 ≤ u1 ∧ u1 ≤ 1) ∧ (T1 > 0 ∧ 0 ≤ V1 ∧ V1 ≤ D1)) ∧ tc = T1 / D1) ∨
       (((0 ≤ u2 ∧ u2 ≤ 1) ∧ (T2 > 0 ∧ 0 ≤ V2 ∧ V2 ≤ D2)) ∧ tc = T2 / D2)) →
      bi.t ≤ tc) := by
  have posD1 : (T1 > 0 ∧ 0 ≤ V1 ∧ V1 ≤ D1) → 0 < D1 := by
    intro hA1
    rcases hD1.eq_or_lt with hz | hpos
    · exact absurd (hT1z hz.symm) (ne_of_gt hA1.1)
    · exact hpos
  have posD2 : T2 > 0 → 0 < D2 := by
    intro hT2
    rcases hD2.eq_or_lt with hz | hpos
    · exact absurd (hT2z hz.symm) (ne_of_gt hT2)
    · exact hpos
  have posD2' : T2 / D2 > 0 → 0 < D2 := by
    intro hT2
    rcases hD2.eq_or_lt with hz | hpos
    · rw [← hz, div_zero] at hT2
      exact absurd hT2 (lt_irrefl 0)
    · exact hpos
  simp only at h
  by_cases hC1 : 0 ≤ u1 ∧ u1 ≤ 1
  · rw [if_pos hC1] at h
    by_cases hA1 : T1 > 0 ∧ 0 ≤ V1 ∧ V1 ≤ D1
    · rw [if_pos hA1] at h
      simp only at h
      have pD1 := posD1 hA1
      by_cases hC2 : 0 ≤ u2 ∧ u2 ≤ 1
      · rw [if_pos hC2] at h
        by_cases hA2 : 0 ≤ V2 ∧ V2 ≤ D2 ∧ T1 / D1 > T2 / D2 ∧ T2 / D2 > 0
        · rw [if_pos hA2] at h
          simp only at h
          by_cases hfin : T2 / D2 ≥ tMax
          · rw [if_pos hfin] at h
            exact absurd h (by simp)
          · rw [if_neg hfin] at h
            rw [Option.some_inj] at h
            subst h
            have pD2 := posD2' hA2.2.2.2
            refine ⟨⟨⟨hC2.1, hC2.2⟩,
              ⟨div_nonneg hA2.1 pD2.le, (div_le_one pD2).mpr hA2.2.1⟩,
              hA2.2.2.2, not_le.mp hfin⟩, ?_⟩
            intro tc htc
            rcases htc with ⟨-, rfl⟩ | ⟨-, rfl⟩
            · exact le_of_lt hA2.2.2.1
            · exact le_refl _
        · rw [if_neg hA2] at h
          simp only at h
          by_cases hfin : T1 / D1 ≥ tMax
          · rw [if_pos hfin] at h
            exact absurd h (by simp)
          · rw [if_neg hfin] at h
            rw [Option.some_inj] at h
            subst h
            refine ⟨⟨⟨hC1.1, hC1.2⟩,
              ⟨div_nonneg hA1.2.1 pD1.le, (div_le_one pD1).mpr hA1.2.2⟩,
              div_pos hA1.1 pD1, not_le.mp hfin⟩, ?_⟩
            intro tc htc
            rcases htc with ⟨-, rfl⟩ | ⟨⟨-, hacc2⟩, rfl⟩
            · exact le_refl _
            · have pD2 := posD2 hacc2.1
              by_cases hgt : T1 / D1 > T2 / D2
              · exact absurd ⟨hacc2.2.1, hacc2.2.2, hgt,
                  div_pos hacc2.1 pD2⟩ hA2
              · exact not_lt.mp hgt
      · rw [if_neg hC2] at h
        by_cases hfin : T1 / D1 ≥ tMax
        · rw [if_pos hfin] at h
          exact absurd h (by simp)
        · rw [if_neg hfin] at h
          rw [Option.some_inj] at h
          subst h
          refine ⟨⟨⟨hC1.1, hC1.2⟩,
            ⟨div_nonneg hA1.2.1 pD1.le, (div_le_one pD1).mpr hA1.2.2⟩,
            div_pos hA1.1 pD1, not_le.mp hfin⟩, ?_⟩
          intro tc htc
          rcases htc with ⟨-, rfl⟩ | ⟨⟨hc2', -⟩, rfl⟩
          · exact le_refl _
          · exact absurd hc2' hC2
    · rw [if_neg hA1] at h
      simp only at h
      by_cases hC2 : 0 ≤ u2 ∧ u2 ≤ 1
      · rw [if_pos hC2] at h
        by_cases hA2 : 0 ≤ V2 ∧ V2 ≤ D2 ∧ tMax > T2 / D2 ∧ T2 / D2 > 0
        · rw [if_pos hA2] at h
          simp only at h
          by_cases hfin : T2 / D2 ≥ tMax
          · rw [if_pos hfin] at h
            exact absurd h (by simp)
          · rw [if_neg hfin] at h
            rw [Option.some_inj] at h
            subst h
            have pD2 := posD2' hA2.2.2.2
            refine ⟨⟨⟨hC2.1, hC2.2⟩,
              ⟨div_nonneg hA2.1 pD2.le, (div_le_one pD2).mpr hA2.2.1⟩,
              hA2.2.2.2, not_le.mp hfin⟩, ?_⟩
            intro tc htc
            rcases htc with ⟨⟨-, ha1'⟩, rfl⟩ | ⟨-, rfl⟩
            · exact absurd ha1' hA1
            · exact le_refl _
        · rw [if_neg hA2] at h
          rw [if_pos (le_refl tMax)] at h
          exact absurd h (by simp)
      · rw [if_neg hC2] at h
        rw [if_pos (le_refl tMax)] at h
        exact absurd h (by simp)
  · rw [if_neg hC1] at h
    simp only at h
    by_cases hC2 : 0 ≤ u2 ∧ u2 ≤ 1
    · rw [if_pos hC2] at h
      by_cases hA2 : 0 ≤ V2 ∧ V2 ≤ D2 ∧ tMax > T2 / D2 ∧ T2 / D2 > 0
      · rw [if_pos hA2] at h
        simp only at h
        by_cases hfin : T2 / D2 ≥ tMax
        · rw [if_pos hfin] at h
          exact absurd h (by simp)
        · rw [if_neg hfin] at h
          rw [Option.some_inj] at h
          subst h
          have pD2 := posD2' hA2.2.2.2
          refine ⟨⟨⟨hC2.1, hC2.2⟩,
            ⟨div_nonneg hA2.1 pD2.le, (div_le_one pD2).mpr hA2.2.1⟩,
            hA2.2.2.2, not_le.mp hfin⟩, ?_⟩
          intro tc htc
          rcases htc with ⟨⟨hc1', -⟩, rfl⟩ | ⟨-, rfl⟩
          · exact absurd hc1' hC1
          · exact le_refl _
      · rw [if_neg hA2] at h
        rw [if_pos (le_refl tMax)] at h
        exact absurd h (by simp)
    · rw [if_neg hC2] at h
      rw [if_pos (le_refl tMax)] at h
      exact absurd h (by simp)

/-- General properties of `BilinearPatch::Intersect`: any returned
intersection has patch parameters in `[0,1]²`, `0 < t < tMax`, and `t` is
the smallest of the accepted positive root values. -/
theorem blp_general (ray : Ray) (tMax : ℝ) (p00 p10 p01 p11 : V3)
    (bi : BilinearIntersection)
    (h : BilinearPatch.Intersect ray tMax p00 p10 p01 p11 = some bi) :
    ((0 ≤ bi.uv.x ∧ bi.uv.x ≤ 1) ∧ (0 ≤ bi.uv.y ∧ bi.uv.y ≤ 1) ∧
      0 < bi.t ∧ bi.t < tMax) ∧
    (∀ (u tc vc : ℝ),
      (u = (BilinearPatch.quadRoots
              (BilinearPatch.quadCoeffs ray p00 p10 p01 p11).1
              (BilinearPatch.quadCoeffs ray p00 p10 p01 p11).2.1
              (BilinearPatch.quadCoeffs ray p00 p10 p01 p11).2.2
              (Real.sqrt
                ((BilinearPatch.quadCoeffs ray p00 p10 p01 p11).2.1 *
                    (BilinearPatch.quadCoeffs ray p00 p10 p01 p11).2.1 -
                  4 * (BilinearPatch.quadCoeffs ray p00 p10 p01 p11).1 *
                    (BilinearPatch.quadCoeffs ray p00 p10 p01 p11).2.2))).1 ∨
       u = (BilinearPatch.quadRoots
              (BilinearPatch.quadCoeffs ray p00 p10 p01 p11).1
              (BilinearPatch.quadCoeffs ray p00 p10 p01 p11).2.1
              (BilinearPatch.quadCoeffs ray p00 p10 p01 p11).2.2
              (Real.sqrt
                ((BilinearPatch.quadCoeffs ray p00 p10 p01 p11).2.1 *
                    (BilinearPatch.quadCoeffs ray p00 p10 p01 p11).2.1 -
                  4 * (BilinearPatch.quadCoeffs ray p00 p10 p01 p11).1 *
                    (BilinearPatch.quadCoeffs ray p00 p10 p01 p11).2.2))).2) →
      BilinearPatch.rootCandidate ray p00 p10 p01 p11 u = some (tc, vc) →
      bi.t ≤ tc) := by
  unfold BilinearPatch.Intersect at h
  simp only at h
  by_cases hdet : (BilinearPatch.quadCoeffs ray p00 p10 p01 p11).2.1 *
      (BilinearPatch.quadCoeffs ray p00 p10 p01 p11).2.1 -
      4 * (BilinearPatch.quadCoeffs ray p00 p10 p01 p11).1 *
      (BilinearPatch.quadCoeffs ray p00 p10 p01 p11).2.2 < 0
  · rw [if_pos hdet] at h
    exact absurd h (by simp)
  · rw [if_neg hdet] at h
    obtain ⟨hb, hm⟩ := blp_core _ _ _ _ _ _ _ _ _
      (dot_self_nonneg _) (dot_self_nonneg _)
      (fun hz => by rw [eq_zero_of_dot_self_eq_zero hz, cross_zero_left,
        dot_zero_left])
      (fun hz => by rw [eq_zero_of_dot_self_eq_zero hz, cross_zero_left,
        dot_zero_left])
      bi h
    refine ⟨hb, ?_⟩
    intro u tc vc hu hcand
    unfold BilinearPatch.rootCandidate at hcand
    rcases hu with rfl | rfl
    · by_cases hc : 0 ≤ (BilinearPatch.quadRoots
          (BilinearPatch.quadCoeffs ray p00 p10 p01 p11).1
          (BilinearPatch.quadCoeffs ray p00 p10 p01 p11).2.1
          (BilinearPatch.quadCoeffs ray p00 p10 p01 p11).2.2
          (Real.sqrt
            ((BilinearPatch.quadCoeffs ray p00 p10 p01 p11).2.1 *
                (BilinearPatch.quadCoeffs ray p00 p10 p01 p11).2.1 -
              4 * (BilinearPatch.quadCoeffs ray p00 p10 p01 p11).1 *
                (BilinearPatch.quadCoeffs ray p00 p10 p01 p11).2.2))).1 ∧
          (BilinearPatch.quadRoots
          (BilinearPatch.quadCoeffs ray p00 p10 p01 p11).1
          (BilinearPatch.quadCoeffs ray p00 p10 p01 p11).2.1
          (BilinearPatch.quadCoeffs ray p00 p10 p01 p11).2.2
          (Real.sqrt
            ((BilinearPatch.quadCoeffs ray p00 p10 p01 p11).2.1 *
                (BilinearPatch.quadCoeffs ray p00 p10 p01 p11).2.1 -
              4 * (BilinearPatch.quadCoeffs ray p00 p10 p01 p11).1 *
                (BilinearPatch.quadCoeffs ray p00 p10 p01 p11).2.2))).1 ≤ 1
      · rw [if_pos hc] at hcand
        simp only at hcand
        split at hcand
        · rename_i hacc
          rw [Option.some_inj, Prod.ext_iff] at hcand
          obtain ⟨h1, -⟩ := hcand
          simp only at h1
          exact hm tc (Or.inl ⟨⟨hc, hacc⟩, h1.symm⟩)
        · exact absurd hcand (by simp)
      · rw [if_neg hc] at hcand
        exact absurd hcand (by simp)
    · by_cases hc : 0 ≤ (BilinearPatch.quadRoots
          (BilinearPatch.quadCoeffs ray p00 p10 p01 p11).1
          (BilinearPatch.quadCoeffs ray p00 p10 p01 p11).2.1
          (BilinearPatch.quadCoeffs ray p00 p10 p01 p11).2.2
          (Real.sqrt
            ((BilinearPatch.quadCoeffs ray p00 p10 p01 p11).2.1 *
                (BilinearPatch.quadCoeffs ray p00 p10 p01 p11).2.1 -
              4 * (BilinearPatch.quadCoeffs ray p00 p10 p01 p11).1 *
                (BilinearPatch.quadCoeffs ray p00 p10 p01 p11).2.2))).2 ∧
          (BilinearPatch.quadRoots
          (BilinearPatch.quadCoeffs ray p00 p10 p01 p11).1
          (BilinearPatch.quadCoeffs ray p00 p10 p01 p11).2.1
          (BilinearPatch.quadCoeffs ray p00 p10 p01 p11).2.2
          (Real.sqrt
            ((BilinearPatch.quadCoeffs ray p00 p10 p01 p11).2.1 *
                (BilinearPatch.quadCoeffs ray p00 p10 p01 p11).2.1 -
              4 * (BilinearPatch.quadCoeffs ray p00 p10 p01 p11).1 *
                (BilinearPatch.quadCoeffs ray p00 p10 p01 p11).2.2))).2 ≤ 1
      · rw [if_pos hc] at hcand
        simp only at hcand
        split at hcand
        · rename_i hacc
          rw [Option.some_inj, Prod.ext_iff] at hcand
          obtain ⟨h1, -⟩ := hcand
          simp only at h1
          exact hm tc (Or.inr ⟨⟨hc, hacc⟩, h1.symm⟩)
        · exact absurd hcand (by simp)
      · rw [if_neg hc] at hcand
        exact absurd hcand (by simp)

/-- Claim C7: on the unit quad `p00=(0,0,0), p10=(1,0,0), p01=(0,1,0),
p11=(1,1,0)` the ray `o=(0.7,0.6,1), d=(0,0,-1)` yields `uv=(0.7,0.6)` and
`t=1`; and in general any returned `BilinearIntersection` has
`(u,v) ∈ [0,1]²`, `0 < t < tMax`, and `t` is the smallest accepted positive
root value. -/
theorem claim_C7 :
    BilinearPatch.Intersect ⟨⟨7/10, 3/5, 1⟩, ⟨0, 0, -1⟩, 0⟩ 2
        ⟨0, 0, 0⟩ ⟨1, 0, 0⟩ ⟨0, 1, 0⟩ ⟨1, 1, 0⟩ = some ⟨⟨7/10, 3/5⟩, 1⟩ ∧
    (∀ (ray : Ray) (tMax : ℝ) (p00 p10 p01 p11 : V3) (bi : BilinearIntersection),
      BilinearPatch.Intersect ray tMax p00 p10 p01 p11 = some bi →
      ((0 ≤ bi.uv.x ∧ bi.uv.x ≤ 1) ∧ (0 ≤ bi.uv.y ∧ bi.uv.y ≤ 1) ∧
        0 < bi.t ∧ bi.t < tMax) ∧
      (∀ (u tc vc : ℝ),
        (u = (BilinearPatch.quadRoots
                (BilinearPatch.quadCoeffs ray p00 p10 p01 p11).1
                (BilinearPatch.quadCoeffs ray p00 p10 p01 p11).2.1
                (BilinearPatch.quadCoeffs ray p00 p10 p01 p11).2.2
                (Real.sqrt
                  ((BilinearPatch.quadCoeffs ray p00 p10 p01 p11).2.1 *
                      (BilinearPatch.quadCoeffs ray p00 p10 p01 p11).2.1 -
                    4 * (BilinearPatch.quadCoeffs ray p00 p10 p01 p11).1 *
                      (BilinearPatch.quadCoeffs ray p00 p10 p01 p11).2.2))).1 ∨
         u = (BilinearPatch.quadRoots
                (BilinearPatch.quadCoeffs ray p00 p10 p01 p11).1
                (BilinearPatch.quadCoeffs ray p00 p10 p01 p11).2.1
                (BilinearPatch.quadCoeffs ray p00 p10 p01 p11).2.2
                (Real.sqrt
                  ((BilinearPatch.quadCoeffs ray p00 p10 p01 p11).2.1 *
                      (BilinearPatch.quadCoeffs ray p00 p10 p01 p11).2.1 -
                    4 * (BilinearPatch.quadCoeffs ray p00 p10 p01 p11).1 *
                      (BilinearPatch.quadCoeffs ray p00 p10 p01 p11).2.2))).2) →
        BilinearPatch.rootCandidate ray p00 p10 p01 p11 u = some (tc, vc) →
        bi.t ≤ tc)) := by
  constructor
  · unfold BilinearPatch.Intersect BilinearPatch.quadCoeffs BilinearPatch.quadRoots
    norm_num [LerpV, LerpF, Cross, Dot]
  · intro ray tMax p00 p10 p01 p11 bi h
    exact blp_general ray tMax p00 p10 p01 p11 bi h

/-- Witness for claim C7: instantiating the general part at the unit-quad
hit: its parameters lie in `[0,1]²` and `0 < t < tMax`. -/
theorem claim_C7_witness :
    (0 ≤ (7/10 : ℝ) ∧ (7/10 : ℝ) ≤ 1) ∧ (0 ≤ (3/5 : ℝ) ∧ (3/5 : ℝ) ≤ 1) ∧
    0 < (1 : ℝ) ∧ (1 : ℝ) < 2 := by
  obtain ⟨hconc, hgen⟩ := claim_C7
  have hprops := hgen _ _ _ _ _ _ _ hconc
  exact hprops.1

/-! ## Claim C5: degenerate-triangle recovery in `InteractionFromIntersection` -/

theorem setShadingGeometry_dpdu (si : SurfaceInteraction) (ns ss ts dndu dndv : V3)
    (auth : Bool) : (si.setShadingGeometry ns ss ts dndu dndv auth).dpdu = si.dpdu := by
  unfold SurfaceInteraction.setShadingGeometry
  split <;> rfl

theorem setShadingGeometry_dpdv (si : SurfaceInteraction) (ns ss ts dndu dndv : V3)
    (auth : Bool) : (si.setShadingGeometry ns ss ts dndu dndv auth).dpdv = si.dpdv := by
  unfold SurfaceInteraction.setShadingGeometry
  split <;> rfl

theorem normalize_self_dot {v : V3} (h : LengthSquared v ≠ 0) :
    Dot (Normalize v) (Normalize v) = 1 := by
  have h0 : 0 ≤ LengthSquared v := by unfold LengthSquared; positivity
  have hpos : 0 < LengthSquared v := lt_of_le_of_ne h0 (Ne.symm h)
  unfold Normalize Length Dot
  simp only [V3.smul_x, V3.smul_y, V3.smul_z]
  have hs : 0 < Real.sqrt (LengthSquared v) := Real.sqrt_pos.mpr hpos
  have hsq : Real.sqrt (LengthSquared v) ^ 2 = LengthSquared v := Real.sq_sqrt h0
  unfold LengthSquared at hsq ⊢
  have hinv : (v.x ^ 2 + v.y ^ 2 + v.z ^ 2)⁻¹ * (v.x ^ 2 + v.y ^ 2 + v.z ^ 2) = 1 :=
    inv_mul_cancel₀ (by unfold LengthSquared at h; exact h)
  field_simp
  linear_combination hinv

theorem cs_orthonormal {v : V3} (hv : Dot v v = 1) :
    Dot (CoordinateSystem v).1 (CoordinateSystem v).2 = 0 ∧
    Dot (CoordinateSystem v).1 v = 0 ∧ Dot (CoordinateSystem v).2 v = 0 ∧
    Dot (CoordinateSystem v).1 (CoordinateSystem v).1 = 1 ∧
    Dot (CoordinateSystem v).2 (CoordinateSystem v).2 = 1 := by
  obtain ⟨x, y, z⟩ := v
  unfold Dot at hv ⊢
  simp only at hv ⊢
  unfold CoordinateSystem
  by_cases hz : z ≥ 0
  · rw [if_pos hz]
    simp only
    have hd : (1 : ℝ) + z ≠ 0 := by positivity
    set A := -1 / (1 + z) with hA
    have hm : A * (1 + z) = -1 := by rw [hA]; field_simp
    refine ⟨?_, ?_, ?_, ?_, ?_⟩
    · linear_combination (x * y * (1 + A * (1 - z))) * hm + (A ^ 2 * x * y) * hv
    · linear_combination (x * (1 - z)) * hm + (A * x) * hv
    · linear_combination (y * (1 - z)) * hm + (A * y) * hv
    · linear_combination (x ^ 2 * (1 + A * (1 - z))) * hm + (A ^ 2 * x ^ 2) * hv
    · linear_combination (y ^ 2 * (1 + A * (1 - z))) * hm + (A ^ 2 * y ^ 2) * hv
  · rw [if_neg hz]
    simp only
    have hd : (-1 : ℝ) + z ≠ 0 := by
      push_neg at hz
      intro hc
      nlinarith
    set A := -1 / (-1 + z) with hA
    have hm : A * (-1 + z) = -1 := by rw [hA]; field_simp
    refine ⟨?_, ?_, ?_, ?_, ?_⟩
    · linear_combination (-(x * y) * (1 - A * (1 + z))) * hm + (-(A ^ 2 * x * y)) * hv
    · linear_combination (x * (1 + z)) * hm + (-(A * x)) * hv
    · linear_combination (-(y * (1 + z))) * hm + (A * y) * hv
    · linear_combination (x ^ 2 * (1 - A * (1 + z))) * hm + (A ^ 2 * x ^ 2) * hv
    · linear_combination (y ^ 2 * (1 - A * (1 + z))) * hm + (A ^ 2 * y ^ 2) * hv

/-- Counterexample to claim C5: for the fully degenerate triangle with all
three vertices at the origin (a zero-area triangle whose geometric normal
`(p2-p0) × (p1-p0)` is also zero), `Triangle::InteractionFromIntersection`
does NOT yield a surface interaction: the recovery path finds a zero-length
geometric normal and returns an empty optional (`return {}`,
`shapes.h` lines 952-953), so the claim that degenerate geometry "never
aborts the ray" and "still yields a surface interaction" fails. -/
theorem claim_C5_cex :
    Triangle.InteractionFromIntersection
      ⟨0, 0, 0, none, none, none, 0, false, false⟩ (1/3, 1/3, 1/3) 0 ⟨0, 0, 1⟩ = none := by
  unfold Triangle.InteractionFromIntersection
  have hng : LengthSquared (Triangle.ngeom ⟨0, 0, 0, none, none, none, 0, false, false⟩)
      = 0 := by
    unfold Triangle.ngeom Cross LengthSquared
    norm_num
  have hrec : Triangle.needsRecovery ⟨0, 0, 0, none, none, none, 0, false, false⟩ := by
    unfold Triangle.needsRecovery Triangle.rawDpdu Triangle.rawDpdv Triangle.rawDeterminant
      Triangle.triuv DOP DOPV
    right
    norm_num [Cross, LengthSquared, V3.ext_iff']
  simp only
  rw [if_pos ⟨hrec, hng⟩]

/-- C5 (amended): for every triangle hit whose UV determinant has magnitude
below 1e-12 or whose ∂p/∂u × ∂p/∂v has zero length,
`Triangle::InteractionFromIntersection` recovers by synthesizing an
orthonormal basis from the geometric normal `ng = (p2-p0) × (p1-p0)`
provided `ng ≠ 0`: the returned interaction's `dpdu`, `dpdv` are the
`CoordinateSystem` frame of `Normalize ng`, an orthonormal pair
perpendicular to the normal.  When `ng = 0` (e.g. a zero-area triangle with
coincident vertices) the call returns an empty optional instead of a surface
interaction. -/
theorem claim_C5 (tri : TriangleData) (b : ℝ × ℝ × ℝ) (time : ℝ) (wo : V3)
    (hrec : Triangle.needsRecovery tri) :
    (LengthSquared (Triangle.ngeom tri) = 0 →
        Triangle.InteractionFromIntersection tri b time wo = none) ∧
    (LengthSquared (Triangle.ngeom tri) ≠ 0 →
        ∃ si, Triangle.InteractionFromIntersection tri b time wo = some si ∧
          si.dpdu = (CoordinateSystem (Normalize (Triangle.ngeom tri))).1 ∧
          si.dpdv = (CoordinateSystem (Normalize (Triangle.ngeom tri))).2 ∧
          Dot si.dpdu si.dpdv = 0 ∧
          Dot si.dpdu (Normalize (Triangle.ngeom tri)) = 0 ∧
          Dot si.dpdv (Normalize (Triangle.ngeom tri)) = 0 ∧
          Dot si.dpdu si.dpdu = 1 ∧ Dot si.dpdv si.dpdv = 1) := by
  constructor
  · intro hng
    unfold Triangle.InteractionFromIntersection
    simp only
    rw [if_pos (show Triangle.needsRecovery tri ∧
        LengthSquared (Triangle.ngeom tri) = 0 from ⟨hrec, hng⟩)]
  · intro hng
    obtain ⟨hcs1, hcs2, hcs3, hcs4, hcs5⟩ := cs_orthonormal (normalize_self_dot hng)
    unfold Triangle.InteractionFromIntersection
    simp only
    rw [if_neg (show ¬(Triangle.needsRecovery tri ∧
        LengthSquared (Triangle.ngeom tri) = 0) from fun hc => hng hc.2),
      if_pos hrec, if_pos hrec]
    by_cases hns : tri.nv.isNone ∧ tri.sv.isNone
    · rw [if_pos hns]
      exact ⟨_, rfl, rfl, rfl, hcs1, hcs2, hcs3, hcs4, hcs5⟩
    · rw [if_neg hns]
      exact ⟨_, rfl, rfl, rfl, hcs1, hcs2, hcs3, hcs4, hcs5⟩

/-- Witness for claim C5: the triangle `(0,0,0), (1,0,0), (0,1,0)` with the
degenerate UV assignment `(0,0), (0,0), (0,0)` triggers the recovery path
(the UV determinant is 0), its geometric normal `(0,0,-1)` is nonzero, and
the interaction's partials are the synthesized orthonormal frame. -/
theorem claim_C5_witness :
    ∃ si, Triangle.InteractionFromIntersection
        ⟨⟨0,0,0⟩, ⟨1,0,0⟩, ⟨0,1,0⟩, none, none, some (⟨0,0⟩, ⟨0,0⟩, ⟨0,0⟩), 0,
          false, false⟩ (1/3, 1/3, 1/3) 0 ⟨0,0,1⟩ = some si ∧
      si.dpdu = (CoordinateSystem (Normalize (Triangle.ngeom
        ⟨⟨0,0,0⟩, ⟨1,0,0⟩, ⟨0,1,0⟩, none, none, some (⟨0,0⟩, ⟨0,0⟩, ⟨0,0⟩), 0,
          false, false⟩))).1 ∧
      si.dpdv = (CoordinateSystem (Normalize (Triangle.ngeom
        ⟨⟨0,0,0⟩, ⟨1,0,0⟩, ⟨0,1,0⟩, none, none, some (⟨0,0⟩, ⟨0,0⟩, ⟨0,0⟩), 0,
          false, false⟩))).2 ∧
      Dot si.dpdu si.dpdv = 0 ∧
      Dot si.dpdu (Normalize (Triangle.ngeom
        ⟨⟨0,0,0⟩, ⟨1,0,0⟩, ⟨0,1,0⟩, none, none, some (⟨0,0⟩, ⟨0,0⟩, ⟨0,0⟩), 0,
          false, false⟩)) = 0 ∧
      Dot si.dpdv (Normalize (Triangle.ngeom
        ⟨⟨0,0,0⟩, ⟨1,0,0⟩, ⟨0,1,0⟩, none, none, some (⟨0,0⟩, ⟨0,0⟩, ⟨0,0⟩), 0,
          false, false⟩)) = 0 ∧
      Dot si.dpdu si.dpdu = 1 ∧ Dot si.dpdv si.dpdv = 1 := by
  have h1 : Triangle.needsRecovery
      ⟨⟨0,0,0⟩, ⟨1,0,0⟩, ⟨0,1,0⟩, none, none, some (⟨0,0⟩, ⟨0,0⟩, ⟨0,0⟩), 0,
        false, false⟩ := by
    unfold Triangle.needsRecovery Triangle.rawDeterminant Triangle.triuv DOP
    left
    norm_num
  have h2 : LengthSquared (Triangle.ngeom
      ⟨⟨0,0,0⟩, ⟨1,0,0⟩, ⟨0,1,0⟩, none, none, some (⟨0,0⟩, ⟨0,0⟩, ⟨0,0⟩), 0,
        false, false⟩) ≠ 0 := by
    unfold Triangle.ngeom Cross LengthSquared
    norm_num
  exact (claim_C5 _ (1/3, 1/3, 1/3) 0 ⟨0,0,1⟩ h1).2 h2

/-! ## Claim C9: the outside-branch cone density of `Sphere::PDF` -/

theorem offsetRayOriginP_err_zero (ctx : ShapeSampleContext) (pt : V3)
    (h : ctx.err = 0) : ctx.offsetRayOriginP pt = ctx.p := by
  unfold ShapeSampleContext.offsetRayOriginP ShapeSampleContext.offsetRayOrigin
  simp only
  rw [h]
  split <;> (apply (V3.ext_iff' _ _).mpr; refine ⟨?_, ?_, ?_⟩ <;> simp [Dot])

/-- Counterexample to claim C9: for the unit sphere viewed from
`ctx.p = (0,0,100)` (so `r²/d² = 1/10000 < 0.00068523`), the code takes the
Taylor branch (`shapes.h` lines 361-362) and returns
`1/(2π·(r²/d²)/2) = 10000/π`, which differs from the claimed exact cone
density `1/(2π·(1-cosθmax))` with `cosθmax = √(1-r²/d²) = √(1-1/10000)`. -/
theorem claim_C9_cex :
    Sphere.PDFCtx ⟨1, -1, 1, Real.pi, 0, 2 * Real.pi, false, false⟩
      ⟨⟨0, 0, 100⟩, 0, 0, 0, 0⟩ ⟨0, 0, 1⟩ ≠
      1 / (2 * Real.pi * (1 - Real.sqrt (1 - 1 / 10000))) := by
  have hd2 : DistanceSquared (⟨0, 0, 100⟩ : V3) 0 = 10000 := by
    unfold DistanceSquared LengthSquared
    norm_num
  have hval : Sphere.PDFCtx ⟨1, -1, 1, Real.pi, 0, 2 * Real.pi, false, false⟩
      ⟨⟨0, 0, 100⟩, 0, 0, 0, 0⟩ ⟨0, 0, 1⟩ = 10000 / Real.pi := by
    unfold Sphere.PDFCtx
    simp only
    rw [offsetRayOriginP_err_zero _ _ rfl]
    simp only [hd2]
    rw [if_neg (by norm_num), if_pos (by norm_num)]
    have hπ : (0 : ℝ) < Real.pi := Real.pi_pos
    field_simp
    ring
  rw [hval]
  intro h
  rw [show (1 - 1 / 10000 : ℝ) = 9999 / 10000 by norm_num] at h
  have hπ : (0 : ℝ) < Real.pi := Real.pi_pos
  have ht1 : Real.sqrt (9999 / 10000) < 1 := by
    calc Real.sqrt (9999 / 10000) < Real.sqrt 1 :=
          Real.sqrt_lt_sqrt (by norm_num) (by norm_num)
      _ = 1 := Real.sqrt_one
  have hB : (0 : ℝ) < 1 - Real.sqrt (9999 / 10000) := by linarith
  rw [div_eq_div_iff hπ.ne' (mul_pos (by positivity) hB).ne'] at h
  have h4 : Real.pi * (20000 * (1 - Real.sqrt (9999 / 10000)) - 1) = 0 := by
    linear_combination h
  rcases mul_eq_zero.mp h4 with h5 | h5
  · exact absurd h5 hπ.ne'
  · have ht : Real.sqrt (9999 / 10000) = 19999 / 20000 := by linarith
    have h2 : (9999 / 10000 : ℝ) = (19999 / 20000) ^ 2 := by
      rw [← Real.sq_sqrt (show (0 : ℝ) ≤ 9999 / 10000 by norm_num), ht]
    norm_num at h2

/-- C9 (amended): for every sphere with positive radius and every context
with exact reference point (`ctx.err = 0`) lying strictly outside the
sphere, `Sphere::PDF(ctx, wi)` returns the cone density
`1/(2π·Δ)` where `Δ = (r²/d²)/2` when `r²/d² < 0.00068523` (the Taylor
branch) and `Δ = 1 - √(1-r²/d²)` otherwise; the value is strictly positive
and independent of `wi` — no intersection test is performed in this
branch. -/
theorem claim_C9 (s : Sphere) (ctx : ShapeSampleContext) (wi : V3)
    (hr : 0 < s.radius) (herr : ctx.err = 0)
    (hout : s.radius * s.radius < DistanceSquared ctx.p 0) :
    Sphere.PDFCtx s ctx wi =
      1 / (2 * Real.pi *
        (if s.radius * s.radius / DistanceSquared ctx.p 0 < 0.00068523 then
          s.radius * s.radius / DistanceSquared ctx.p 0 / 2
        else 1 - Real.sqrt (1 - s.radius * s.radius / DistanceSquared ctx.p 0))) ∧
    0 < Sphere.PDFCtx s ctx wi ∧
    ∀ wi' : V3, Sphere.PDFCtx s ctx wi = Sphere.PDFCtx s ctx wi' := by
  have key : ∀ w : V3, Sphere.PDFCtx s ctx w =
      1 / (2 * Real.pi *
        (if s.radius * s.radius / DistanceSquared ctx.p 0 < 0.00068523 then
          s.radius * s.radius / DistanceSquared ctx.p 0 / 2
        else 1 - Real.sqrt (1 - s.radius * s.radius / DistanceSquared ctx.p 0))) := by
    intro w
    unfold Sphere.PDFCtx
    simp only
    rw [offsetRayOriginP_err_zero _ _ herr]
    rw [if_neg (not_le.mpr hout)]
    simp only [SafeSqrt]
  have hd2 : 0 < DistanceSquared ctx.p 0 := lt_trans (mul_pos hr hr) hout
  have ht : 0 < s.radius * s.radius / DistanceSquared ctx.p 0 :=
    div_pos (mul_pos hr hr) hd2
  have ht1 : s.radius * s.radius / DistanceSquared ctx.p 0 < 1 :=
    (div_lt_one hd2).mpr hout
  have hΔ : 0 < (if s.radius * s.radius / DistanceSquared ctx.p 0 < 0.00068523 then
      s.radius * s.radius / DistanceSquared ctx.p 0 / 2
    else 1 - Real.sqrt (1 - s.radius * s.radius / DistanceSquared ctx.p 0)) := by
    split
    · linarith
    · have hlt : Real.sqrt (1 - s.radius * s.radius / DistanceSquared ctx.p 0) < 1 := by
        calc Real.sqrt (1 - s.radius * s.radius / DistanceSquared ctx.p 0)
            < Real.sqrt 1 := Real.sqrt_lt_sqrt (by linarith) (by linarith)
          _ = 1 := Real.sqrt_one
      linarith
  refine ⟨key wi, ?_, fun wi' => (key wi).trans (key wi').symm⟩
  rw [key wi]
  exact div_pos one_pos (mul_pos (by positivity) hΔ)

/-- Witness for claim C9: the unit sphere viewed from `(0,0,2)` (strictly
outside) has a strictly positive pdf for the off-sphere direction
`(1,0,0)`. -/
theorem claim_C9_witness :
    (0 : ℝ) < 1 ∧ ((⟨⟨0, 0, 2⟩, 0, 0, 0, 0⟩ : ShapeSampleContext).err = 0) ∧
    ((1 : ℝ) * 1 < DistanceSquared (⟨0, 0, 2⟩ : V3) 0) ∧
    0 < Sphere.PDFCtx ⟨1, -1, 1, Real.pi, 0, 2 * Real.pi, false, false⟩
        ⟨⟨0, 0, 2⟩, 0, 0, 0, 0⟩ ⟨1, 0, 0⟩ := by
  have h2 : (⟨⟨0, 0, 2⟩, 0, 0, 0, 0⟩ : ShapeSampleContext).err = 0 := rfl
  have h3 : (1 : ℝ) * 1 < DistanceSquared (⟨0, 0, 2⟩ : V3) 0 := by
    unfold DistanceSquared LengthSquared
    norm_num
  exact ⟨one_pos, h2, h3,
    (claim_C9 ⟨1, -1, 1, Real.pi, 0, 2 * Real.pi, false, false⟩
      ⟨⟨0, 0, 2⟩, 0, 0, 0, 0⟩ ⟨1, 0, 0⟩ one_pos h2 h3).2.1⟩

/-! ## Claim C2: `Sphere::Sample(ctx, u)` -/

theorem v3_zero_add (v : V3) : (0 : V3) + v = v := by
  apply (V3.ext_iff' _ _).mpr
  refine ⟨?_, ?_, ?_⟩ <;> simp

theorem v3_sub_zero (v : V3) : v - (0 : V3) = v := by
  apply (V3.ext_iff' _ _).mpr
  refine ⟨?_, ?_, ?_⟩ <;> simp

theorem LengthSquared_smul (c : ℝ) (v : V3) :
    LengthSquared (c • v) = c ^ 2 * LengthSquared v := by
  unfold LengthSquared
  simp only [V3.smul_x, V3.smul_y, V3.smul_z]
  ring

theorem Dot_smul_left (c : ℝ) (u v : V3) : Dot (c • u) v = c * Dot u v := by
  unfold Dot
  simp only [V3.smul_x, V3.smul_y, V3.smul_z]
  ring

theorem Dot_smul_right (u : V3) (c : ℝ) (v : V3) : Dot u (c • v) = c * Dot u v := by
  unfold Dot
  simp only [V3.smul_x, V3.smul_y, V3.smul_z]
  ring

theorem Dot_right_scaled (u p v : V3) (c : ℝ) (hp : p = c • v) :
    Dot u p = c * Dot u v := by
  rw [hp]
  exact Dot_smul_right u c v

theorem point_decomp (p : V3) (h : LengthSquared (p - 0) ≠ 0) :
    p = Distance p 0 • Normalize (p - 0) := by
  have hs : Real.sqrt (LengthSquared (p - 0)) ≠ 0 := by
    have h0 : 0 ≤ LengthSquared (p - 0) := by unfold LengthSquared; positivity
    exact Real.sqrt_ne_zero'.mpr (lt_of_le_of_ne h0 (Ne.symm h))
  apply (V3.ext_iff' _ _).mpr
  unfold Distance Normalize Length
  refine ⟨?_, ?_, ?_⟩ <;>
    · simp only [V3.smul_x, V3.smul_y, V3.smul_z, V3.sub_x, V3.sub_y, V3.sub_z,
        V3.zero_x, V3.zero_y, V3.zero_z]
      field_simp

theorem fromZ_lengthSq (z : V3) (hz : Dot z z = 1) (v : V3) :
    LengthSquared ((Frame.fromZ z).fromLocal v) = LengthSquared v := by
  obtain ⟨hcs1, hcs2, hcs3, hcs4, hcs5⟩ := cs_orthonormal hz
  unfold Frame.fromZ Frame.fromLocal
  simp only
  unfold LengthSquared
  unfold Dot at hz hcs1 hcs2 hcs3 hcs4 hcs5
  simp only [V3.add_x, V3.add_y, V3.add_z, V3.smul_x, V3.smul_y, V3.smul_z]
  linear_combination (v.x ^ 2) * hcs4 + (v.y ^ 2) * hcs5 + (v.z ^ 2) * hz +
    (2 * v.x * v.y) * hcs1 + (2 * v.x * v.z) * hcs2 + (2 * v.y * v.z) * hcs3

theorem fromZ_dot_z (z : V3) (hz : Dot z z = 1) (v : V3) :
    Dot ((Frame.fromZ z).fromLocal v) z = v.z := by
  obtain ⟨hcs1, hcs2, hcs3, hcs4, hcs5⟩ := cs_orthonormal hz
  unfold Frame.fromZ Frame.fromLocal
  simp only
  unfold Dot at hz hcs1 hcs2 hcs3 hcs4 hcs5 ⊢
  simp only [V3.add_x, V3.add_y, V3.add_z, V3.smul_x, V3.smul_y, V3.smul_z]
  linear_combination v.x * hcs2 + v.y * hcs3 + v.z * hz

theorem sphericalDirection_lengthSq (sa ca phi : ℝ) (h : sa ^ 2 = 1 - ca * ca) :
    LengthSquared (SphericalDirection sa ca phi) = 1 := by
  unfold SphericalDirection LengthSquared
  simp only
  linear_combination (sa ^ 2) * (Real.sin_sq_add_cos_sq phi) + h

theorem cone_alpha_core (s is ct t2 : ℝ) (hs0 : 0 < s) (hs1 : s ≤ 1)
    (his : s * is = 1) (hct0 : 0 ≤ ct) (hct2 : ct ^ 2 = 1 - t2)
    (ht20 : 0 ≤ t2) (ht2s : t2 ≤ s ^ 2) :
    s ≤ t2 * is + ct * Real.sqrt (1 - t2 * is * is) ∧
    t2 * is + ct * Real.sqrt (1 - t2 * is * is) ≤ 1 := by
  have hsis : (s * is) ^ 2 = 1 := by rw [his]; norm_num
  have harg : 0 ≤ 1 - t2 * is * is := by
    nlinarith [mul_nonneg (sub_nonneg.mpr ht2s) (sq_nonneg is), hsis]
  set w := Real.sqrt (1 - t2 * is * is) with hw
  have hw0 : 0 ≤ w := Real.sqrt_nonneg _
  have hw2 : w ^ 2 = 1 - t2 * is * is := Real.sq_sqrt harg
  have hw2' : s ^ 2 * w ^ 2 = s ^ 2 - t2 := by
    linear_combination s ^ 2 * hw2 - t2 * (1 + s * is) * his
  have hkey : s * w ≤ ct := by
    by_contra hcon
    push_neg at hcon
    have h2 : ct ^ 2 < (s * w) ^ 2 := by
      nlinarith [mul_nonneg hs0.le hw0]
    nlinarith [h2, hw2', hct2, ht2s]
  constructor
  · have hmul : s * (s * w * w) ≤ s * (ct * w) :=
      mul_le_mul_of_nonneg_left (mul_le_mul_of_nonneg_right hkey hw0) hs0.le
    nlinarith [hmul, hw2', his, hs0, ht20]
  · have h5 : t2 * s ^ 2 * is = t2 * s := by linear_combination (t2 * s) * his
    nlinarith [sq_nonneg (s * ct - s * w), mul_nonneg ht20 (sq_nonneg (1 - s)),
      hct2, hw2', h5, ht20, hs0, mul_pos hs0 hs0]

theorem cone_taylor_ne_exact :
    (10000 : ℝ) / Real.pi ≠ 1 / (2 * Real.pi * (1 - Real.sqrt (1 - 1 / 10000))) := by
  intro h
  rw [show (1 - 1 / 10000 : ℝ) = 9999 / 10000 by norm_num] at h
  have hπ : (0 : ℝ) < Real.pi := Real.pi_pos
  have ht1 : Real.sqrt (9999 / 10000) < 1 := by
    calc Real.sqrt (9999 / 10000) < Real.sqrt 1 :=
          Real.sqrt_lt_sqrt (by norm_num) (by norm_num)
      _ = 1 := Real.sqrt_one
  have hB : (0 : ℝ) < 1 - Real.sqrt (9999 / 10000) := by linarith
  rw [div_eq_div_iff hπ.ne' (mul_pos (by positivity) hB).ne'] at h
  have h4 : Real.pi * (20000 * (1 - Real.sqrt (9999 / 10000)) - 1) = 0 := by
    linear_combination h
  rcases mul_eq_zero.mp h4 with h5 | h5
  · exact absurd h5 hπ.ne'
  · have ht : Real.sqrt (9999 / 10000) = 19999 / 20000 := by linarith
    have h2 : (9999 / 10000 : ℝ) = (19999 / 20000) ^ 2 := by
      rw [← Real.sq_sqrt (show (0 : ℝ) ≤ 9999 / 10000 by norm_num), ht]
    norm_num at h2

/-- Counterexample to claim C2: for the unit sphere sampled from
`ctx.p = (0,0,100)` (outside; `r²/d² = 1/10000 < 0.00068523`),
`Sphere::Sample(ctx, u)` takes the Taylor branch and returns the pdf
`1/(2π·(r²/d²)/2) = 10000/π`, not the claimed exact cone density
`1/(2π·(1-cosθmax))` with `cosθmax = √(1-r²/d²)`. -/
theorem claim_C2_cex :
    ∃ ss, Sphere.SampleCtx ⟨1, -1, 1, Real.pi, 0, 2 * Real.pi, false, false⟩
        ⟨⟨0, 0, 100⟩, 0, 0, 0, 0⟩ ⟨1/2, 1/2⟩ = some ss ∧
      ss.pdf ≠ 1 / (2 * Real.pi * (1 - Real.sqrt (1 - 1 / 10000))) := by
  have hd2 : DistanceSquared (⟨0, 0, 100⟩ : V3) 0 = 10000 := by
    unfold DistanceSquared LengthSquared
    norm_num
  have hdc : Distance (⟨0, 0, 100⟩ : V3) 0 = 100 := by
    unfold Distance Length
    rw [show LengthSquared ((⟨0, 0, 100⟩ : V3) - 0) = 10000 from by
      unfold LengthSquared; norm_num]
    exact sqrt_eval (by norm_num) (by norm_num)
  have hpdfval : Sphere.coneOneMinusCosThetaMax
      ⟨1, -1, 1, Real.pi, 0, 2 * Real.pi, false, false⟩
      ⟨⟨0, 0, 100⟩, 0, 0, 0, 0⟩ = 1 / 20000 := by
    unfold Sphere.coneOneMinusCosThetaMax Sphere.coneSinThetaMax2
    simp only [hdc]
    rw [if_pos (by norm_num)]
    norm_num
  unfold Sphere.SampleCtx Sphere.SampleCtxGen
  simp only
  rw [offsetRayOriginP_err_zero _ _ rfl]
  simp only [hd2]
  rw [if_neg (by norm_num)]
  refine ⟨_, rfl, ?_⟩
  simp only
  rw [hpdfval]
  have hval : (1 : ℝ) / (2 * Real.pi * (1 / 20000)) = 10000 / Real.pi := by
    have hπ : (0 : ℝ) < Real.pi := Real.pi_pos
    field_simp
    ring
  rw [hval]
  exact cone_taylor_ne_exact

set_option maxHeartbeats 2000000 in
/-- C2 (amended): `Sphere::Sample(ctx, u)` with an exact reference point
(`ctx.err = 0`).  Inside the sphere (`|ctx.p|² ≤ r²`) the sample is the
area sample converted by the Jacobian `|ctx.p - p|² / |n·(-ωᵢ)|` (with the
zero-direction and infinite-pdf guards).  Strictly outside, the returned
point lies on the sphere (`|p|² = r²`) inside the subtended cone
(`p·ctx.p ≥ r²`), and the pdf is `1/(2π·Δ)` where `Δ = sin²θmax/2` in the
Taylor regime `sin²θmax < 0.00068523` and `Δ = 1 - √(1-sin²θmax)`
otherwise (`sin²θmax · |ctx.p|² = r²`). -/
theorem claim_C2 (s : Sphere) (ctx : ShapeSampleContext) (u : Pt2)
    (hr : 0 < s.radius) (herr : ctx.err = 0) (hu0 : 0 ≤ u.x) (hu1 : u.x ≤ 1) :
    (DistanceSquared ctx.p 0 ≤ s.radius * s.radius →
      ∀ ss0, Sphere.SampleArea s u = some ss0 →
        LengthSquared (ss0.intr.p - ctx.p) ≠ 0 →
        ¬ isInfDiv (ss0.pdf * DistanceSquared ctx.p ss0.intr.p)
            (AbsDot ss0.intr.n (-Normalize (ss0.intr.p - ctx.p))) →
        Sphere.SampleCtx s ctx u = some ⟨ss0.intr,
          ss0.pdf * DistanceSquared ctx.p ss0.intr.p /
            AbsDot ss0.intr.n (-Normalize (ss0.intr.p - ctx.p))⟩) ∧
    (s.radius * s.radius < DistanceSquared ctx.p 0 →
      ∃ ss, Sphere.SampleCtx s ctx u = some ss ∧
        LengthSquared (ss.intr.p - 0) = s.radius * s.radius ∧
        s.radius * s.radius ≤ Dot ss.intr.p ctx.p ∧
        ss.pdf = 1 / (2 * Real.pi *
          (if Sphere.coneSinThetaMax2 s ctx < 0.00068523 then
            Sphere.coneSinThetaMax2 s ctx / 2
          else 1 - Real.sqrt (1 - Sphere.coneSinThetaMax2 s ctx))) ∧
        Sphere.coneSinThetaMax2 s ctx * DistanceSquared ctx.p 0 =
          s.radius * s.radius) := by
  constructor
  · intro hin ss0 hss0 hwi hinf
    unfold Sphere.SampleCtx Sphere.SampleCtxGen
    simp only
    rw [offsetRayOriginP_err_zero _ _ herr, if_pos hin, hss0]
    simp only
    rw [if_neg hwi, if_neg hinf]
  · intro hout
    have hd20 : 0 < DistanceSquared ctx.p 0 := lt_trans (mul_pos hr hr) hout
    have hLS0 : 0 < LengthSquared (ctx.p - 0) := by
      unfold DistanceSquared at hd20
      exact hd20
    have hz : Dot (Normalize (ctx.p - 0)) (Normalize (ctx.p - 0)) = 1 :=
      normalize_self_dot hLS0.ne'
    have hD : 0 < Distance ctx.p 0 := by
      unfold Distance Length
      exact Real.sqrt_pos.mpr hLS0
    have hD2 : Distance ctx.p 0 ^ 2 = DistanceSquared ctx.p 0 := by
      unfold Distance Length DistanceSquared
      exact Real.sq_sqrt hLS0.le
    have hDinv : Distance ctx.p 0 * (1 / Distance ctx.p 0) = 1 :=
      mul_one_div_cancel hD.ne'
    have hrD : s.radius < Distance ctx.p 0 := by
      by_contra hcon
      push_neg at hcon
      have hh : Distance ctx.p 0 ^ 2 ≤ s.radius * s.radius := by nlinarith [hD.le]
      rw [hD2] at hh
      linarith
    have hs0 : 0 < s.radius * (1 / Distance ctx.p 0) :=
      mul_pos hr (one_div_pos.mpr hD)
    have hs1 : s.radius * (1 / Distance ctx.p 0) ≤ 1 := by
      rw [mul_one_div]
      exact (div_le_one hD).mpr hrD.le
    have his : s.radius * (1 / Distance ctx.p 0) *
        (1 / (s.radius * (1 / Distance ctx.p 0))) = 1 :=
      mul_one_div_cancel hs0.ne'
    have hsm2eq : Sphere.coneSinThetaMax2 s ctx =
        (s.radius * (1 / Distance ctx.p 0)) ^ 2 := by
      unfold Sphere.coneSinThetaMax2
      ring
    have hsm2pos : 0 < Sphere.coneSinThetaMax2 s ctx := by
      rw [hsm2eq]
      positivity
    have hsm2le1 : Sphere.coneSinThetaMax2 s ctx ≤ 1 := by
      rw [hsm2eq]
      nlinarith [hs0, hs1]
    have hcM0 : 0 ≤ Real.sqrt (1 - Sphere.coneSinThetaMax2 s ctx) :=
      Real.sqrt_nonneg _
    have hcM1 : Real.sqrt (1 - Sphere.coneSinThetaMax2 s ctx) ≤ 1 := by
      calc Real.sqrt (1 - Sphere.coneSinThetaMax2 s ctx) ≤ Real.sqrt 1 :=
            Real.sqrt_le_sqrt (by linarith)
        _ = 1 := Real.sqrt_one
    have hcM2 : Real.sqrt (1 - Sphere.coneSinThetaMax2 s ctx) ^ 2 =
        1 - Sphere.coneSinThetaMax2 s ctx := Real.sq_sqrt (by linarith)
    have ht2 : 0 ≤ Sphere.coneSinTheta2 s ctx u ∧
        Sphere.coneSinTheta2 s ctx u ≤ (s.radius * (1 / Distance ctx.p 0)) ^ 2 := by
      unfold Sphere.coneSinTheta2
      simp only [SafeSqrt]
      by_cases hT : Sphere.coneSinThetaMax2 s ctx < 0.00068523
      · rw [if_pos hT]
        refine ⟨mul_nonneg hsm2pos.le hu0, ?_⟩
        calc Sphere.coneSinThetaMax2 s ctx * u.x ≤ Sphere.coneSinThetaMax2 s ctx :=
              mul_le_of_le_one_right hsm2pos.le hu1
          _ = (s.radius * (1 / Distance ctx.p 0)) ^ 2 := hsm2eq
      · rw [if_neg hT]
        have hmm : u.x * (1 - Real.sqrt (1 - Sphere.coneSinThetaMax2 s ctx)) ≤
            1 - Real.sqrt (1 - Sphere.coneSinThetaMax2 s ctx) :=
          mul_le_of_le_one_left (sub_nonneg.mpr hcM1) hu1
        have hnn : 0 ≤ u.x * (1 - Real.sqrt (1 - Sphere.coneSinThetaMax2 s ctx)) :=
          mul_nonneg hu0 (sub_nonneg.mpr hcM1)
        have hc0a : 0 ≤ (Real.sqrt (1 - Sphere.coneSinThetaMax2 s ctx) - 1) * u.x + 1 := by
          nlinarith [hcM0, hmm]
        have hc0b : (Real.sqrt (1 - Sphere.coneSinThetaMax2 s ctx) - 1) * u.x + 1 ≤ 1 := by
          nlinarith [hnn]
        have hc0c : Real.sqrt (1 - Sphere.coneSinThetaMax2 s ctx) ≤
            (Real.sqrt (1 - Sphere.coneSinThetaMax2 s ctx) - 1) * u.x + 1 := by
          nlinarith [hmm]
        constructor
        · nlinarith [hc0a, hc0b]
        · nlinarith [mul_self_le_mul_self hcM0 hc0c, hcM2, hsm2eq]
    have hctf : 0 ≤ Sphere.coneCosTheta s ctx u ∧
        Sphere.coneCosTheta s ctx u ^ 2 = 1 - Sphere.coneSinTheta2 s ctx u := by
      unfold Sphere.coneCosTheta
      simp only [SafeSqrt]
      by_cases hT : Sphere.coneSinThetaMax2 s ctx < 0.00068523
      · rw [if_pos hT]
        have harg : 0 ≤ 1 - Sphere.coneSinTheta2 s ctx u := by
          nlinarith [ht2.2, hs0, hs1]
        exact ⟨Real.sqrt_nonneg _, Real.sq_sqrt harg⟩
      · rw [if_neg hT]
        have hmm : u.x * (1 - Real.sqrt (1 - Sphere.coneSinThetaMax2 s ctx)) ≤
            1 - Real.sqrt (1 - Sphere.coneSinThetaMax2 s ctx) :=
          mul_le_of_le_one_left (sub_nonneg.mpr hcM1) hu1
        constructor
        · nlinarith [hcM0, hmm]
        · unfold Sphere.coneSinTheta2
          simp only [SafeSqrt]
          rw [if_neg hT]
          ring
    have hcaeq : Sphere.coneCosAlpha s ctx u =
        Sphere.coneSinTheta2 s ctx u * (1 / (s.radius * (1 / Distance ctx.p 0))) +
          Sphere.coneCosTheta s ctx u *
            Real.sqrt (1 - Sphere.coneSinTheta2 s ctx u *
              (1 / (s.radius * (1 / Distance ctx.p 0))) *
              (1 / (s.radius * (1 / Distance ctx.p 0)))) := by
      unfold Sphere.coneCosAlpha
      simp only [SafeSqrt]
    have hcore := cone_alpha_core (s.radius * (1 / Distance ctx.p 0))
      (1 / (s.radius * (1 / Distance ctx.p 0)))
      (Sphere.coneCosTheta s ctx u) (Sphere.coneSinTheta2 s ctx u)
      hs0 hs1 his hctf.1 hctf.2 ht2.1 ht2.2
    have hca1 : s.radius * (1 / Distance ctx.p 0) ≤ Sphere.coneCosAlpha s ctx u := by
      rw [hcaeq]
      exact hcore.1
    have hca2 : Sphere.coneCosAlpha s ctx u ≤ 1 := by
      rw [hcaeq]
      exact hcore.2
    have hca0 : 0 ≤ Sphere.coneCosAlpha s ctx u := le_trans hs0.le hca1
    have hsa2 : Real.sqrt (1 - Sphere.coneCosAlpha s ctx u *
        Sphere.coneCosAlpha s ctx u) ^ 2 =
        1 - Sphere.coneCosAlpha s ctx u * Sphere.coneCosAlpha s ctx u :=
      Real.sq_sqrt (by nlinarith [hca0, hca2])
    unfold Sphere.SampleCtx Sphere.SampleCtxGen
    simp only
    rw [offsetRayOriginP_err_zero _ _ herr]
    rw [if_neg (not_le.mpr hout)]
    simp only [SafeSqrt]
    refine ⟨_, rfl, ?_, ?_, ?_, ?_⟩
    · simp only
      rw [v3_zero_add, v3_sub_zero, LengthSquared_smul, fromZ_lengthSq _ hz,
        sphericalDirection_lengthSq _ _ _ hsa2]
      ring
    · simp only
      rw [v3_zero_add, Dot_smul_left,
        Dot_right_scaled _ _ _ _ (point_decomp ctx.p hLS0.ne'), fromZ_dot_z _ hz]
      simp only [SphericalDirection]
      have e2 : s.radius * (Distance ctx.p 0 * (s.radius * (1 / Distance ctx.p 0))) =
          s.radius * s.radius := by
        linear_combination (s.radius ^ 2) * hDinv
      have e3 := mul_le_mul_of_nonneg_left
        (mul_le_mul_of_nonneg_left hca1 hD.le) hr.le
      linarith [e2, e3]
    · simp only
      unfold Sphere.coneOneMinusCosThetaMax
      simp only [SafeSqrt]
    · unfold Sphere.coneSinThetaMax2
      linear_combination (-(s.radius * (1 / Distance ctx.p 0)) ^ 2) * hD2 +
        (s.radius ^ 2 * (Distance ctx.p 0 * (1 / Distance ctx.p 0) + 1)) * hDinv

/-- Witness for claim C2: the unit sphere sampled from `(0,0,2)` (strictly
outside, exact reference point): the sample lies on the sphere, inside the
subtended cone, with the cone pdf. -/
theorem claim_C2_witness :
    (0 : ℝ) < 1 ∧ ((⟨⟨0, 0, 2⟩, 0, 0, 0, 0⟩ : ShapeSampleContext).err = 0) ∧
    ((0 : ℝ) ≤ (⟨1/2, 1/2⟩ : Pt2).x ∧ (⟨1/2, 1/2⟩ : Pt2).x ≤ 1) ∧
    ((1 : ℝ) * 1 < DistanceSquared (⟨0, 0, 2⟩ : V3) 0) ∧
    (∃ ss, Sphere.SampleCtx ⟨1, -1, 1, Real.pi, 0, 2 * Real.pi, false, false⟩
        ⟨⟨0, 0, 2⟩, 0, 0, 0, 0⟩ ⟨1/2, 1/2⟩ = some ss ∧
      LengthSquared (ss.intr.p - 0) = 1 * 1 ∧
      (1 : ℝ) * 1 ≤ Dot ss.intr.p ⟨0, 0, 2⟩ ∧
      ss.pdf = 1 / (2 * Real.pi *
        (if Sphere.coneSinThetaMax2 ⟨1, -1, 1, Real.pi, 0, 2 * Real.pi, false, false⟩
            ⟨⟨0, 0, 2⟩, 0, 0, 0, 0⟩ < 0.00068523 then
          Sphere.coneSinThetaMax2 ⟨1, -1, 1, Real.pi, 0, 2 * Real.pi, false, false⟩
            ⟨⟨0, 0, 2⟩, 0, 0, 0, 0⟩ / 2
        else 1 - Real.sqrt (1 -
          Sphere.coneSinThetaMax2 ⟨1, -1, 1, Real.pi, 0, 2 * Real.pi, false, false⟩
            ⟨⟨0, 0, 2⟩, 0, 0, 0, 0⟩))) ∧
      Sphere.coneSinThetaMax2 ⟨1, -1, 1, Real.pi, 0, 2 * Real.pi, false, false⟩
          ⟨⟨0, 0, 2⟩, 0, 0, 0, 0⟩ * DistanceSquared (⟨0, 0, 2⟩ : V3) 0 = 1 * 1) := by
  have h2 : (⟨⟨0, 0, 2⟩, 0, 0, 0, 0⟩ : ShapeSampleContext).err = 0 := rfl
  have h3 : (1 : ℝ) * 1 < DistanceSquared (⟨0, 0, 2⟩ : V3) 0 := by
    unfold DistanceSquared LengthSquared
    norm_num
  have hu : (0 : ℝ) ≤ (⟨1/2, 1/2⟩ : Pt2).x ∧ (⟨1/2, 1/2⟩ : Pt2).x ≤ 1 := by
    constructor <;> norm_num
  exact ⟨one_pos, h2, hu, h3,
    (claim_C2 ⟨1, -1, 1, Real.pi, 0, 2 * Real.pi, false, false⟩
      ⟨⟨0, 0, 2⟩, 0, 0, 0, 0⟩ ⟨1/2, 1/2⟩ one_pos h2 hu.1 hu.2).2 h3⟩

/-! ## Claim C6: infinite pdf conversions are coerced to 0 / no sample -/

/-- C6: whenever the area-to-solid-angle pdf conversion would divide by
`|n·(-ωᵢ)| = 0` with a nonzero numerator (an infinite pdf, `isInfDiv`),
the operation never returns that infinity: the `Sample(ctx,u)` methods of
sphere, disk, cylinder and the triangle area-sampling fallback return the
empty optional, and the corresponding `PDF(ctx,wi)` methods return 0. -/
theorem claim_C6 :
    (∀ (s : Sphere) (areaSample : Pt2 → Option ShapeSampleT)
        (ctx : ShapeSampleContext) (u : Pt2) (ss0 : ShapeSampleT),
      DistanceSquared (ctx.offsetRayOriginP 0) 0 ≤ s.radius * s.radius →
      areaSample u = some ss0 →
      LengthSquared (ss0.intr.p - ctx.p) ≠ 0 →
      isInfDiv (ss0.pdf * DistanceSquared ctx.p ss0.intr.p)
        (AbsDot ss0.intr.n (-Normalize (ss0.intr.p - ctx.p))) →
      Sphere.SampleCtxGen s areaSample ctx u = none) ∧
    (∀ (s : Sphere) (ctx : ShapeSampleContext) (wi : V3)
        (isect : ShapeIntersectionT),
      DistanceSquared (ctx.offsetRayOriginP 0) 0 ≤ s.radius * s.radius →
      Sphere.Intersect s ⟨ctx.offsetRayOriginP 0, wi, ctx.time⟩ ⊤ = some isect →
      isInfDiv (DistanceSquared (ctx.offsetRayOriginP 0) isect.intr.p)
        (AbsDot isect.intr.n (-wi) * Sphere.Area s) →
      Sphere.PDFCtx s ctx wi = 0) ∧
    (∀ (dk : Disk) (ctx : ShapeSampleContext) (u : Pt2) (ss0 : ShapeSampleT),
      Disk.SampleU dk u = some ss0 →
      LengthSquared (ss0.intr.p - ctx.p) ≠ 0 →
      isInfDiv (ss0.pdf * DistanceSquared ctx.p ss0.intr.p)
        (AbsDot ss0.intr.n (-Normalize (ss0.intr.p - ctx.p))) →
      Disk.SampleCtx dk ctx u = none) ∧
    (∀ (dk : Disk) (ctx : ShapeSampleContext) (wi : V3) (si : ShapeIntersectionT),
      Disk.Intersect dk (ctx.spawnRay wi) ⊤ = some si →
      isInfDiv (DistanceSquared ctx.p si.intr.p)
        (AbsDot si.intr.n (-wi) * Disk.Area dk) →
      Disk.PDFCtx dk ctx wi = 0) ∧
    (∀ (cy : Cylinder) (ctx : ShapeSampleContext) (u : Pt2) (ss0 : ShapeSampleT),
      Cylinder.SampleU cy u = some ss0 →
      LengthSquared (ss0.intr.p - ctx.p) ≠ 0 →
      isInfDiv (ss0.pdf * DistanceSquared ctx.p ss0.intr.p)
        (AbsDot ss0.intr.n (-Normalize (ss0.intr.p - ctx.p))) →
      Cylinder.SampleCtx cy ctx u = none) ∧
    (∀ (cy : Cylinder) (ctx : ShapeSampleContext) (wi : V3)
        (si : ShapeIntersectionT),
      Cylinder.Intersect cy (ctx.spawnRay wi) ⊤ = some si →
      isInfDiv (DistanceSquared ctx.p si.intr.p)
        (AbsDot si.intr.n (-wi) * Cylinder.Area cy) →
      Cylinder.PDFCtx cy ctx wi = 0) ∧
    (∀ (env : TriEnv) (tri : TriangleData) (ctx : ShapeSampleContext)
        (uo : Pt2) (ss0 : ShapeSampleT),
      (Triangle.SolidAngle env tri ctx.p < Triangle.MinSphericalSampleArea ∨
        Triangle.SolidAngle env tri ctx.p > Triangle.MaxSphericalSampleArea) →
      Triangle.SampleU env tri uo = some ss0 →
      LengthSquared (ss0.intr.p - ctx.p) ≠ 0 →
      isInfDiv (ss0.pdf * DistanceSquared ctx.p ss0.intr.p)
        (AbsDot ss0.intr.n (-Normalize (ss0.intr.p - ctx.p))) →
      Triangle.SampleCtx env tri ctx uo = none) ∧
    (∀ (env : TriEnv) (tri : TriangleData) (ctx : ShapeSampleContext) (wi : V3)
        (si : ShapeIntersectionT),
      (Triangle.SolidAngle env tri ctx.p < Triangle.MinSphericalSampleArea ∨
        Triangle.SolidAngle env tri ctx.p > Triangle.MaxSphericalSampleArea) →
      env.intersect (ctx.spawnRay wi) ⊤ = some si →
      isInfDiv (DistanceSquared ctx.p si.intr.p)
        (AbsDot si.intr.n (-wi) * Triangle.Area tri) →
      Triangle.PDFCtx env tri ctx wi = 0) := by
  refine ⟨?_, ?_, ?_, ?_, ?_, ?_, ?_, ?_⟩
  · intro s areaSample ctx u ss0 h1 h2 h3 h4
    unfold Sphere.SampleCtxGen
    simp only
    rw [if_pos h1, h2]
    simp only
    rw [if_neg h3, if_pos h4]
  · intro s ctx wi isect h1 h2 h3
    unfold Sphere.PDFCtx
    simp only
    rw [if_pos h1, h2]
    simp only
    rw [if_pos h3]
  · intro dk ctx u ss0 h1 h2 h3
    unfold Disk.SampleCtx
    rw [h1]
    simp only
    rw [if_neg h2, if_pos h3]
  · intro dk ctx wi si h1 h2
    unfold Disk.PDFCtx
    simp only
    rw [h1]
    simp only
    rw [if_pos h2]
  · intro cy ctx u ss0 h1 h2 h3
    unfold Cylinder.SampleCtx
    rw [h1]
    simp only
    rw [if_neg h2, if_pos h3]
  · intro cy ctx wi si h1 h2
    unfold Cylinder.PDFCtx
    simp only
    rw [h1]
    simp only
    rw [if_pos h2]
  · intro env tri ctx uo ss0 hsa h1 h2 h3
    unfold Triangle.SampleCtx
    simp only
    rw [if_pos hsa, h1]
    simp only
    rw [if_neg h2, if_pos h3]
  · intro env tri ctx wi si hsa h1 h2
    unfold Triangle.PDFCtx
    simp only
    rw [if_pos hsa, h1]
    simp only
    rw [if_pos h2]

/-- Witness for claim C6: (a) a sphere area sample whose direction is
perpendicular to the sample normal (`|n·(-ωᵢ)| = 0`, nonzero numerator)
makes `Sphere::Sample(ctx,u)` return no sample; (b) a triangle whose
fallback intersection has normal perpendicular to `wi` makes
`Triangle::PDF(ctx,wi)` return 0. -/
theorem claim_C6_witness :
    (isInfDiv ((1 : ℝ) * DistanceSquared (⟨0, 0, 0, 0, 0⟩ : ShapeSampleContext).p
        (⟨1, 0, 0⟩ : V3))
      (AbsDot (⟨0, 0, 1⟩ : V3)
        (-Normalize ((⟨1, 0, 0⟩ : V3) - (⟨0, 0, 0, 0, 0⟩ : ShapeSampleContext).p))) ∧
      Sphere.SampleCtxGen ⟨1, -1, 1, Real.pi, 0, 2 * Real.pi, false, false⟩
        (fun _ => some ⟨⟨⟨1, 0, 0⟩, ⟨0, 0, 1⟩, 0⟩, 1⟩) ⟨0, 0, 0, 0, 0⟩ ⟨0, 0⟩ = none) ∧
    Triangle.PDFCtx
      ⟨fun _ => (1/3, 1/3, 1/3), fun _ _ _ => 7, fun u _ => u, fun _ _ => 1,
        fun _ _ _ _ _ => ((1/3, 1/3, 1/3), 1),
        fun _ _ => some ⟨⟨⟨1, 0, 0⟩, 0, ⟨0, 0⟩, 0, 0, 0, 0, 0, ⟨0, 0, 1⟩, 0,
          ⟨⟨0, 0, 1⟩, 0, 0, 0, 0⟩, 0⟩, 1⟩,
        fun _ _ _ _ _ => ⟨0, 0⟩⟩
      ⟨0, 0, 0, none, none, none, 0, false, false⟩
      ⟨0, 0, 0, 0, 0⟩ ⟨1, 0, 0⟩ = 0 := by
  have h4 : isInfDiv ((1 : ℝ) * DistanceSquared (⟨0, 0, 0, 0, 0⟩ : ShapeSampleContext).p
      (⟨1, 0, 0⟩ : V3))
      (AbsDot (⟨0, 0, 1⟩ : V3)
        (-Normalize ((⟨1, 0, 0⟩ : V3) - (⟨0, 0, 0, 0, 0⟩ : ShapeSampleContext).p))) := by
    constructor
    · unfold AbsDot Dot Normalize Length LengthSquared
      norm_num
    · unfold DistanceSquared LengthSquared
      norm_num
  have h1 : DistanceSquared
      ((⟨0, 0, 0, 0, 0⟩ : ShapeSampleContext).offsetRayOriginP 0) 0 ≤ (1 : ℝ) * 1 := by
    rw [offsetRayOriginP_err_zero _ _ rfl]
    unfold DistanceSquared LengthSquared
    norm_num
  have h3 : LengthSquared ((⟨1, 0, 0⟩ : V3) -
      (⟨0, 0, 0, 0, 0⟩ : ShapeSampleContext).p) ≠ 0 := by
    unfold LengthSquared
    norm_num
  have hsa : Triangle.SolidAngle
      (⟨fun _ => (1/3, 1/3, 1/3), fun _ _ _ => 7, fun u _ => u, fun _ _ => 1,
        fun _ _ _ _ _ => ((1/3, 1/3, 1/3), 1),
        fun _ _ => some ⟨⟨⟨1, 0, 0⟩, 0, ⟨0, 0⟩, 0, 0, 0, 0, 0, ⟨0, 0, 1⟩, 0,
          ⟨⟨0, 0, 1⟩, 0, 0, 0, 0⟩, 0⟩, 1⟩,
        fun _ _ _ _ _ => ⟨0, 0⟩⟩ : TriEnv)
      ⟨0, 0, 0, none, none, none, 0, false, false⟩
      (⟨0, 0, 0, 0, 0⟩ : ShapeSampleContext).p < Triangle.MinSphericalSampleArea ∨
      Triangle.SolidAngle
      (⟨fun _ => (1/3, 1/3, 1/3), fun _ _ _ => 7, fun u _ => u, fun _ _ => 1,
        fun _ _ _ _ _ => ((1/3, 1/3, 1/3), 1),
        fun _ _ => some ⟨⟨⟨1, 0, 0⟩, 0, ⟨0, 0⟩, 0, 0, 0, 0, 0, ⟨0, 0, 1⟩, 0,
          ⟨⟨0, 0, 1⟩, 0, 0, 0, 0⟩, 0⟩, 1⟩,
        fun _ _ _ _ _ => ⟨0, 0⟩⟩ : TriEnv)
      ⟨0, 0, 0, none, none, none, 0, false, false⟩
      (⟨0, 0, 0, 0, 0⟩ : ShapeSampleContext).p > Triangle.MaxSphericalSampleArea := by
    right
    unfold Triangle.SolidAngle Triangle.MaxSphericalSampleArea
    norm_num
  have h2t : isInfDiv
      (DistanceSquared (⟨0, 0, 0, 0, 0⟩ : ShapeSampleContext).p (⟨1, 0, 0⟩ : V3))
      (AbsDot (⟨0, 0, 1⟩ : V3) (-(⟨1, 0, 0⟩ : V3)) *
        Triangle.Area ⟨0, 0, 0, none, none, none, 0, false, false⟩) := by
    constructor
    · unfold AbsDot Dot
      norm_num
    · unfold DistanceSquared LengthSquared
      norm_num
  exact ⟨⟨h4, claim_C6.1 _ _ _ _ _ h1 rfl h3 h4⟩,
    claim_C6.2.2.2.2.2.2.2 _ _ _ _ _ hsa rfl h2t⟩

/-! ## Claim C3: triangle Sample/PDF self-consistency -/

/-- C3: `Triangle::Sample(ctx,u)` and `Triangle::PDF(ctx,wi)` are
consistent in the spherical-triangle branch.  Both branch on the same
solid-angle window `[MinSphericalSampleArea, MaxSphericalSampleArea]`, and
they build identical bilinear warp weights (`pdfWeights = sampleWeights`,
each entry `max(0.01, |ns·ωᵢ|)`).  Under the spec contracts for the
external sampling routines — the spherical-triangle sampler returns pdf
`1/solidAngle`, the sampled point is hit by the spawned ray, and
`InvertSphericalTriangleSample` recovers the warped sample — the pdf that
`PDF(ctx, normalize(p - ctx.p))` computes equals the pdf `Sample`
returned. -/
theorem claim_C3 (env : TriEnv) (tri : TriangleData) (ctx : ShapeSampleContext)
    (uo : Pt2) (bb : ℝ × ℝ × ℝ) (triPDF : ℝ)
    (hsa1 : ¬(Triangle.SolidAngle env tri ctx.p < Triangle.MinSphericalSampleArea ∨
      Triangle.SolidAngle env tri ctx.p > Triangle.MaxSphericalSampleArea))
    (hsample : env.sampleSphericalTriangle tri.p0 tri.p1 tri.p2 ctx.p
        (if ctx.ns ≠ (0 : V3) then
          env.sampleBilinear uo (Triangle.sampleWeights tri ctx) else uo) =
      (bb, triPDF))
    (htriPDF : triPDF = 1 / Triangle.SolidAngle env tri ctx.p)
    (hhit : (env.intersect (ctx.spawnRay (Normalize
        (bb.1 • tri.p0 + bb.2.1 • tri.p1 + bb.2.2 • tri.p2 - ctx.p))) ⊤).isSome)
    (hinv : env.invertSphericalTriangleSample tri.p0 tri.p1 tri.p2 ctx.p
        (Normalize (bb.1 • tri.p0 + bb.2.1 • tri.p1 + bb.2.2 • tri.p2 - ctx.p)) =
      (if ctx.ns ≠ (0 : V3) then
        env.sampleBilinear uo (Triangle.sampleWeights tri ctx) else uo)) :
    Triangle.pdfWeights tri ctx = Triangle.sampleWeights tri ctx ∧
    ∃ ss, Triangle.SampleCtx env tri ctx uo = some ss ∧
      ss.intr.p = bb.1 • tri.p0 + bb.2.1 • tri.p1 + bb.2.2 • tri.p2 ∧
      Triangle.PDFCtx env tri ctx (Normalize (ss.intr.p - ctx.p)) = ss.pdf := by
  have hw : Triangle.pdfWeights tri ctx = Triangle.sampleWeights tri ctx := by
    unfold Triangle.pdfWeights Triangle.sampleWeights
    rfl
  have hMin : (0 : ℝ) < Triangle.MinSphericalSampleArea := by
    unfold Triangle.MinSphericalSampleArea
    norm_num
  have hsapos : 0 < Triangle.SolidAngle env tri ctx.p := by
    by_contra hc
    push_neg at hc
    exact hsa1 (Or.inl (lt_of_le_of_lt hc hMin))
  have htne : triPDF ≠ 0 := by
    rw [htriPDF]
    exact one_div_ne_zero hsapos.ne'
  refine ⟨hw, ?_⟩
  by_cases hns : ctx.ns ≠ (0 : V3)
  · rw [if_pos hns] at hsample hinv
    unfold Triangle.SampleCtx
    simp only
    rw [if_neg hsa1, if_pos hns]
    simp only
    rw [hsample]
    simp only
    rw [if_neg htne]
    refine ⟨_, rfl, rfl, ?_⟩
    simp only
    unfold Triangle.PDFCtx
    simp only
    rw [if_neg hsa1, if_neg (not_not_intro hhit)]
    rw [if_pos hns, hinv, hw, htriPDF]
    ring
  · rw [if_neg hns] at hsample hinv
    unfold Triangle.SampleCtx
    simp only
    rw [if_neg hsa1, if_neg hns]
    simp only
    rw [hsample]
    simp only
    rw [if_neg htne]
    refine ⟨_, rfl, rfl, ?_⟩
    simp only
    unfold Triangle.PDFCtx
    simp only
    rw [if_neg hsa1, if_neg (not_not_intro hhit)]
    rw [if_neg hns, htriPDF]
    ring

/-- Witness for claim C3: a concrete right triangle viewed from `(0,0,5)`
with `ctx.ns = 0` (no warp) and an environment whose spherical sampler
returns the barycentric center with pdf `1 = 1/solidAngle`: `Sample`
returns that point and `PDF` at its direction returns the same pdf. -/
theorem claim_C3_witness :
    (¬(Triangle.SolidAngle
        ⟨fun _ => (1/3, 1/3, 1/3), fun _ _ _ => 1, fun u _ => u, fun _ _ => 1,
          fun _ _ _ _ _ => ((1/3, 1/3, 1/3), 1),
          fun _ _ => some ⟨⟨⟨1/3, 1/3, 0⟩, 0, ⟨0, 0⟩, 0, 0, 0, 0, 0, ⟨0, 0, 1⟩, 0,
            ⟨⟨0, 0, 1⟩, 0, 0, 0, 0⟩, 0⟩, 1⟩,
          fun _ _ _ _ _ => ⟨1/2, 1/2⟩⟩
        ⟨⟨0, 0, 0⟩, ⟨1, 0, 0⟩, ⟨0, 1, 0⟩, none, none, none, 0, false, false⟩
        (⟨⟨0, 0, 5⟩, 0, 0, 0, 0⟩ : ShapeSampleContext).p <
          Triangle.MinSphericalSampleArea ∨
      Triangle.SolidAngle
        ⟨fun _ => (1/3, 1/3, 1/3), fun _ _ _ => 1, fun u _ => u, fun _ _ => 1,
          fun _ _ _ _ _ => ((1/3, 1/3, 1/3), 1),
          fun _ _ => some ⟨⟨⟨1/3, 1/3, 0⟩, 0, ⟨0, 0⟩, 0, 0, 0, 0, 0, ⟨0, 0, 1⟩, 0,
            ⟨⟨0, 0, 1⟩, 0, 0, 0, 0⟩, 0⟩, 1⟩,
          fun _ _ _ _ _ => ⟨1/2, 1/2⟩⟩
        ⟨⟨0, 0, 0⟩, ⟨1, 0, 0⟩, ⟨0, 1, 0⟩, none, none, none, 0, false, false⟩
        (⟨⟨0, 0, 5⟩, 0, 0, 0, 0⟩ : ShapeSampleContext).p >
          Triangle.MaxSphericalSampleArea)) ∧
    (Triangle.pdfWeights
        ⟨⟨0, 0, 0⟩, ⟨1, 0, 0⟩, ⟨0, 1, 0⟩, none, none, none, 0, false, false⟩
        ⟨⟨0, 0, 5⟩, 0, 0, 0, 0⟩ =
      Triangle.sampleWeights
        ⟨⟨0, 0, 0⟩, ⟨1, 0, 0⟩, ⟨0, 1, 0⟩, none, none, none, 0, false, false⟩
        ⟨⟨0, 0, 5⟩, 0, 0, 0, 0⟩ ∧
     ∃ ss, Triangle.SampleCtx
        ⟨fun _ => (1/3, 1/3, 1/3), fun _ _ _ => 1, fun u _ => u, fun _ _ => 1,
          fun _ _ _ _ _ => ((1/3, 1/3, 1/3), 1),
          fun _ _ => some ⟨⟨⟨1/3, 1/3, 0⟩, 0, ⟨0, 0⟩, 0, 0, 0, 0, 0, ⟨0, 0, 1⟩, 0,
            ⟨⟨0, 0, 1⟩, 0, 0, 0, 0⟩, 0⟩, 1⟩,
          fun _ _ _ _ _ => ⟨1/2, 1/2⟩⟩
        ⟨⟨0, 0, 0⟩, ⟨1, 0, 0⟩, ⟨0, 1, 0⟩, none, none, none, 0, false, false⟩
        ⟨⟨0, 0, 5⟩, 0, 0, 0, 0⟩ ⟨1/2, 1/2⟩ = some ss ∧
      ss.intr.p = (1/3 : ℝ) • (⟨0, 0, 0⟩ : V3) + (1/3 : ℝ) • (⟨1, 0, 0⟩ : V3) +
        (1/3 : ℝ) • (⟨0, 1, 0⟩ : V3) ∧
      Triangle.PDFCtx
        ⟨fun _ => (1/3, 1/3, 1/3), fun _ _ _ => 1, fun u _ => u, fun _ _ => 1,
          fun _ _ _ _ _ => ((1/3, 1/3, 1/3), 1),
          fun _ _ => some ⟨⟨⟨1/3, 1/3, 0⟩, 0, ⟨0, 0⟩, 0, 0, 0, 0, 0, ⟨0, 0, 1⟩, 0,
            ⟨⟨0, 0, 1⟩, 0, 0, 0, 0⟩, 0⟩, 1⟩,
          fun _ _ _ _ _ => ⟨1/2, 1/2⟩⟩
        ⟨⟨0, 0, 0⟩, ⟨1, 0, 0⟩, ⟨0, 1, 0⟩, none, none, none, 0, false, false⟩
        ⟨⟨0, 0, 5⟩, 0, 0, 0, 0⟩ (Normalize (ss.intr.p -
          (⟨⟨0, 0, 5⟩, 0, 0, 0, 0⟩ : ShapeSampleContext).p)) = ss.pdf) := by
  have hsa1 : ¬(Triangle.SolidAngle
      ⟨fun _ => (1/3, 1/3, 1/3), fun _ _ _ => 1, fun u _ => u, fun _ _ => 1,
        fun _ _ _ _ _ => ((1/3, 1/3, 1/3), 1),
        fun _ _ => some ⟨⟨⟨1/3, 1/3, 0⟩, 0, ⟨0, 0⟩, 0, 0, 0, 0, 0, ⟨0, 0, 1⟩, 0,
          ⟨⟨0, 0, 1⟩, 0, 0, 0, 0⟩, 0⟩, 1⟩,
        fun _ _ _ _ _ => ⟨1/2, 1/2⟩⟩
      ⟨⟨0, 0, 0⟩, ⟨1, 0, 0⟩, ⟨0, 1, 0⟩, none, none, none, 0, false, false⟩
      (⟨⟨0, 0, 5⟩, 0, 0, 0, 0⟩ : ShapeSampleContext).p <
        Triangle.MinSphericalSampleArea ∨
      Triangle.SolidAngle
      ⟨fun _ => (1/3, 1/3, 1/3), fun _ _ _ => 1, fun u _ => u, fun _ _ => 1,
        fun _ _ _ _ _ => ((1/3, 1/3, 1/3), 1),
        fun _ _ => some ⟨⟨⟨1/3, 1/3, 0⟩, 0, ⟨0, 0⟩, 0, 0, 0, 0, 0, ⟨0, 0, 1⟩, 0,
          ⟨⟨0, 0, 1⟩, 0, 0, 0, 0⟩, 0⟩, 1⟩,
        fun _ _ _ _ _ => ⟨1/2, 1/2⟩⟩
      ⟨⟨0, 0, 0⟩, ⟨1, 0, 0⟩, ⟨0, 1, 0⟩, none, none, none, 0, false, false⟩
      (⟨⟨0, 0, 5⟩, 0, 0, 0, 0⟩ : ShapeSampleContext).p >
        Triangle.MaxSphericalSampleArea) := by
    unfold Triangle.SolidAngle Triangle.MinSphericalSampleArea
      Triangle.MaxSphericalSampleArea
    norm_num
  have htriPDF : (1 : ℝ) = 1 / Triangle.SolidAngle
      ⟨fun _ => (1/3, 1/3, 1/3), fun _ _ _ => 1, fun u _ => u, fun _ _ => 1,
        fun _ _ _ _ _ => ((1/3, 1/3, 1/3), 1),
        fun _ _ => some ⟨⟨⟨1/3, 1/3, 0⟩, 0, ⟨0, 0⟩, 0, 0, 0, 0, 0, ⟨0, 0, 1⟩, 0,
          ⟨⟨0, 0, 1⟩, 0, 0, 0, 0⟩, 0⟩, 1⟩,
        fun _ _ _ _ _ => ⟨1/2, 1/2⟩⟩
      ⟨⟨0, 0, 0⟩, ⟨1, 0, 0⟩, ⟨0, 1, 0⟩, none, none, none, 0, false, false⟩
      (⟨⟨0, 0, 5⟩, 0, 0, 0, 0⟩ : ShapeSampleContext).p := by
    unfold Triangle.SolidAngle
    norm_num
  have hinv : (⟨1/2, 1/2⟩ : Pt2) =
      (if (⟨⟨0, 0, 5⟩, 0, 0, 0, 0⟩ : ShapeSampleContext).ns ≠ (0 : V3) then
        (⟨fun _ => (1/3, 1/3, 1/3), fun _ _ _ => 1, fun u _ => u, fun _ _ => 1,
          fun _ _ _ _ _ => ((1/3, 1/3, 1/3), 1),
          fun _ _ => some ⟨⟨⟨1/3, 1/3, 0⟩, 0, ⟨0, 0⟩, 0, 0, 0, 0, 0, ⟨0, 0, 1⟩, 0,
            ⟨⟨0, 0, 1⟩, 0, 0, 0, 0⟩, 0⟩, 1⟩,
          fun _ _ _ _ _ => ⟨1/2, 1/2⟩⟩ : TriEnv).sampleBilinear ⟨1/2, 1/2⟩
          (Triangle.sampleWeights
            ⟨⟨0, 0, 0⟩, ⟨1, 0, 0⟩, ⟨0, 1, 0⟩, none, none, none, 0, false, false⟩
            ⟨⟨0, 0, 5⟩, 0, 0, 0, 0⟩)
      else ⟨1/2, 1/2⟩) := by
    rw [if_neg (show ¬((⟨⟨0, 0, 5⟩, 0, 0, 0, 0⟩ : ShapeSampleContext).ns ≠ (0 : V3))
      from not_not_intro rfl)]
  exact ⟨hsa1, claim_C3 _ _ _ ⟨1/2, 1/2⟩ (1/3, 1/3, 1/3) 1 hsa1 rfl htriPDF rfl hinv⟩
